import Mathlib

/-!
# vx_loomsl `kernels.cpp`: node construction and kernel publication

A shallow embedding of `vx_loomsl/kernels/kernels.cpp`.  The file is glue over an
OpenVX host: every function in it is a sequence of host calls.  The host is a
parameter (`Host σ`, a deterministic machine over an arbitrary state `σ`), every
function of the file becomes a computation in `HostM σ` which threads the host
state and records the calls it makes, in order, with the answers it received.
-/

namespace Loomsl

/-! ## Host types -/

/-- Status code `vx_status` (a C `int` enumeration). -/
abbrev vx_status := Int
/-- Generic enumeration value `vx_enum` (a C `int`). -/
abbrev vx_enum := Int
/-- Unsigned value `vx_uint32`; it is only passed through, never computed with. -/
abbrev vx_uint32 := Nat
/-- The bit pattern of a `vx_float32`; it is only passed through. -/
abbrev vx_float32 := Nat
/-- Host object handle; `0` is the null handle, `(vx_reference)x` is the identity. -/
abbrev vx_reference := Nat
abbrev vx_context := vx_reference
abbrev vx_graph := vx_reference
abbrev vx_kernel := vx_reference
abbrev vx_node := vx_reference
abbrev vx_scalar := vx_reference
abbrev vx_image := vx_reference
abbrev vx_matrix := vx_reference
abbrev vx_array := vx_reference
abbrev vx_remap := vx_reference

/-- OpenVX status `VX_SUCCESS` (value fixed by the OpenVX standard). -/
def VX_SUCCESS : vx_status := 0
/-- OpenVX status `VX_ERROR_NOT_SUPPORTED`. -/
def VX_ERROR_NOT_SUPPORTED : vx_status := -3
/-- OpenVX status `VX_ERROR_NO_MEMORY`. -/
def VX_ERROR_NO_MEMORY : vx_status := -8
/-- OpenVX status `VX_ERROR_INVALID_PARAMETERS`. -/
def VX_ERROR_INVALID_PARAMETERS : vx_status := -10

/-- The scalar types used by the node constructors. -/
inductive vx_type_e
  | VX_TYPE_UINT32
  | VX_TYPE_FLOAT32
  | VX_TYPE_ENUM
  deriving DecidableEq, Repr

/-- The value a `vxCreateScalar` call points at (`&x` for a local `x`). -/
inductive ScalarValue
  | uint32 (v : vx_uint32)
  | float32 (v : vx_float32)
  | enum (v : vx_enum)
  deriving DecidableEq, Repr

/-- The custom image formats named in `vxPublishKernels`. -/
inductive vx_df_image
  | VX_DF_IMAGE_Y210_AMD
  | VX_DF_IMAGE_Y212_AMD
  | VX_DF_IMAGE_Y216_AMD
  | VX_DF_IMAGE_RGB4_AMD
  deriving DecidableEq, Repr

inductive vx_color_space_e
  | VX_COLOR_SPACE_DEFAULT
  deriving DecidableEq, Repr

inductive vx_channel_range_e
  | VX_CHANNEL_RANGE_FULL
  deriving DecidableEq, Repr

/-- Image format descriptor of the host, in the field order of its initialiser
`{ components, planes, pixelSizeInBits, colorSpace, channelRange }`. -/
structure AgoImageFormatDescription where
  components : Nat
  planes : Nat
  pixelSizeInBits : Nat
  colorSpace : vx_color_space_e
  channelRange : vx_channel_range_e
  deriving DecidableEq, Repr

/-- The `*_publish` functions called by `vxPublishKernels`; they are defined in
the stage sources, outside `kernels.cpp`. -/
inductive PublishFn
  | color_convert_publish
  | warp_publish
  | exposure_compensation_publish
  | exposure_comp_calcErrorFn_publish
  | exposure_comp_solvegains_publish
  | exposure_comp_applygains_publish
  | merge_publish
  | alpha_blend_publish
  | multiband_blend_publish
  | half_scale_gaussian_publish
  | upscale_gaussian_subtract_publish
  | upscale_gaussian_add_publish
  | laplacian_reconstruct_publish
  | seamfind_model_publish
  | seamfind_scene_detect_publish
  | seamfind_cost_generate_publish
  | seamfind_cost_accumulate_publish
  | seamfind_path_trace_publish
  | seamfind_set_weights_publish
  deriving DecidableEq, Repr, Fintype

/-- The kernel enumerators that the node constructors of `kernels.cpp` pass to
`stitchCreateNode`.  Their numeric values are declared in `kernels.h`. -/
inductive StitchKernel
  | AMDOVX_KERNEL_STITCHING_INITIALIZE_STITCH_CONFIG
  | AMDOVX_KERNEL_STITCHING_COLOR_CONVERT
  | AMDOVX_KERNEL_STITCHING_WARP
  | AMDOVX_KERNEL_STITCHING_MERGE
  | AMDOVX_KERNEL_STITCHING_ALPHA_BLEND
  | AMDOVX_KERNEL_STITCHING_INITIALIZE_STITCH_REMAP
  | AMDOVX_KERNEL_STITCHING_EXPCOMP_COMPUTE_GAINMAT
  | AMDOVX_KERNEL_STITCHING_EXPCOMP_SOLVE
  | AMDOVX_KERNEL_STITCHING_EXPCOMP_APPLYGAINS
  | AMDOVX_KERNEL_STITCHING_SEAMFIND_MODEL
  | AMDOVX_KERNEL_STITCHING_SEAMFIND_SCENE_DETECT
  | AMDOVX_KERNEL_STITCHING_SEAMFIND_COST_GENERATE
  | AMDOVX_KERNEL_STITCHING_SEAMFIND_COST_ACCUMULATE
  | AMDOVX_KERNEL_STITCHING_SEAMFIND_PATH_TRACE
  | AMDOVX_KERNEL_STITCHING_SEAMFIND_SET_WEIGHTS
  | AMDOVX_KERNEL_STITCHING_MULTIBAND_BLEND
  | AMDOVX_KERNEL_STITCHING_HALF_SCALE_GAUSSIAN
  | AMDOVX_KERNEL_STITCHING_UPSCALE_GAUSSIAN_SUBTRACT
  | AMDOVX_KERNEL_STITCHING_UPSCALE_GAUSSIAN_ADD
  | AMDOVX_KERNEL_STITCHING_LAPLACIAN_RECONSTRUCT
  deriving DecidableEq, Repr, Fintype

/-- The text of a log entry: the format string used, with its arguments. -/
inductive LogText
  /-- `"stitchCreateNode: vxSetParameterByIndex(%s, %d, 0x%p) => %d\n"` -/
  | setParameterFailed (kernelName : String) (p : vx_uint32) (param : vx_reference)
      (status : vx_status)
  /-- `"Failed to create node with kernel enum %d\n"` -/
  | createFailedEnum (kernelEnum : vx_enum)
  /-- `"failed to retrieve kernel enum %d\n"` -/
  | retrieveFailedEnum (kernelEnum : vx_enum)
  /-- `"Failed to create node with kernel %s\n"` -/
  | createFailedName (kernelName : String)
  /-- `"failed to retrieve kernel %s\n"` -/
  | retrieveFailedName (kernelName : String)
  deriving DecidableEq, Repr

/-- One call made by the code, with its arguments and, where the code receives
one, the answer.  The two `stitchCreateNode*` entries record the entry into the
local utility function, with the arguments it was given. -/
inductive Call
  | vxSetContextImageFormatDescription (context : vx_context) (format : vx_df_image)
      (desc : AgoImageFormatDescription)
  | publish (f : PublishFn) (context : vx_context) (ret : vx_status)
  | vxGetContext (ref : vx_reference) (ret : vx_context)
  | vxGetKernelByEnum (context : vx_context) (kernelEnum : vx_enum) (ret : vx_kernel)
  | vxGetKernelByName (context : vx_context) (kernelName : String) (ret : vx_kernel)
  | vxCreateGenericNode (graph : vx_graph) (kernel : vx_kernel) (ret : vx_node)
  | vxSetParameterByIndex (node : vx_node) (index : vx_uint32) (value : vx_reference)
      (ret : vx_status)
  | vxQueryKernel (kernel : vx_kernel) (ret : String)
  | vxAddLogEntry (ref : vx_reference) (status : vx_status) (text : LogText)
  | vxReleaseNode (node : vx_node)
  | vxReleaseKernel (kernel : vx_kernel)
  | vxCreateScalar (context : vx_context) (type : vx_type_e) (value : ScalarValue)
      (ret : vx_scalar)
  | vxReleaseScalar (scalar : vx_scalar)
  | stitchCreateNodeEnum (graph : vx_graph) (kernelEnum : vx_enum)
      (params : List vx_reference) (num : vx_uint32)
  | stitchCreateNodeName (graph : vx_graph) (kernelName : String)
      (params : List vx_reference) (num : vx_uint32)
  deriving DecidableEq, Repr

/-- The OpenVX host the module runs against, as a deterministic machine over a
state `σ`: each entry point maps its arguments and the current state to its
answer and the next state.  Entry points whose result the code ignores only
give the next state.  `vxQueryKernel` is the query of `VX_KERNEL_ATTRIBUTE_NAME`
and answers with the name it writes to the buffer. -/
structure Host (σ : Type) where
  setContextImageFormatDescription :
    vx_context → vx_df_image → AgoImageFormatDescription → σ → σ
  getContext : vx_reference → σ → vx_context × σ
  getKernelByEnum : vx_context → vx_enum → σ → vx_kernel × σ
  getKernelByName : vx_context → String → σ → vx_kernel × σ
  createGenericNode : vx_graph → vx_kernel → σ → vx_node × σ
  setParameterByIndex : vx_node → vx_uint32 → vx_reference → σ → vx_status × σ
  queryKernel : vx_kernel → σ → String × σ
  addLogEntry : vx_reference → vx_status → LogText → σ → σ
  releaseNode : vx_node → σ → σ
  releaseKernel : vx_kernel → σ → σ
  createScalar : vx_context → vx_type_e → ScalarValue → σ → vx_scalar × σ
  releaseScalar : vx_scalar → σ → σ

/-! ## Computations against the host -/

/-- Outcome of a computation: its value, the calls it made, the host state it left. -/
structure Out (σ α : Type) where
  val : α
  calls : List Call
  host : σ

/-- A computation that talks to the host. -/
def HostM (σ α : Type) : Type := σ → Out σ α

namespace HostM

variable {σ α β : Type}

/-- Return a value without calling the host. -/
def ret (a : α) : HostM σ α := fun s => ⟨a, [], s⟩

/-- Sequencing: the calls of the first computation come before those of the second. -/
def andThen (x : HostM σ α) (f : α → HostM σ β) : HostM σ β := fun s =>
  let r := x s
  let q := f r.val r.host
  ⟨q.val, r.calls ++ q.calls, q.host⟩

instance : Monad (HostM σ) where
  pure := ret
  bind := andThen

/-- One host call with an answer: `step` is the host entry point applied to its
arguments, `ev` builds the record of the call from the answer. -/
def ask (step : σ → α × σ) (ev : α → Call) : HostM σ α := fun s =>
  let r := step s
  ⟨r.1, [ev r.1], r.2⟩

/-- One host call whose result is ignored. -/
def tell (step : σ → σ) (ev : Call) : HostM σ Unit := fun s => ⟨(), [ev], step s⟩

/-- Record a call that does not touch the host. -/
def note (ev : Call) : HostM σ Unit := fun s => ⟨(), [ev], s⟩

end HostM

section HostCalls

variable {σ : Type} (h : Host σ)

def vxSetContextImageFormatDescription (context : vx_context) (format : vx_df_image)
    (desc : AgoImageFormatDescription) : HostM σ Unit :=
  HostM.tell (h.setContextImageFormatDescription context format desc)
    (Call.vxSetContextImageFormatDescription context format desc)

def vxGetContext (ref : vx_reference) : HostM σ vx_context :=
  HostM.ask (h.getContext ref) (Call.vxGetContext ref)

def vxGetKernelByEnum (context : vx_context) (kernelEnum : vx_enum) : HostM σ vx_kernel :=
  HostM.ask (h.getKernelByEnum context kernelEnum) (Call.vxGetKernelByEnum context kernelEnum)

def vxGetKernelByName (context : vx_context) (kernelName : String) : HostM σ vx_kernel :=
  HostM.ask (h.getKernelByName context kernelName) (Call.vxGetKernelByName context kernelName)

def vxCreateGenericNode (graph : vx_graph) (kernel : vx_kernel) : HostM σ vx_node :=
  HostM.ask (h.createGenericNode graph kernel) (Call.vxCreateGenericNode graph kernel)

def vxSetParameterByIndex (node : vx_node) (index : vx_uint32) (value : vx_reference) :
    HostM σ vx_status :=
  HostM.ask (h.setParameterByIndex node index value)
    (Call.vxSetParameterByIndex node index value)

def vxQueryKernel (kernel : vx_kernel) : HostM σ String :=
  HostM.ask (h.queryKernel kernel) (Call.vxQueryKernel kernel)

def vxAddLogEntry (ref : vx_reference) (status : vx_status) (text : LogText) : HostM σ Unit :=
  HostM.tell (h.addLogEntry ref status text) (Call.vxAddLogEntry ref status text)

def vxReleaseNode (node : vx_node) : HostM σ Unit :=
  HostM.tell (h.releaseNode node) (Call.vxReleaseNode node)

def vxReleaseKernel (kernel : vx_kernel) : HostM σ Unit :=
  HostM.tell (h.releaseKernel kernel) (Call.vxReleaseKernel kernel)

def vxCreateScalar (context : vx_context) (type : vx_type_e) (value : ScalarValue) :
    HostM σ vx_scalar :=
  HostM.ask (h.createScalar context type value) (Call.vxCreateScalar context type value)

def vxReleaseScalar (scalar : vx_scalar) : HostM σ Unit :=
  HostM.tell (h.releaseScalar scalar) (Call.vxReleaseScalar scalar)

end HostCalls

/-! ## `stitchCreateNode` -/

/-- The array read `params[p]`.  The code reads `params[p]` only for `p < num`,
and every caller in the file passes `num = dimof(params)`; an index past the
end of the list reads as null. -/
def paramAt (params : List vx_reference) (p : vx_uint32) : vx_reference := params.getD p 0

/-- The local variables `status` and `node` of `stitchCreateNode`. -/
structure Locals where
  status : vx_status
  node : vx_node
  deriving DecidableEq, Repr

section CreateNode

variable {σ : Type} (h : Host σ)

/-- The `for (p = 0; p < num; p++)` loop of the overload taking a kernel enum
(lines 105-117), with `n` iterations left and the next index `p`; `params[p]`
is `paramAt params p`.  On a failed binding the node is released, `node` is set
to `0` and the loop is left. -/
def stitchCreateNode.loopEnum (graph : vx_graph) (kernel : vx_kernel)
    (params : List vx_reference) : Nat → vx_uint32 → Locals → HostM σ Locals
  | 0, _, l => pure l
  | n + 1, p, l =>
    if paramAt params p ≠ 0 then do
      let status ← vxSetParameterByIndex h l.node p (paramAt params p)
      if status ≠ VX_SUCCESS then do
        let kernelName ← vxQueryKernel h kernel
        vxAddLogEntry h graph status
          (LogText.setParameterFailed kernelName p (paramAt params p) status)
        vxReleaseNode h l.node
        pure ⟨status, 0⟩
      else stitchCreateNode.loopEnum graph kernel params n (p + 1) ⟨status, l.node⟩
    else stitchCreateNode.loopEnum graph kernel params n (p + 1) l

/-- Body of `stitchCreateNode(vx_graph, vx_enum, vx_reference[], vx_uint32)`
(lines 95-130), giving the locals as they are at `return node`. -/
def stitchCreateNode.bodyEnum (graph : vx_graph) (kernelEnum : vx_enum)
    (params : List vx_reference) (num : vx_uint32) : HostM σ Locals := do
  HostM.note (Call.stitchCreateNodeEnum graph kernelEnum params num)
  let context ← vxGetContext h graph
  let kernel ← vxGetKernelByEnum h context kernelEnum
  if kernel ≠ 0 then do
    let node ← vxCreateGenericNode h graph kernel
    if node ≠ 0 then do
      let l ← stitchCreateNode.loopEnum h graph kernel params num 0 ⟨VX_SUCCESS, node⟩
      vxReleaseKernel h kernel
      pure l
    else do
      vxAddLogEntry h graph VX_ERROR_INVALID_PARAMETERS (LogText.createFailedEnum kernelEnum)
      vxReleaseKernel h kernel
      pure ⟨VX_ERROR_NO_MEMORY, node⟩
  else do
    vxAddLogEntry h graph VX_ERROR_INVALID_PARAMETERS (LogText.retrieveFailedEnum kernelEnum)
    pure ⟨VX_ERROR_NOT_SUPPORTED, 0⟩

/-- The overload `stitchCreateNode(vx_graph, vx_enum, vx_reference[], vx_uint32)`:
it returns `node`. -/
def stitchCreateNode (graph : vx_graph) (kernelEnum : vx_enum)
    (params : List vx_reference) (num : vx_uint32) : HostM σ vx_node := do
  let l ← stitchCreateNode.bodyEnum h graph kernelEnum params num
  pure l.node

/-- The loop of the overload taking a kernel name (lines 142-152). -/
def stitchCreateNode.loopName (graph : vx_graph) (kernelName : String)
    (params : List vx_reference) : Nat → vx_uint32 → Locals → HostM σ Locals
  | 0, _, l => pure l
  | n + 1, p, l =>
    if paramAt params p ≠ 0 then do
      let status ← vxSetParameterByIndex h l.node p (paramAt params p)
      if status ≠ VX_SUCCESS then do
        vxAddLogEntry h graph status
          (LogText.setParameterFailed kernelName p (paramAt params p) status)
        vxReleaseNode h l.node
        pure ⟨status, 0⟩
      else stitchCreateNode.loopName graph kernelName params n (p + 1) ⟨status, l.node⟩
    else stitchCreateNode.loopName graph kernelName params n (p + 1) l

/-- Body of `stitchCreateNode(vx_graph, const char *, vx_reference[], vx_uint32)`
(lines 132-165), giving the locals as they are at `return node`. -/
def stitchCreateNode.bodyName (graph : vx_graph) (kernelName : String)
    (params : List vx_reference) (num : vx_uint32) : HostM σ Locals := do
  HostM.note (Call.stitchCreateNodeName graph kernelName params num)
  let context ← vxGetContext h graph
  let kernel ← vxGetKernelByName h context kernelName
  if kernel ≠ 0 then do
    let node ← vxCreateGenericNode h graph kernel
    if node ≠ 0 then do
      let l ← stitchCreateNode.loopName h graph kernelName params num 0 ⟨VX_SUCCESS, node⟩
      vxReleaseKernel h kernel
      pure l
    else do
      vxAddLogEntry h graph VX_ERROR_INVALID_PARAMETERS (LogText.createFailedName kernelName)
      vxReleaseKernel h kernel
      pure ⟨VX_ERROR_NO_MEMORY, node⟩
  else do
    vxAddLogEntry h graph VX_ERROR_INVALID_PARAMETERS (LogText.retrieveFailedName kernelName)
    pure ⟨VX_ERROR_NOT_SUPPORTED, 0⟩

/-- The overload `stitchCreateNode(vx_graph, const char *, vx_reference[], vx_uint32)`. -/
def stitchCreateNodeByName (graph : vx_graph) (kernelName : String)
    (params : List vx_reference) (num : vx_uint32) : HostM σ vx_node := do
  let l ← stitchCreateNode.bodyName h graph kernelName params num
  pure l.node

end CreateNode

/-! ## `vxPublishKernels` -/

section Publish

variable {σ : Type} (h : Host σ) (pub : PublishFn → vx_context → σ → vx_status × σ)

/-- A call `f(context)` of one of the `*_publish` functions; `pub` gives what
each of them answers and does to the host. -/
def callPublish (f : PublishFn) (context : vx_context) : HostM σ vx_status :=
  HostM.ask (pub f context) (Call.publish f context)

/-- The macro `ERROR_CHECK_STATUS(call)` followed by the rest of the function:
the status of `call` is returned at once when it is not `VX_SUCCESS`. -/
def ERROR_CHECK_STATUS (call : HostM σ vx_status) (rest : HostM σ vx_status) :
    HostM σ vx_status := do
  let status ← call
  if status ≠ VX_SUCCESS then pure status else rest

/-- The module entry point `vxPublishKernels` (lines 39-69). -/
def vxPublishKernels (context : vx_context) : HostM σ vx_status := do
  let desc : AgoImageFormatDescription :=
    ⟨3, 1, 32, vx_color_space_e.VX_COLOR_SPACE_DEFAULT,
      vx_channel_range_e.VX_CHANNEL_RANGE_FULL⟩
  vxSetContextImageFormatDescription h context vx_df_image.VX_DF_IMAGE_Y210_AMD desc
  vxSetContextImageFormatDescription h context vx_df_image.VX_DF_IMAGE_Y212_AMD desc
  vxSetContextImageFormatDescription h context vx_df_image.VX_DF_IMAGE_Y216_AMD desc
  let desc : AgoImageFormatDescription :=
    ⟨3, 1, 48, vx_color_space_e.VX_COLOR_SPACE_DEFAULT,
      vx_channel_range_e.VX_CHANNEL_RANGE_FULL⟩
  vxSetContextImageFormatDescription h context vx_df_image.VX_DF_IMAGE_RGB4_AMD desc
  ERROR_CHECK_STATUS (callPublish pub PublishFn.color_convert_publish context) <|
  ERROR_CHECK_STATUS (callPublish pub PublishFn.warp_publish context) <|
  ERROR_CHECK_STATUS (callPublish pub PublishFn.exposure_compensation_publish context) <|
  ERROR_CHECK_STATUS (callPublish pub PublishFn.exposure_comp_calcErrorFn_publish context) <|
  ERROR_CHECK_STATUS (callPublish pub PublishFn.exposure_comp_solvegains_publish context) <|
  ERROR_CHECK_STATUS (callPublish pub PublishFn.exposure_comp_applygains_publish context) <|
  ERROR_CHECK_STATUS (callPublish pub PublishFn.merge_publish context) <|
  ERROR_CHECK_STATUS (callPublish pub PublishFn.alpha_blend_publish context) <|
  ERROR_CHECK_STATUS (callPublish pub PublishFn.multiband_blend_publish context) <|
  ERROR_CHECK_STATUS (callPublish pub PublishFn.half_scale_gaussian_publish context) <|
  ERROR_CHECK_STATUS (callPublish pub PublishFn.upscale_gaussian_subtract_publish context) <|
  ERROR_CHECK_STATUS (callPublish pub PublishFn.upscale_gaussian_add_publish context) <|
  ERROR_CHECK_STATUS (callPublish pub PublishFn.laplacian_reconstruct_publish context) <|
  ERROR_CHECK_STATUS (callPublish pub PublishFn.seamfind_model_publish context) <|
  ERROR_CHECK_STATUS (callPublish pub PublishFn.seamfind_scene_detect_publish context) <|
  ERROR_CHECK_STATUS (callPublish pub PublishFn.seamfind_cost_generate_publish context) <|
  ERROR_CHECK_STATUS (callPublish pub PublishFn.seamfind_cost_accumulate_publish context) <|
  ERROR_CHECK_STATUS (callPublish pub PublishFn.seamfind_path_trace_publish context) <|
  ERROR_CHECK_STATUS (callPublish pub PublishFn.seamfind_set_weights_publish context) <|
  pure VX_SUCCESS

end Publish
/-! ## The node constructors -/

section Constructors

variable {σ : Type} (h : Host σ) (K : StitchKernel → vx_enum)

/-- The macro `dimof(params)`: the number of entries of the array `params`.
In the constructors below `K` gives the numeric value of each kernel enumerator. -/
abbrev dimof (params : List vx_reference) : vx_uint32 := params.length

/-- The constructor `stitchInitializeStitchConfigNode` (lines 189-246). -/
def stitchInitializeStitchConfigNode (graph : vx_graph) (num_buff_rows : vx_uint32)
    (num_buff_cols : vx_uint32) (cam_buffer_width : vx_uint32) (cam_buffer_height : vx_uint32)
    (dst_width : vx_uint32) (rig_param : vx_matrix) (camera_param : vx_array)
    (InitializeStitchConfig : vx_matrix) (valid_pixels : vx_array) (warp_remap : vx_array)
    (overlap_pixel : vx_array) (overlap_count : vx_matrix) (warp_image : vx_image)
    (exp_comp_image : vx_image) (weight_image : vx_image) (camera_id_image : vx_image)
    (group1_image : vx_image) (group2_image : vx_image) (exp_comp_calc : vx_array)
    (mask_image : vx_image) (overlap_rect : vx_array) (seamfind_valid : vx_array)
    (seamfind_accum : vx_array) (seamfind_weight : vx_array) (seamfind_pref : vx_array)
    (seamfind_info : vx_array) (twoband_blend : vx_array) :
    HostM σ vx_node := do
  let context ← vxGetContext h graph
  let s_num_rows ← vxCreateScalar h context vx_type_e.VX_TYPE_UINT32
    (ScalarValue.uint32 num_buff_rows)
  let s_num_cols ← vxCreateScalar h context vx_type_e.VX_TYPE_UINT32
    (ScalarValue.uint32 num_buff_cols)
  let s_buffer_width ← vxCreateScalar h context vx_type_e.VX_TYPE_UINT32
    (ScalarValue.uint32 cam_buffer_width)
  let s_buffer_height ← vxCreateScalar h context vx_type_e.VX_TYPE_UINT32
    (ScalarValue.uint32 cam_buffer_height)
  let s_dst_width ← vxCreateScalar h context vx_type_e.VX_TYPE_UINT32
    (ScalarValue.uint32 dst_width)
  let params : List vx_reference := [s_num_rows, s_num_cols, s_buffer_width, s_buffer_height,
    s_dst_width, rig_param, camera_param, InitializeStitchConfig, valid_pixels, warp_remap,
    overlap_pixel, overlap_count, warp_image, exp_comp_image, weight_image, camera_id_image,
    group1_image, group2_image, exp_comp_calc, mask_image, overlap_rect, seamfind_valid,
    seamfind_accum, seamfind_weight, seamfind_pref, seamfind_info, twoband_blend]
  let node ← stitchCreateNode h graph
    (K StitchKernel.AMDOVX_KERNEL_STITCHING_INITIALIZE_STITCH_CONFIG) params (dimof params)
  vxReleaseScalar h s_num_rows
  vxReleaseScalar h s_num_cols
  vxReleaseScalar h s_buffer_width
  vxReleaseScalar h s_buffer_height
  vxReleaseScalar h s_dst_width
  pure node

/-- The constructor `stitchColorConvertNode` (lines 251-264). -/
def stitchColorConvertNode (graph : vx_graph) (input : vx_image) (output : vx_image) :
    HostM σ vx_node := do
  let params : List vx_reference := [input, output]
  let node ← stitchCreateNode h graph
    (K StitchKernel.AMDOVX_KERNEL_STITCHING_COLOR_CONVERT) params (dimof params)
  pure node

/-- The constructor `stitchWarpNode` (lines 269-293). -/
def stitchWarpNode (graph : vx_graph) (method : vx_enum) (num_cam : vx_uint32)
    (ValidPixelEntry : vx_array) (WarpRemapEntry : vx_array) (input : vx_image)
    (output : vx_image) (outputLuma : vx_image) (num_camera_columns : vx_uint32) :
    HostM σ vx_node := do
  let METHOD ← vxCreateScalar h (← vxGetContext h graph) vx_type_e.VX_TYPE_ENUM
    (ScalarValue.enum method)
  let NUM_CAM ← vxCreateScalar h (← vxGetContext h graph) vx_type_e.VX_TYPE_UINT32
    (ScalarValue.uint32 num_cam)
  let s_num_camera_columns ← vxCreateScalar h (← vxGetContext h graph) vx_type_e.VX_TYPE_UINT32
    (ScalarValue.uint32 num_camera_columns)
  let params : List vx_reference := [METHOD, NUM_CAM, ValidPixelEntry, WarpRemapEntry, input,
    output, outputLuma, s_num_camera_columns]
  let node ← stitchCreateNode h graph
    (K StitchKernel.AMDOVX_KERNEL_STITCHING_WARP) params (dimof params)
  vxReleaseScalar h METHOD
  vxReleaseScalar h NUM_CAM
  vxReleaseScalar h s_num_camera_columns
  pure node

/-- The constructor `stitchMergeNode` (lines 298-314). -/
def stitchMergeNode (graph : vx_graph) (camera_id_image : vx_image) (group1_image : vx_image)
    (group2_image : vx_image) (input : vx_image) (weight_image : vx_image) (output : vx_image) :
    HostM σ vx_node := do
  let params : List vx_reference := [camera_id_image, group1_image, group2_image, input,
    weight_image, output]
  let node ← stitchCreateNode h graph
    (K StitchKernel.AMDOVX_KERNEL_STITCHING_MERGE) params (dimof params)
  pure node

/-- The constructor `stitchAlphaBlendNode` (lines 319-332). -/
def stitchAlphaBlendNode (graph : vx_graph) (input_rgb : vx_image) (input_rgba : vx_image)
    (output_rgb : vx_image) :
    HostM σ vx_node := do
  let params : List vx_reference := [input_rgb, input_rgba, output_rgb]
  let node ← stitchCreateNode h graph
    (K StitchKernel.AMDOVX_KERNEL_STITCHING_ALPHA_BLEND) params (dimof params)
  pure node

/-- The constructor `stitchInitializeStitchRemapNode` (lines 337-368). -/
def stitchInitializeStitchRemapNode (graph : vx_graph) (num_buff_rows : vx_uint32)
    (num_buff_cols : vx_uint32) (cam_buffer_width : vx_uint32) (cam_buffer_height : vx_uint32)
    (dst_width : vx_uint32) (rig_param : vx_matrix) (camera_param : vx_array) (table : vx_remap) :
    HostM σ vx_node := do
  let context ← vxGetContext h graph
  let s_buff_rows ← vxCreateScalar h context vx_type_e.VX_TYPE_UINT32
    (ScalarValue.uint32 num_buff_rows)
  let s_buff_cols ← vxCreateScalar h context vx_type_e.VX_TYPE_UINT32
    (ScalarValue.uint32 num_buff_cols)
  let s_buffer_width ← vxCreateScalar h context vx_type_e.VX_TYPE_UINT32
    (ScalarValue.uint32 cam_buffer_width)
  let s_buffer_height ← vxCreateScalar h context vx_type_e.VX_TYPE_UINT32
    (ScalarValue.uint32 cam_buffer_height)
  let d_img_width ← vxCreateScalar h context vx_type_e.VX_TYPE_UINT32
    (ScalarValue.uint32 dst_width)
  let params : List vx_reference := [s_buff_rows, s_buff_cols, s_buffer_width, s_buffer_height,
    d_img_width, rig_param, camera_param, table]
  let node ← stitchCreateNode h graph
    (K StitchKernel.AMDOVX_KERNEL_STITCHING_INITIALIZE_STITCH_REMAP) params (dimof params)
  vxReleaseScalar h s_buff_rows
  vxReleaseScalar h s_buff_cols
  vxReleaseScalar h s_buffer_width
  vxReleaseScalar h s_buffer_height
  vxReleaseScalar h d_img_width
  pure node

/-- The constructor `stitchExposureCompCalcErrorFnNode` (lines 373-391). -/
def stitchExposureCompCalcErrorFnNode (graph : vx_graph) (numCameras : vx_uint32)
    (input : vx_image) (exp_data : vx_array) (mask : vx_image) (out_intensity : vx_matrix) :
    HostM σ vx_node := do
  let Num_Camera ← vxCreateScalar h (← vxGetContext h graph) vx_type_e.VX_TYPE_UINT32
    (ScalarValue.uint32 numCameras)
  let params : List vx_reference := [Num_Camera, input, exp_data, mask, out_intensity]
  let node ← stitchCreateNode h graph
    (K StitchKernel.AMDOVX_KERNEL_STITCHING_EXPCOMP_COMPUTE_GAINMAT) params (dimof params)
  vxReleaseScalar h Num_Camera
  pure node

/-- The constructor `stitchExposureCompSolveForGainNode` (lines 396-416). -/
def stitchExposureCompSolveForGainNode (graph : vx_graph) (alpha : vx_float32) (beta : vx_float32)
    (in_intensity : vx_matrix) (in_count : vx_matrix) (out_gains : vx_array) :
    HostM σ vx_node := do
  let Alpha ← vxCreateScalar h (← vxGetContext h graph) vx_type_e.VX_TYPE_FLOAT32
    (ScalarValue.float32 alpha)
  let Beta ← vxCreateScalar h (← vxGetContext h graph) vx_type_e.VX_TYPE_FLOAT32
    (ScalarValue.float32 beta)
  let params : List vx_reference := [Alpha, Beta, in_intensity, in_count, out_gains]
  let node ← stitchCreateNode h graph
    (K StitchKernel.AMDOVX_KERNEL_STITCHING_EXPCOMP_SOLVE) params (dimof params)
  vxReleaseScalar h Alpha
  vxReleaseScalar h Beta
  pure node

/-- The constructor `stitchExposureCompApplyGainNode` (lines 421-436). -/
def stitchExposureCompApplyGainNode (graph : vx_graph) (input : vx_image) (in_gains : vx_array)
    (in_offsets : vx_array) (output : vx_image) :
    HostM σ vx_node := do
  let params : List vx_reference := [input, in_gains, in_offsets, output]
  let node ← stitchCreateNode h graph
    (K StitchKernel.AMDOVX_KERNEL_STITCHING_EXPCOMP_APPLYGAINS) params (dimof params)
  pure node

/-- The constructor `stitchSeamFindModelNode` (lines 441-461). -/
def stitchSeamFindModelNode (graph : vx_graph) (numCam : vx_uint32) (overlap_roi : vx_array)
    (overlap_matrix : vx_matrix) (cost_img : vx_image) (mask_img : vx_image)
    (weight_image : vx_image) (new_weight_image : vx_image) :
    HostM σ vx_node := do
  let CAMERA ← vxCreateScalar h (← vxGetContext h graph) vx_type_e.VX_TYPE_UINT32
    (ScalarValue.uint32 numCam)
  let params : List vx_reference := [CAMERA, overlap_roi, overlap_matrix, cost_img, mask_img,
    weight_image, new_weight_image]
  let node ← stitchCreateNode h graph
    (K StitchKernel.AMDOVX_KERNEL_STITCHING_SEAMFIND_MODEL) params (dimof params)
  pure node

/-- The constructor `stitchSeamFindSceneDetectNode` (lines 464-481). -/
def stitchSeamFindSceneDetectNode (graph : vx_graph) (current_frame : vx_scalar)
    (scene_threshold : vx_scalar) (input_image : vx_image) (seam_info : vx_array)
    (seam_pref : vx_array) (seam_scene_change : vx_array) :
    HostM σ vx_node := do
  let params : List vx_reference := [current_frame, scene_threshold, input_image, seam_info,
    seam_pref, seam_scene_change]
  let node ← stitchCreateNode h graph
    (K StitchKernel.AMDOVX_KERNEL_STITCHING_SEAMFIND_SCENE_DETECT) params (dimof params)
  pure node

/-- The constructor `stitchSeamFindCostGenerateNode` (lines 484-498). -/
def stitchSeamFindCostGenerateNode (graph : vx_graph) (executeFlag : vx_scalar)
    (input_weight_image : vx_image) (magnitude_image : vx_image) (phase_image : vx_image) :
    HostM σ vx_node := do
  let params : List vx_reference := [executeFlag, input_weight_image, magnitude_image,
    phase_image]
  let node ← stitchCreateNode h graph
    (K StitchKernel.AMDOVX_KERNEL_STITCHING_SEAMFIND_COST_GENERATE) params (dimof params)
  pure node

/-- The constructor `stitchSeamFindCostAccumulateNode` (lines 501-527). -/
def stitchSeamFindCostAccumulateNode (graph : vx_graph) (current_frame : vx_scalar)
    (output_width : vx_uint32) (output_height : vx_uint32) (magnitude_img : vx_image)
    (phase_img : vx_image) (mask_img : vx_image) (valid_seam : vx_array) (pref_seam : vx_array)
    (info_seam : vx_array) (accum_seam : vx_array) :
    HostM σ vx_node := do
  let OUTPUT_WIDTH ← vxCreateScalar h (← vxGetContext h graph) vx_type_e.VX_TYPE_UINT32
    (ScalarValue.uint32 output_width)
  let OUTPUT_HEIGHT ← vxCreateScalar h (← vxGetContext h graph) vx_type_e.VX_TYPE_UINT32
    (ScalarValue.uint32 output_height)
  let params : List vx_reference := [current_frame, OUTPUT_WIDTH, OUTPUT_HEIGHT, magnitude_img,
    phase_img, mask_img, valid_seam, pref_seam, info_seam, accum_seam]
  let node ← stitchCreateNode h graph
    (K StitchKernel.AMDOVX_KERNEL_STITCHING_SEAMFIND_COST_ACCUMULATE) params (dimof params)
  vxReleaseScalar h OUTPUT_WIDTH
  vxReleaseScalar h OUTPUT_HEIGHT
  pure node

/-- The constructor `stitchSeamFindPathTraceNode` (lines 530-547). -/
def stitchSeamFindPathTraceNode (graph : vx_graph) (current_frame : vx_scalar)
    (weight_image : vx_image) (seam_info : vx_array) (seam_accum : vx_array)
    (seam_pref : vx_array) (paths : vx_array) :
    HostM σ vx_node := do
  let params : List vx_reference := [current_frame, weight_image, seam_info, seam_accum,
    seam_pref, paths]
  let node ← stitchCreateNode h graph
    (K StitchKernel.AMDOVX_KERNEL_STITCHING_SEAMFIND_PATH_TRACE) params (dimof params)
  pure node

/-- The constructor `stitchSeamFindSetWeightsNode` (lines 550-579). -/
def stitchSeamFindSetWeightsNode (graph : vx_graph) (current_frame : vx_scalar)
    (NumCam : vx_uint32) (output_width : vx_uint32) (output_height : vx_uint32)
    (seam_weight : vx_array) (seam_path : vx_array) (seam_pref : vx_array)
    (weight_image : vx_image) (flags : vx_uint32) :
    HostM σ vx_node := do
  let NUM_CAM ← vxCreateScalar h (← vxGetContext h graph) vx_type_e.VX_TYPE_UINT32
    (ScalarValue.uint32 NumCam)
  let OUTPUT_WIDTH ← vxCreateScalar h (← vxGetContext h graph) vx_type_e.VX_TYPE_UINT32
    (ScalarValue.uint32 output_width)
  let OUTPUT_HEIGHT ← vxCreateScalar h (← vxGetContext h graph) vx_type_e.VX_TYPE_UINT32
    (ScalarValue.uint32 output_height)
  let FLAGS ← vxCreateScalar h (← vxGetContext h graph) vx_type_e.VX_TYPE_UINT32
    (ScalarValue.uint32 flags)
  let params : List vx_reference := [current_frame, NUM_CAM, OUTPUT_WIDTH, OUTPUT_HEIGHT,
    seam_weight, seam_path, seam_pref, weight_image, FLAGS]
  let node ← stitchCreateNode h graph
    (K StitchKernel.AMDOVX_KERNEL_STITCHING_SEAMFIND_SET_WEIGHTS) params (dimof params)
  vxReleaseScalar h NUM_CAM
  vxReleaseScalar h OUTPUT_WIDTH
  vxReleaseScalar h OUTPUT_HEIGHT
  vxReleaseScalar h FLAGS
  pure node

/-- The constructor `stitchMultiBandMergeNode` (lines 584-606). -/
def stitchMultiBandMergeNode (graph : vx_graph) (num_cameras : vx_uint32)
    (blend_array_offs : vx_uint32) (input : vx_image) (weight_img : vx_image)
    (valid_arr : vx_array) (output : vx_image) :
    HostM σ vx_node := do
  let numCam ← vxCreateScalar h (← vxGetContext h graph) vx_type_e.VX_TYPE_UINT32
    (ScalarValue.uint32 num_cameras)
  let array_offs ← vxCreateScalar h (← vxGetContext h graph) vx_type_e.VX_TYPE_UINT32
    (ScalarValue.uint32 blend_array_offs)
  let params : List vx_reference := [numCam, array_offs, input, weight_img, valid_arr, output]
  let node ← stitchCreateNode h graph
    (K StitchKernel.AMDOVX_KERNEL_STITCHING_MULTIBAND_BLEND) params (dimof params)
  vxReleaseScalar h numCam
  vxReleaseScalar h array_offs
  pure node

/-- The constructor `stitchMultiBandHalfScaleGaussianNode` (lines 611-632). -/
def stitchMultiBandHalfScaleGaussianNode (graph : vx_graph) (num_cameras : vx_uint32)
    (blend_array_offs : vx_uint32) (valid_arr : vx_array) (input : vx_image) (output : vx_image) :
    HostM σ vx_node := do
  let numCam ← vxCreateScalar h (← vxGetContext h graph) vx_type_e.VX_TYPE_UINT32
    (ScalarValue.uint32 num_cameras)
  let array_offs ← vxCreateScalar h (← vxGetContext h graph) vx_type_e.VX_TYPE_UINT32
    (ScalarValue.uint32 blend_array_offs)
  let params : List vx_reference := [numCam, array_offs, valid_arr, input, output]
  let node ← stitchCreateNode h graph
    (K StitchKernel.AMDOVX_KERNEL_STITCHING_HALF_SCALE_GAUSSIAN) params (dimof params)
  vxReleaseScalar h numCam
  vxReleaseScalar h array_offs
  pure node

/-- The constructor `stitchMultiBandUpscaleGaussianSubtractNode` (lines 634-657). -/
def stitchMultiBandUpscaleGaussianSubtractNode (graph : vx_graph) (num_cameras : vx_uint32)
    (blend_array_offs : vx_uint32) (input1 : vx_image) (input2 : vx_image) (valid_arr : vx_array)
    (weight_img : vx_image) (output : vx_image) :
    HostM σ vx_node := do
  let numCam ← vxCreateScalar h (← vxGetContext h graph) vx_type_e.VX_TYPE_UINT32
    (ScalarValue.uint32 num_cameras)
  let array_offs ← vxCreateScalar h (← vxGetContext h graph) vx_type_e.VX_TYPE_UINT32
    (ScalarValue.uint32 blend_array_offs)
  let params : List vx_reference := [numCam, array_offs, input1, input2, valid_arr, weight_img,
    output]
  let node ← stitchCreateNode h graph
    (K StitchKernel.AMDOVX_KERNEL_STITCHING_UPSCALE_GAUSSIAN_SUBTRACT) params (dimof params)
  vxReleaseScalar h numCam
  vxReleaseScalar h array_offs
  pure node

/-- The constructor `stitchMultiBandUpscaleGaussianAddNode` (lines 659-681). -/
def stitchMultiBandUpscaleGaussianAddNode (graph : vx_graph) (num_cameras : vx_uint32)
    (blend_array_offs : vx_uint32) (input1 : vx_image) (input2 : vx_image) (valid_arr : vx_array)
    (output : vx_image) :
    HostM σ vx_node := do
  let numCam ← vxCreateScalar h (← vxGetContext h graph) vx_type_e.VX_TYPE_UINT32
    (ScalarValue.uint32 num_cameras)
  let array_offs ← vxCreateScalar h (← vxGetContext h graph) vx_type_e.VX_TYPE_UINT32
    (ScalarValue.uint32 blend_array_offs)
  let params : List vx_reference := [numCam, array_offs, input1, input2, valid_arr, output]
  let node ← stitchCreateNode h graph
    (K StitchKernel.AMDOVX_KERNEL_STITCHING_UPSCALE_GAUSSIAN_ADD) params (dimof params)
  vxReleaseScalar h numCam
  vxReleaseScalar h array_offs
  pure node

/-- The constructor `stitchMultiBandLaplacianReconstructNode` (lines 683-706). -/
def stitchMultiBandLaplacianReconstructNode (graph : vx_graph) (num_cameras : vx_uint32)
    (blend_array_offs : vx_uint32) (input1 : vx_image) (input2 : vx_image) (valid_arr : vx_array)
    (output : vx_image) :
    HostM σ vx_node := do
  let numCam ← vxCreateScalar h (← vxGetContext h graph) vx_type_e.VX_TYPE_UINT32
    (ScalarValue.uint32 num_cameras)
  let array_offs ← vxCreateScalar h (← vxGetContext h graph) vx_type_e.VX_TYPE_UINT32
    (ScalarValue.uint32 blend_array_offs)
  let params : List vx_reference := [numCam, array_offs, input1, input2, valid_arr, output]
  let node ← stitchCreateNode h graph
    (K StitchKernel.AMDOVX_KERNEL_STITCHING_LAPLACIAN_RECONSTRUCT) params (dimof params)
  vxReleaseScalar h numCam
  vxReleaseScalar h array_offs
  pure node

end Constructors

/-! ## Reading a record of calls -/

/-- The binding made by a call, when it is a `vxSetParameterByIndex` call:
node, index, value bound, status answered. -/
def Call.asBinding : Call → Option (vx_node × vx_uint32 × vx_reference × vx_status)
  | Call.vxSetParameterByIndex node index value ret => some (node, index, value, ret)
  | _ => none

/-- The `vxSetParameterByIndex` calls of a record, in order. -/
def bindings (t : List Call) : List (vx_node × vx_uint32 × vx_reference × vx_status) :=
  t.filterMap Call.asBinding

/-- The log entry written by a call, without its text: reference and status. -/
def Call.asLogged : Call → Option (vx_reference × vx_status)
  | Call.vxAddLogEntry ref status _ => some (ref, status)
  | _ => none

/-- The log entries of a record, without their text. -/
def logged (t : List Call) : List (vx_reference × vx_status) := t.filterMap Call.asLogged

/-- The indices `q` with `p ≤ q < p + n` whose `params[q]` is not null, in
increasing order: the indices the loop of `stitchCreateNode` is to bind. -/
def toBind (params : List vx_reference) (p n : Nat) : List Nat :=
  (List.range' p n).filter (fun q => paramAt params q ≠ 0)

/-- The record of a `vxSetParameterByIndex(node, q, params[q])` call answered `st`. -/
def boundAt (node : vx_node) (params : List vx_reference) (st : vx_status) (q : Nat) : Call :=
  Call.vxSetParameterByIndex node q (paramAt params q) st

section Answers

variable {σ : Type} (h : Host σ)

/-- The host's answer to the `vxGetKernelByEnum` call of `stitchCreateNode`, made
after `vxGetContext`: the kernel and the host state after the lookup. -/
def lookupEnum (graph : vx_graph) (kernelEnum : vx_enum) (s : σ) : vx_kernel × σ :=
  h.getKernelByEnum (h.getContext graph s).1 kernelEnum (h.getContext graph s).2

/-- The host's answer to the `vxGetKernelByName` call of `stitchCreateNode`. -/
def lookupName (graph : vx_graph) (kernelName : String) (s : σ) : vx_kernel × σ :=
  h.getKernelByName (h.getContext graph s).1 kernelName (h.getContext graph s).2

/-- The host's answer to `vxCreateGenericNode(graph, kernel)` right after a lookup
that answered `k`. -/
def created (graph : vx_graph) (k : vx_kernel × σ) : vx_node × σ :=
  h.createGenericNode graph k.1 k.2

end Answers

/-- Whether `vxSetParameterByIndex(node, p, params[p])` answers `VX_SUCCESS` for
every index `p` of the `n` indices from `p` on whose `params[p]` is not null,
the calls being made one after the other from the host state `s`. -/
def allBindingsSucceed {σ : Type} (h : Host σ) (node : vx_node) (params : List vx_reference) :
    Nat → vx_uint32 → σ → Bool
  | 0, _, _ => true
  | n + 1, p, s =>
    if paramAt params p ≠ 0 then
      decide ((h.setParameterByIndex node p (paramAt params p) s).1 = VX_SUCCESS) &&
        allBindingsSucceed h node params n (p + 1)
          (h.setParameterByIndex node p (paramAt params p) s).2
    else allBindingsSucceed h node params n (p + 1) s

/-- The first binding that fails, by the host's own answers.  The calls
`vxSetParameterByIndex(node, p, params[p])` for the `n` indices from `p` on
whose `params[p]` is not null are made one after the other from the host state
`s`; the result is the index and the status of the first call that is not
answered `VX_SUCCESS`, and nothing when there is none. -/
def firstBindingFailure {σ : Type} (h : Host σ) (node : vx_node) (params : List vx_reference) :
    Nat → vx_uint32 → σ → Option (vx_uint32 × vx_status)
  | 0, _, _ => none
  | n + 1, p, s =>
    if paramAt params p ≠ 0 then
      if (h.setParameterByIndex node p (paramAt params p) s).1 ≠ VX_SUCCESS then
        some (p, (h.setParameterByIndex node p (paramAt params p) s).1)
      else firstBindingFailure h node params n (p + 1)
        (h.setParameterByIndex node p (paramAt params p) s).2
    else firstBindingFailure h node params n (p + 1) s

/-- The `*_publish` call made by a call of the record, with the status it answered. -/
def Call.asPublish : Call → Option (PublishFn × vx_status)
  | Call.publish f _ ret => some (f, ret)
  | _ => none

/-- The `*_publish` calls of a record, in order, each with its status. -/
def publishCalls (t : List Call) : List (PublishFn × vx_status) := t.filterMap Call.asPublish

/-- The 19 `*_publish` calls of `vxPublishKernels` in source order (lines 49-67). -/
def publishOrder : List PublishFn :=
  [PublishFn.color_convert_publish, PublishFn.warp_publish,
   PublishFn.exposure_compensation_publish, PublishFn.exposure_comp_calcErrorFn_publish,
   PublishFn.exposure_comp_solvegains_publish, PublishFn.exposure_comp_applygains_publish,
   PublishFn.merge_publish, PublishFn.alpha_blend_publish, PublishFn.multiband_blend_publish,
   PublishFn.half_scale_gaussian_publish, PublishFn.upscale_gaussian_subtract_publish,
   PublishFn.upscale_gaussian_add_publish, PublishFn.laplacian_reconstruct_publish,
   PublishFn.seamfind_model_publish, PublishFn.seamfind_scene_detect_publish,
   PublishFn.seamfind_cost_generate_publish, PublishFn.seamfind_cost_accumulate_publish,
   PublishFn.seamfind_path_trace_publish, PublishFn.seamfind_set_weights_publish]

/-- A chain of `ERROR_CHECK_STATUS(f(context));` statements, one per entry of
`fs`, followed by `return VX_SUCCESS;`. -/
def checkedChain {σ : Type} (pub : PublishFn → vx_context → σ → vx_status × σ)
    (context : vx_context) : List PublishFn → HostM σ vx_status
  | [] => pure VX_SUCCESS
  | f :: fs => ERROR_CHECK_STATUS (callPublish pub f context) (checkedChain pub context fs)

/-- The host state in which `vxPublishKernels` makes its first publish call: the
state left by the four `vxSetContextImageFormatDescription` calls (lines 43-47). -/
def afterFormats {σ : Type} (h : Host σ) (context : vx_context) (s : σ) : σ :=
  h.setContextImageFormatDescription context vx_df_image.VX_DF_IMAGE_RGB4_AMD
    ⟨3, 1, 48, vx_color_space_e.VX_COLOR_SPACE_DEFAULT, vx_channel_range_e.VX_CHANNEL_RANGE_FULL⟩
    (h.setContextImageFormatDescription context vx_df_image.VX_DF_IMAGE_Y216_AMD
      ⟨3, 1, 32, vx_color_space_e.VX_COLOR_SPACE_DEFAULT, vx_channel_range_e.VX_CHANNEL_RANGE_FULL⟩
      (h.setContextImageFormatDescription context vx_df_image.VX_DF_IMAGE_Y212_AMD
        ⟨3, 1, 32, vx_color_space_e.VX_COLOR_SPACE_DEFAULT,
          vx_channel_range_e.VX_CHANNEL_RANGE_FULL⟩
        (h.setContextImageFormatDescription context vx_df_image.VX_DF_IMAGE_Y210_AMD
          ⟨3, 1, 32, vx_color_space_e.VX_COLOR_SPACE_DEFAULT,
            vx_channel_range_e.VX_CHANNEL_RANGE_FULL⟩ s)))

/-- What the publish functions `fs` answer when they are called one after the
other from the host state `s`, each in the state the one before left. -/
def publishAnswers {σ : Type} (pub : PublishFn → vx_context → σ → vx_status × σ)
    (context : vx_context) : List PublishFn → σ → List vx_status
  | [], _ => []
  | f :: fs, s => (pub f context s).1 :: publishAnswers pub context fs (pub f context s).2

/-- The host state that the publish functions `fs` leave when they are called one
after the other from the host state `s`. -/
def publishState {σ : Type} (pub : PublishFn → vx_context → σ → vx_status × σ)
    (context : vx_context) : List PublishFn → σ → σ
  | [], s => s
  | f :: fs, s => publishState pub context fs (pub f context s).2

/-- The image format registered by a call, with its descriptor. -/
def Call.asFormat : Call → Option (vx_df_image × AgoImageFormatDescription)
  | Call.vxSetContextImageFormatDescription _ format desc => some (format, desc)
  | _ => none

/-- The image formats a record registers with the host, in order. -/
def registeredFormats (t : List Call) : List (vx_df_image × AgoImageFormatDescription) :=
  t.filterMap Call.asFormat

/-- The scalar created by a call: type, value and the handle the host answered. -/
def Call.asCreatedScalar : Call → Option (vx_type_e × ScalarValue × vx_scalar)
  | Call.vxCreateScalar _ type value ret => some (type, value, ret)
  | _ => none

/-- The scalars created in a record, in order. -/
def createdScalars (t : List Call) : List (vx_type_e × ScalarValue × vx_scalar) :=
  t.filterMap Call.asCreatedScalar

/-- The request a call hands to the enum overload of `stitchCreateNode`: graph,
kernel enum, parameter list and count. -/
def Call.asNodeRequest : Call → Option (vx_graph × vx_enum × List vx_reference × vx_uint32)
  | Call.stitchCreateNodeEnum graph kernelEnum params num => some (graph, kernelEnum, params, num)
  | _ => none

/-- The calls of `stitchCreateNode` (enum overload) in a record. -/
def nodeRequests (t : List Call) : List (vx_graph × vx_enum × List vx_reference × vx_uint32) :=
  t.filterMap Call.asNodeRequest

/-- An argument of a node constructor after `graph`: a reference handed in by
the caller, or a plain value of type `vx_uint32`, `vx_float32` or `vx_enum`. -/
inductive Arg
  | ref (r : vx_reference)
  | uint32 (v : vx_uint32)
  | float32 (v : vx_float32)
  | enum (v : vx_enum)
  deriving DecidableEq, Repr

/-- The scalar a plain argument is to be wrapped in: its type and value. -/
def Arg.scalar : Arg → Option (vx_type_e × ScalarValue)
  | Arg.ref _ => none
  | Arg.uint32 v => some (vx_type_e.VX_TYPE_UINT32, ScalarValue.uint32 v)
  | Arg.float32 v => some (vx_type_e.VX_TYPE_FLOAT32, ScalarValue.float32 v)
  | Arg.enum v => some (vx_type_e.VX_TYPE_ENUM, ScalarValue.enum v)

/-- The parameter list that corresponds to an argument list, given the scalars
created: one entry per argument, in order; a reference stands for itself, a
plain value is replaced by the handle of the next scalar created, which must
have the type and the value of that argument.  There is no such list when a
scalar is missing, has another type or value, or is left over. -/
def handedOver : List Arg → List (vx_type_e × ScalarValue × vx_scalar) →
    Option (List vx_reference)
  | [], [] => some []
  | [], _ :: _ => none
  | Arg.ref r :: args, cs => (handedOver args cs).map (fun ps => r :: ps)
  | _ :: _, [] => none
  | a :: args, (ty, v, sc) :: cs =>
    if a.scalar = some (ty, v) then (handedOver args cs).map (fun ps => sc :: ps) else none

/-- A run `r` of a node constructor hands the arguments `args` to the stage
`kernelEnum` of `graph`, with the count `count`: the run calls `stitchCreateNode`
exactly once, for that graph and kernel enum; the parameter list it passes is
the one that corresponds to `args` and to the scalars the run created; the count
it passes is `count`, which is the length of the list passed. -/
def HandsOver {σ : Type} (r : Out σ vx_node) (graph : vx_graph) (kernelEnum : vx_enum)
    (args : List Arg) (count : Nat) : Prop :=
  match handedOver args (createdScalars r.calls) with
  | some params =>
    nodeRequests r.calls = [(graph, kernelEnum, params, count)] ∧ params.length = count
  | none => False

instance {σ : Type} (r : Out σ vx_node) (graph : vx_graph) (kernelEnum : vx_enum)
    (args : List Arg) (count : Nat) : Decidable (HandsOver r graph kernelEnum args count) :=
  by unfold HandsOver; split <;> infer_instance

/-- Whether a call is one of `vxCreateGenericNode`, `vxSetParameterByIndex`,
`vxReleaseNode`, `vxReleaseKernel`. -/
def Call.isConstruction : Call → Bool
  | Call.vxCreateGenericNode _ _ _ => true
  | Call.vxSetParameterByIndex _ _ _ _ => true
  | Call.vxReleaseNode _ => true
  | Call.vxReleaseKernel _ => true
  | _ => false

/-- The node construction calls of a record, with arguments and answers. -/
def constructionCalls (t : List Call) : List Call := t.filter Call.isConstruction

/-- Whether a call is a `vxQueryKernel` call. -/
def Call.isQuery : Call → Bool
  | Call.vxQueryKernel _ _ => true
  | _ => false

/-- The `vxQueryKernel` calls of a record. -/
def queries (t : List Call) : List Call := t.filter Call.isQuery

/-- A record without its `vxQueryKernel` calls. -/
def withoutQueries (t : List Call) : List Call := t.filter (fun c => !c.isQuery)

/-- A call as it counts when two records are compared up to the lookup and up
to the text of log entries: the entry into `stitchCreateNode` and the kernel
lookup are left out, a log entry counts with its reference and status only
(`Sum.inr`), every other call counts in full (`Sum.inl`). -/
def Call.upToLookupAndText : Call → Option (Call ⊕ (vx_reference × vx_status))
  | Call.stitchCreateNodeEnum _ _ _ _ => none
  | Call.stitchCreateNodeName _ _ _ _ => none
  | Call.vxGetKernelByEnum _ _ _ => none
  | Call.vxGetKernelByName _ _ _ => none
  | Call.vxAddLogEntry ref status _ => some (Sum.inr (ref, status))
  | c => some (Sum.inl c)

/-- A record up to the lookup and the text of log entries. -/
def upToLookupAndText (t : List Call) : List (Call ⊕ (vx_reference × vx_status)) :=
  t.filterMap Call.upToLookupAndText

/-! ## Sample hosts -/

/-- A host without state, given by tables: the kernel of an enum and of a name,
the node created for a kernel, the status of a binding at an index, the handle
of a scalar.  Contexts are `1`, it names every kernel `"k"`. -/
structure Table where
  kernelOfEnum : vx_enum → vx_kernel
  kernelOfName : String → vx_kernel
  nodeOf : vx_kernel → vx_node
  bindStatus : vx_uint32 → vx_status
  scalarOf : ScalarValue → vx_scalar

def tableHost (t : Table) : Host Unit where
  setContextImageFormatDescription := fun _ _ _ s => s
  getContext := fun _ s => (1, s)
  getKernelByEnum := fun _ e s => (t.kernelOfEnum e, s)
  getKernelByName := fun _ n s => (t.kernelOfName n, s)
  createGenericNode := fun _ k s => (t.nodeOf k, s)
  setParameterByIndex := fun _ p _ s => (t.bindStatus p, s)
  queryKernel := fun _ s => ("k", s)
  addLogEntry := fun _ _ _ s => s
  releaseNode := fun _ s => s
  releaseKernel := fun _ s => s
  createScalar := fun _ _ v s => (t.scalarOf v, s)
  releaseScalar := fun _ s => s

/-- A table in which everything succeeds: kernel `7` for every enum and name,
node `9`, every binding answered `VX_SUCCESS`, scalar handle `50`. -/
def okTable : Table where
  kernelOfEnum := fun _ => 7
  kernelOfName := fun _ => 7
  nodeOf := fun _ => 9
  bindStatus := fun _ => VX_SUCCESS
  scalarOf := fun _ => 50

/-- A table whose host knows no kernel: every lookup answers null. -/
def unknownTable : Table where
  kernelOfEnum := fun _ => 0
  kernelOfName := fun _ => 0
  nodeOf := fun _ => 9
  bindStatus := fun _ => VX_SUCCESS
  scalarOf := fun _ => 50

/-- A table whose host finds kernel `7` for every lookup and creates no node. -/
def noNodeTable : Table where
  kernelOfEnum := fun _ => 7
  kernelOfName := fun _ => 7
  nodeOf := fun _ => 0
  bindStatus := fun _ => VX_SUCCESS
  scalarOf := fun _ => 50

/-- A table whose host finds kernel `7`, creates node `9`, and answers
`VX_ERROR_INVALID_PARAMETERS` to the binding at index `1` and `VX_SUCCESS` to
every other binding. -/
def badBindingTable : Table where
  kernelOfEnum := fun _ => 7
  kernelOfName := fun _ => 7
  nodeOf := fun _ => 9
  bindStatus := fun p => if p = 1 then VX_ERROR_INVALID_PARAMETERS else VX_SUCCESS
  scalarOf := fun _ => 50

/-- A host that keeps a registry: its state is the list of the kernel enums
registered so far.  `vxGetKernelByEnum` answers kernel `7` for a registered
enum and null for any other; nodes and bindings succeed. -/
def registryHost : Host (List vx_enum) where
  setContextImageFormatDescription := fun _ _ _ s => s
  getContext := fun _ s => (1, s)
  getKernelByEnum := fun _ e s => (if e ∈ s then 7 else 0, s)
  getKernelByName := fun _ _ s => (0, s)
  createGenericNode := fun _ _ s => (9, s)
  setParameterByIndex := fun _ _ _ s => (VX_SUCCESS, s)
  queryKernel := fun _ s => ("k", s)
  addLogEntry := fun _ _ _ s => s
  releaseNode := fun _ s => s
  releaseKernel := fun _ s => s
  createScalar := fun _ _ _ s => (50, s)
  releaseScalar := fun _ s => s

/-! ## A sample behaviour of the publish functions -/

/-- A sample assignment of stages to the `*_publish` functions, used only to
build a sample run of `vxPublishKernels`: each function is given the stage its
name suggests, `exposure_compensation_publish` none.  It is not taken from the
sources: the publish functions are defined outside `kernels.cpp`, which does not
say which kernels, or how many, any of them registers. -/
def PublishFn.stage : PublishFn → Option StitchKernel
  | PublishFn.color_convert_publish => some StitchKernel.AMDOVX_KERNEL_STITCHING_COLOR_CONVERT
  | PublishFn.warp_publish => some StitchKernel.AMDOVX_KERNEL_STITCHING_WARP
  | PublishFn.exposure_compensation_publish => none
  | PublishFn.exposure_comp_calcErrorFn_publish =>
    some StitchKernel.AMDOVX_KERNEL_STITCHING_EXPCOMP_COMPUTE_GAINMAT
  | PublishFn.exposure_comp_solvegains_publish =>
    some StitchKernel.AMDOVX_KERNEL_STITCHING_EXPCOMP_SOLVE
  | PublishFn.exposure_comp_applygains_publish =>
    some StitchKernel.AMDOVX_KERNEL_STITCHING_EXPCOMP_APPLYGAINS
  | PublishFn.merge_publish => some StitchKernel.AMDOVX_KERNEL_STITCHING_MERGE
  | PublishFn.alpha_blend_publish => some StitchKernel.AMDOVX_KERNEL_STITCHING_ALPHA_BLEND
  | PublishFn.multiband_blend_publish =>
    some StitchKernel.AMDOVX_KERNEL_STITCHING_MULTIBAND_BLEND
  | PublishFn.half_scale_gaussian_publish =>
    some StitchKernel.AMDOVX_KERNEL_STITCHING_HALF_SCALE_GAUSSIAN
  | PublishFn.upscale_gaussian_subtract_publish =>
    some StitchKernel.AMDOVX_KERNEL_STITCHING_UPSCALE_GAUSSIAN_SUBTRACT
  | PublishFn.upscale_gaussian_add_publish =>
    some StitchKernel.AMDOVX_KERNEL_STITCHING_UPSCALE_GAUSSIAN_ADD
  | PublishFn.laplacian_reconstruct_publish =>
    some StitchKernel.AMDOVX_KERNEL_STITCHING_LAPLACIAN_RECONSTRUCT
  | PublishFn.seamfind_model_publish => some StitchKernel.AMDOVX_KERNEL_STITCHING_SEAMFIND_MODEL
  | PublishFn.seamfind_scene_detect_publish =>
    some StitchKernel.AMDOVX_KERNEL_STITCHING_SEAMFIND_SCENE_DETECT
  | PublishFn.seamfind_cost_generate_publish =>
    some StitchKernel.AMDOVX_KERNEL_STITCHING_SEAMFIND_COST_GENERATE
  | PublishFn.seamfind_cost_accumulate_publish =>
    some StitchKernel.AMDOVX_KERNEL_STITCHING_SEAMFIND_COST_ACCUMULATE
  | PublishFn.seamfind_path_trace_publish =>
    some StitchKernel.AMDOVX_KERNEL_STITCHING_SEAMFIND_PATH_TRACE
  | PublishFn.seamfind_set_weights_publish =>
    some StitchKernel.AMDOVX_KERNEL_STITCHING_SEAMFIND_SET_WEIGHTS

/-- A sample behaviour of the `*_publish` functions against `registryHost`, for an
assignment `reg` of at most one stage to each of them: a call adds the enum of
its stage to the registry and answers `VX_SUCCESS`. -/
def registering (K : StitchKernel → vx_enum) (reg : PublishFn → Option StitchKernel) :
    PublishFn → vx_context → List vx_enum → vx_status × List vx_enum :=
  fun f _ s =>
    match reg f with
    | some k => (VX_SUCCESS, K k :: s)
    | none => (VX_SUCCESS, s)

/-- A numbering of the kernel enumerators, in the order in which the
constructors appear in `kernels.cpp`, starting at `1`. -/
def sampleEnum : StitchKernel → vx_enum
  | StitchKernel.AMDOVX_KERNEL_STITCHING_INITIALIZE_STITCH_CONFIG => 1
  | StitchKernel.AMDOVX_KERNEL_STITCHING_COLOR_CONVERT => 2
  | StitchKernel.AMDOVX_KERNEL_STITCHING_WARP => 3
  | StitchKernel.AMDOVX_KERNEL_STITCHING_MERGE => 4
  | StitchKernel.AMDOVX_KERNEL_STITCHING_ALPHA_BLEND => 5
  | StitchKernel.AMDOVX_KERNEL_STITCHING_INITIALIZE_STITCH_REMAP => 6
  | StitchKernel.AMDOVX_KERNEL_STITCHING_EXPCOMP_COMPUTE_GAINMAT => 7
  | StitchKernel.AMDOVX_KERNEL_STITCHING_EXPCOMP_SOLVE => 8
  | StitchKernel.AMDOVX_KERNEL_STITCHING_EXPCOMP_APPLYGAINS => 9
  | StitchKernel.AMDOVX_KERNEL_STITCHING_SEAMFIND_MODEL => 10
  | StitchKernel.AMDOVX_KERNEL_STITCHING_SEAMFIND_SCENE_DETECT => 11
  | StitchKernel.AMDOVX_KERNEL_STITCHING_SEAMFIND_COST_GENERATE => 12
  | StitchKernel.AMDOVX_KERNEL_STITCHING_SEAMFIND_COST_ACCUMULATE => 13
  | StitchKernel.AMDOVX_KERNEL_STITCHING_SEAMFIND_PATH_TRACE => 14
  | StitchKernel.AMDOVX_KERNEL_STITCHING_SEAMFIND_SET_WEIGHTS => 15
  | StitchKernel.AMDOVX_KERNEL_STITCHING_MULTIBAND_BLEND => 16
  | StitchKernel.AMDOVX_KERNEL_STITCHING_HALF_SCALE_GAUSSIAN => 17
  | StitchKernel.AMDOVX_KERNEL_STITCHING_UPSCALE_GAUSSIAN_SUBTRACT => 18
  | StitchKernel.AMDOVX_KERNEL_STITCHING_UPSCALE_GAUSSIAN_ADD => 19
  | StitchKernel.AMDOVX_KERNEL_STITCHING_LAPLACIAN_RECONSTRUCT => 20

/-! ## Stages whose code is outside `kernels.cpp` -/

/-- Modelled from the spec: the Alpha Blend stage, per channel.  Its kernel is in
`alpha_blend.cpp`, which is not available; the spec gives
`out = rgb*(1-a) + rgba.rgb*a` with `a` the alpha of the overlay, in `[0,1]`. -/
def alphaBlend (rgb rgba a : ℚ) : ℚ := rgb * (1 - a) + rgba * a

/-- Modelled from the spec: Alpha Blend of an RGB base pixel and an RGBA overlay
pixel (the fourth component is the alpha), channel by channel. -/
def alphaBlendPixel (base : ℚ × ℚ × ℚ) (overlay : ℚ × ℚ × ℚ × ℚ) : ℚ × ℚ × ℚ :=
  (alphaBlend base.1 overlay.1 overlay.2.2.2, alphaBlend base.2.1 overlay.2.1 overlay.2.2.2,
    alphaBlend base.2.2 overlay.2.2.1 overlay.2.2.2)

/-! ## References taken and given back -/

/-- The kernel released by a call, when it is a `vxReleaseKernel` call. -/
def Call.asReleasedKernel : Call → Option vx_kernel
  | Call.vxReleaseKernel kernel => some kernel
  | _ => none

/-- The kernels released in a record, in order. -/
def releasedKernels (t : List Call) : List vx_kernel := t.filterMap Call.asReleasedKernel

/-- The node released by a call, when it is a `vxReleaseNode` call. -/
def Call.asReleasedNode : Call → Option vx_node
  | Call.vxReleaseNode node => some node
  | _ => none

/-- The nodes released in a record, in order. -/
def releasedNodes (t : List Call) : List vx_node := t.filterMap Call.asReleasedNode

/-- The node created by a call: the answer of a `vxCreateGenericNode` call when
it is not null. -/
def Call.asCreatedNode : Call → Option vx_node
  | Call.vxCreateGenericNode _ _ ret => if ret ≠ 0 then some ret else none
  | _ => none

/-- The nodes created in a record, in order. -/
def createdNodes (t : List Call) : List vx_node := t.filterMap Call.asCreatedNode

/-- Whether some `vxSetParameterByIndex` call of a record was answered with a
status other than `VX_SUCCESS`. -/
def bindingFailed (t : List Call) : Bool :=
  (bindings t).any (fun b => decide (b.2.2.2 ≠ VX_SUCCESS))

/-- The scalar released by a call, when it is a `vxReleaseScalar` call. -/
def Call.asReleasedScalar : Call → Option vx_scalar
  | Call.vxReleaseScalar scalar => some scalar
  | _ => none

/-- The scalars released in a record, in order. -/
def releasedScalars (t : List Call) : List vx_scalar := t.filterMap Call.asReleasedScalar

/-- The handles of the scalars created in a record, in order of creation. -/
def createdHandles (t : List Call) : List vx_scalar := (createdScalars t).map (fun c => c.2.2)

/-- A run `r` of a node constructor gives its scalars back after
`stitchCreateNode`: its record is a first part in which nothing is released and
`stitchCreateNode` is not entered, then the record of one run of
`stitchCreateNode`, then one `vxReleaseScalar` call for each scalar created in
the first part, in order of creation, and nothing else; and the value of `r` is
the value that run of `stitchCreateNode` returned. -/
def GivesScalarsBack {σ : Type} (h : Host σ) (r : Out σ vx_node) : Prop :=
  ∃ (pre : List Call) (graph : vx_graph) (kernelEnum : vx_enum) (params : List vx_reference)
      (num : vx_uint32) (s1 : σ),
    releasedScalars pre = [] ∧ nodeRequests pre = [] ∧
    r.val = (stitchCreateNode h graph kernelEnum params num s1).val ∧
    r.calls = pre ++ (stitchCreateNode h graph kernelEnum params num s1).calls ++
      (createdHandles pre).map Call.vxReleaseScalar

/-! ## `StitchGetEnvironmentVariable` -/

/-- The largest value of `size_t`, taken as a 64-bit unsigned integer. -/
def SIZE_MAX : Nat := 2 ^ 64 - 1

/-- The `size_t` value of `valueSize - 1`: subtraction modulo `2 ^ 64`. -/
def sizePred (valueSize : Nat) : Nat := (valueSize + SIZE_MAX) % 2 ^ 64

/-- The C library call `strncpy(dest, src, n)` on the buffer `dest`, for a
source string whose characters, terminator excluded, are `src`: exactly `n`
characters are written, the first `n` characters of `src` and then NULs when
`src` is shorter than `n`.  There is no result when `dest` has fewer than `n`
characters (a write past its end). -/
def strncpy (dest src : List Nat) (n : Nat) : Option (List Nat) :=
  if n ≤ dest.length then some (src.take n ++ List.replicate (n - src.length) 0 ++ dest.drop n)
  else none

/-- The assignment `value[i] = c`; there is no result when `i` is outside the
buffer. -/
def storeChar (value : List Nat) (i c : Nat) : Option (List Nat) :=
  if i < value.length then some (value.set i c) else none

/-- The string held by a buffer: its characters before the first NUL. -/
def cstring (value : List Nat) : List Nat := value.takeWhile (fun c => c ≠ 0)

/-- The function `StitchGetEnvironmentVariable` (lines 167-181), in the branch
compiled when `_WIN32` is not set.  `getenv` is the C library call: it answers
nothing (the null pointer) for a variable that is not defined and the
characters of the value otherwise.  The result is the value returned and the
buffer `value` after the call; there is no result when the code writes outside
the buffer. -/
def StitchGetEnvironmentVariable (getenv : String → Option (List Nat)) (name : String)
    (value : List Nat) (valueSize : Nat) : Option (Bool × List Nat) :=
  match getenv name with
  | some v =>
    match strncpy value v valueSize with
    | some value1 =>
      match storeChar value1 (sizePred valueSize) 0 with
      | some value2 => some (true, value2)
      | none => none
    | none => none
  | none => some (false, value)

/-- A sample environment: `HOME` is `/r`, `EMPTY` is defined and empty, nothing
else is defined. -/
def sampleEnv : String → Option (List Nat) := fun name =>
  if name = "HOME" then some [47, 114] else if name = "EMPTY" then some [] else none

/-! ## Basic facts about computations -/

section Basic

variable {σ α β : Type}

@[simp] theorem HostM.pure_run (a : α) (s : σ) : (pure a : HostM σ α) s = ⟨a, [], s⟩ := rfl

@[simp] theorem HostM.bind_run (x : HostM σ α) (f : α → HostM σ β) (s : σ) :
    (x >>= f) s = ⟨(f (x s).val (x s).host).val, (x s).calls ++ (f (x s).val (x s).host).calls,
      (f (x s).val (x s).host).host⟩ := rfl

@[simp] theorem HostM.ask_run (step : σ → α × σ) (ev : α → Call) (s : σ) :
    HostM.ask step ev s = ⟨(step s).1, [ev (step s).1], (step s).2⟩ := rfl

@[simp] theorem HostM.tell_run (step : σ → σ) (ev : Call) (s : σ) :
    HostM.tell step ev s = ⟨(), [ev], step s⟩ := rfl

@[simp] theorem HostM.note_run (ev : Call) (s : σ) :
    (HostM.note ev : HostM σ Unit) s = ⟨(), [ev], s⟩ := rfl

theorem toBind_zero (params : List vx_reference) (p : Nat) : toBind params p 0 = [] := rfl

theorem toBind_succ_null (params : List vx_reference) (p n : Nat)
    (hp : paramAt params p = 0) : toBind params p (n + 1) = toBind params (p + 1) n := by
  simp [toBind, List.range'_succ, List.filter_cons, hp]

theorem toBind_succ_ref (params : List vx_reference) (p n : Nat)
    (hp : paramAt params p ≠ 0) : toBind params p (n + 1) = p :: toBind params (p + 1) n := by
  simp [toBind, List.range'_succ, List.filter_cons, hp]

end Basic

section LoopFacts

variable {σ : Type} (h : Host σ)

theorem loopEnum_null (graph : vx_graph) (kernel : vx_kernel) (params : List vx_reference)
    (n p : Nat) (l : Locals) (s : σ) (hp : paramAt params p = 0) :
    stitchCreateNode.loopEnum h graph kernel params (n + 1) p l s =
      stitchCreateNode.loopEnum h graph kernel params n (p + 1) l s := by
  rw [stitchCreateNode.loopEnum]
  simp only [hp, ne_eq, not_true_eq_false, if_false]

theorem loopEnum_ok (graph : vx_graph) (kernel : vx_kernel) (params : List vx_reference)
    (n p : Nat) (l : Locals) (s : σ) (hp : paramAt params p ≠ 0)
    (hst : (h.setParameterByIndex l.node p (paramAt params p) s).1 = VX_SUCCESS) :
    stitchCreateNode.loopEnum h graph kernel params (n + 1) p l s =
      ⟨(stitchCreateNode.loopEnum h graph kernel params n (p + 1) ⟨VX_SUCCESS, l.node⟩
          (h.setParameterByIndex l.node p (paramAt params p) s).2).val,
        boundAt l.node params VX_SUCCESS p ::
          (stitchCreateNode.loopEnum h graph kernel params n (p + 1) ⟨VX_SUCCESS, l.node⟩
            (h.setParameterByIndex l.node p (paramAt params p) s).2).calls,
        (stitchCreateNode.loopEnum h graph kernel params n (p + 1) ⟨VX_SUCCESS, l.node⟩
          (h.setParameterByIndex l.node p (paramAt params p) s).2).host⟩ := by
  rw [stitchCreateNode.loopEnum]
  simp [hp, hst, vxSetParameterByIndex, boundAt]

theorem loopEnum_fail (graph : vx_graph) (kernel : vx_kernel) (params : List vx_reference)
    (n p : Nat) (l : Locals) (s : σ) (hp : paramAt params p ≠ 0)
    (hst : (h.setParameterByIndex l.node p (paramAt params p) s).1 ≠ VX_SUCCESS) :
    (stitchCreateNode.loopEnum h graph kernel params (n + 1) p l s).val =
        ⟨(h.setParameterByIndex l.node p (paramAt params p) s).1, 0⟩ ∧
      (stitchCreateNode.loopEnum h graph kernel params (n + 1) p l s).calls =
        [boundAt l.node params (h.setParameterByIndex l.node p (paramAt params p) s).1 p,
          Call.vxQueryKernel kernel
            (h.queryKernel kernel (h.setParameterByIndex l.node p (paramAt params p) s).2).1,
          Call.vxAddLogEntry graph (h.setParameterByIndex l.node p (paramAt params p) s).1
            (LogText.setParameterFailed
              (h.queryKernel kernel (h.setParameterByIndex l.node p (paramAt params p) s).2).1
              p (paramAt params p) (h.setParameterByIndex l.node p (paramAt params p) s).1),
          Call.vxReleaseNode l.node] := by
  rw [stitchCreateNode.loopEnum]
  simp [hp, hst, vxSetParameterByIndex, vxQueryKernel, vxAddLogEntry, vxReleaseNode, boundAt]

/-- What the loop of the enum overload does, exactly.  Either every binding is
answered `VX_SUCCESS`: the calls are the bindings of all the indices to bind and
the locals keep the node; or the binding of some index `q` is answered `st`, not
`VX_SUCCESS`: the calls stop there with the name query, the log entry and the
release of the node, and the locals are `st` and the null node. -/
theorem loopEnum_spec (graph : vx_graph) (kernel : vx_kernel) (params : List vx_reference)
    (n p : Nat) (node : vx_node) (s : σ) :
    ((stitchCreateNode.loopEnum h graph kernel params n p ⟨VX_SUCCESS, node⟩ s).val =
        ⟨VX_SUCCESS, node⟩ ∧
      (stitchCreateNode.loopEnum h graph kernel params n p ⟨VX_SUCCESS, node⟩ s).calls =
        (toBind params p n).map (boundAt node params VX_SUCCESS)) ∨
    (∃ pre q rest st name, toBind params p n = pre ++ q :: rest ∧ st ≠ VX_SUCCESS ∧
      (stitchCreateNode.loopEnum h graph kernel params n p ⟨VX_SUCCESS, node⟩ s).val = ⟨st, 0⟩ ∧
      (stitchCreateNode.loopEnum h graph kernel params n p ⟨VX_SUCCESS, node⟩ s).calls =
        pre.map (boundAt node params VX_SUCCESS) ++
          [boundAt node params st q, Call.vxQueryKernel kernel name,
           Call.vxAddLogEntry graph st (LogText.setParameterFailed name q (paramAt params q) st),
           Call.vxReleaseNode node]) := by
  induction n generalizing p s with
  | zero => exact Or.inl ⟨rfl, rfl⟩
  | succ n ih =>
    by_cases hp : paramAt params p = 0
    · rw [loopEnum_null h graph kernel params n p _ s hp, toBind_succ_null params p n hp]
      exact ih (p + 1) s
    · by_cases hst : (h.setParameterByIndex node p (paramAt params p) s).1 = VX_SUCCESS
      · rw [loopEnum_ok h graph kernel params n p ⟨VX_SUCCESS, node⟩ s hp hst,
          toBind_succ_ref params p n hp]
        rcases ih (p + 1) (h.setParameterByIndex node p (paramAt params p) s).2 with
          ⟨hv, hc⟩ | ⟨pre, q, rest, st, name, hb, hne, hv, hc⟩
        · exact Or.inl ⟨hv, by simp [hc]⟩
        · exact Or.inr ⟨p :: pre, q, rest, st, name, by simp [hb], hne, hv, by simp [hc]⟩
      · obtain ⟨hv, hc⟩ := loopEnum_fail h graph kernel params n p ⟨VX_SUCCESS, node⟩ s hp hst
        exact Or.inr ⟨[], p, toBind params (p + 1) n, _, _, by simp [toBind_succ_ref, hp], hst,
          hv, by simpa using hc⟩

theorem loopName_null (graph : vx_graph) (kernelName : String) (params : List vx_reference)
    (n p : Nat) (l : Locals) (s : σ) (hp : paramAt params p = 0) :
    stitchCreateNode.loopName h graph kernelName params (n + 1) p l s =
      stitchCreateNode.loopName h graph kernelName params n (p + 1) l s := by
  rw [stitchCreateNode.loopName]
  simp only [hp, ne_eq, not_true_eq_false, if_false]

theorem loopName_ok (graph : vx_graph) (kernelName : String) (params : List vx_reference)
    (n p : Nat) (l : Locals) (s : σ) (hp : paramAt params p ≠ 0)
    (hst : (h.setParameterByIndex l.node p (paramAt params p) s).1 = VX_SUCCESS) :
    stitchCreateNode.loopName h graph kernelName params (n + 1) p l s =
      ⟨(stitchCreateNode.loopName h graph kernelName params n (p + 1) ⟨VX_SUCCESS, l.node⟩
          (h.setParameterByIndex l.node p (paramAt params p) s).2).val,
        boundAt l.node params VX_SUCCESS p ::
          (stitchCreateNode.loopName h graph kernelName params n (p + 1) ⟨VX_SUCCESS, l.node⟩
            (h.setParameterByIndex l.node p (paramAt params p) s).2).calls,
        (stitchCreateNode.loopName h graph kernelName params n (p + 1) ⟨VX_SUCCESS, l.node⟩
          (h.setParameterByIndex l.node p (paramAt params p) s).2).host⟩ := by
  rw [stitchCreateNode.loopName]
  simp [hp, hst, vxSetParameterByIndex, boundAt]

theorem loopName_fail (graph : vx_graph) (kernelName : String) (params : List vx_reference)
    (n p : Nat) (l : Locals) (s : σ) (hp : paramAt params p ≠ 0)
    (hst : (h.setParameterByIndex l.node p (paramAt params p) s).1 ≠ VX_SUCCESS) :
    (stitchCreateNode.loopName h graph kernelName params (n + 1) p l s).val =
        ⟨(h.setParameterByIndex l.node p (paramAt params p) s).1, 0⟩ ∧
      (stitchCreateNode.loopName h graph kernelName params (n + 1) p l s).calls =
        [boundAt l.node params (h.setParameterByIndex l.node p (paramAt params p) s).1 p,
          Call.vxAddLogEntry graph (h.setParameterByIndex l.node p (paramAt params p) s).1
            (LogText.setParameterFailed kernelName p (paramAt params p)
              (h.setParameterByIndex l.node p (paramAt params p) s).1),
          Call.vxReleaseNode l.node] := by
  rw [stitchCreateNode.loopName]
  simp [hp, hst, vxSetParameterByIndex, vxAddLogEntry, vxReleaseNode, boundAt]

/-- What the loop of the name overload does, exactly.  Either every binding is
answered `VX_SUCCESS`: the calls are the bindings of all the indices to bind and
the locals keep the node; or the binding of some index `q` is answered `st`, not
`VX_SUCCESS`: the calls stop there with the log entry and the release of the
node, and the locals are `st` and the null node. -/
theorem loopName_spec (graph : vx_graph) (kernelName : String) (params : List vx_reference)
    (n p : Nat) (node : vx_node) (s : σ) :
    ((stitchCreateNode.loopName h graph kernelName params n p ⟨VX_SUCCESS, node⟩ s).val =
        ⟨VX_SUCCESS, node⟩ ∧
      (stitchCreateNode.loopName h graph kernelName params n p ⟨VX_SUCCESS, node⟩ s).calls =
        (toBind params p n).map (boundAt node params VX_SUCCESS)) ∨
    (∃ pre q rest st, toBind params p n = pre ++ q :: rest ∧ st ≠ VX_SUCCESS ∧
      (stitchCreateNode.loopName h graph kernelName params n p ⟨VX_SUCCESS, node⟩ s).val = ⟨st, 0⟩ ∧
      (stitchCreateNode.loopName h graph kernelName params n p ⟨VX_SUCCESS, node⟩ s).calls =
        pre.map (boundAt node params VX_SUCCESS) ++
          [boundAt node params st q,
           Call.vxAddLogEntry graph st
             (LogText.setParameterFailed kernelName q (paramAt params q) st),
           Call.vxReleaseNode node]) := by
  induction n generalizing p s with
  | zero => exact Or.inl ⟨rfl, rfl⟩
  | succ n ih =>
    by_cases hp : paramAt params p = 0
    · rw [loopName_null h graph kernelName params n p _ s hp, toBind_succ_null params p n hp]
      exact ih (p + 1) s
    · by_cases hst : (h.setParameterByIndex node p (paramAt params p) s).1 = VX_SUCCESS
      · rw [loopName_ok h graph kernelName params n p ⟨VX_SUCCESS, node⟩ s hp hst,
          toBind_succ_ref params p n hp]
        rcases ih (p + 1) (h.setParameterByIndex node p (paramAt params p) s).2 with
          ⟨hv, hc⟩ | ⟨pre, q, rest, st, hb, hne, hv, hc⟩
        · exact Or.inl ⟨hv, by simp [hc]⟩
        · exact Or.inr ⟨p :: pre, q, rest, st, by simp [hb], hne, hv, by simp [hc]⟩
      · obtain ⟨hv, hc⟩ := loopName_fail h graph kernelName params n p ⟨VX_SUCCESS, node⟩ s hp hst
        exact Or.inr ⟨[], p, toBind params (p + 1) n, _, by simp [toBind_succ_ref, hp], hst,
          hv, by simpa using hc⟩


theorem bodyEnum_unknown (graph : vx_graph) (kernelEnum : vx_enum) (params : List vx_reference)
    (num : vx_uint32) (s : σ) (hk : (lookupEnum h graph kernelEnum s).1 = 0) :
    (stitchCreateNode.bodyEnum h graph kernelEnum params num s).val =
        ⟨VX_ERROR_NOT_SUPPORTED, 0⟩ ∧
      (stitchCreateNode.bodyEnum h graph kernelEnum params num s).calls =
        [Call.stitchCreateNodeEnum graph kernelEnum params num,
          Call.vxGetContext graph (h.getContext graph s).1,
          Call.vxGetKernelByEnum (h.getContext graph s).1 kernelEnum 0,
          Call.vxAddLogEntry graph VX_ERROR_INVALID_PARAMETERS
            (LogText.retrieveFailedEnum kernelEnum)] := by
  unfold lookupEnum at hk
  simp [stitchCreateNode.bodyEnum, vxGetContext, vxGetKernelByEnum, vxAddLogEntry, hk]

theorem bodyEnum_nocreate (graph : vx_graph) (kernelEnum : vx_enum)
    (params : List vx_reference) (num : vx_uint32) (s : σ)
    (hk : (lookupEnum h graph kernelEnum s).1 ≠ 0)
    (hn : (created h graph (lookupEnum h graph kernelEnum s)).1 = 0) :
    (stitchCreateNode.bodyEnum h graph kernelEnum params num s).val =
        ⟨VX_ERROR_NO_MEMORY, 0⟩ ∧
      (stitchCreateNode.bodyEnum h graph kernelEnum params num s).calls =
        [Call.stitchCreateNodeEnum graph kernelEnum params num,
          Call.vxGetContext graph (h.getContext graph s).1,
          Call.vxGetKernelByEnum (h.getContext graph s).1 kernelEnum
            (lookupEnum h graph kernelEnum s).1,
          Call.vxCreateGenericNode graph (lookupEnum h graph kernelEnum s).1 0,
          Call.vxAddLogEntry graph VX_ERROR_INVALID_PARAMETERS
            (LogText.createFailedEnum kernelEnum),
          Call.vxReleaseKernel (lookupEnum h graph kernelEnum s).1] := by
  unfold created at hn
  unfold lookupEnum at hk hn ⊢
  simp [stitchCreateNode.bodyEnum, vxGetContext, vxGetKernelByEnum, vxAddLogEntry,
    vxCreateGenericNode, vxReleaseKernel, hk, hn]

theorem bodyEnum_loop (graph : vx_graph) (kernelEnum : vx_enum)
    (params : List vx_reference) (num : vx_uint32) (s : σ)
    (hk : (lookupEnum h graph kernelEnum s).1 ≠ 0)
    (hn : (created h graph (lookupEnum h graph kernelEnum s)).1 ≠ 0) :
    (stitchCreateNode.bodyEnum h graph kernelEnum params num s).val =
        (stitchCreateNode.loopEnum h graph (lookupEnum h graph kernelEnum s).1 params num 0
          ⟨VX_SUCCESS, (created h graph (lookupEnum h graph kernelEnum s)).1⟩
          (created h graph (lookupEnum h graph kernelEnum s)).2).val ∧
      (stitchCreateNode.bodyEnum h graph kernelEnum params num s).calls =
        [Call.stitchCreateNodeEnum graph kernelEnum params num,
          Call.vxGetContext graph (h.getContext graph s).1,
          Call.vxGetKernelByEnum (h.getContext graph s).1 kernelEnum
            (lookupEnum h graph kernelEnum s).1,
          Call.vxCreateGenericNode graph (lookupEnum h graph kernelEnum s).1
            (created h graph (lookupEnum h graph kernelEnum s)).1] ++
        (stitchCreateNode.loopEnum h graph (lookupEnum h graph kernelEnum s).1 params num 0
          ⟨VX_SUCCESS, (created h graph (lookupEnum h graph kernelEnum s)).1⟩
          (created h graph (lookupEnum h graph kernelEnum s)).2).calls ++
        [Call.vxReleaseKernel (lookupEnum h graph kernelEnum s).1] := by
  unfold created at hn ⊢
  unfold lookupEnum at hk hn ⊢
  simp [stitchCreateNode.bodyEnum, vxGetContext, vxGetKernelByEnum,
    vxCreateGenericNode, vxReleaseKernel, hk, hn]

theorem bodyName_unknown (graph : vx_graph) (kernelName : String) (params : List vx_reference)
    (num : vx_uint32) (s : σ) (hk : (lookupName h graph kernelName s).1 = 0) :
    (stitchCreateNode.bodyName h graph kernelName params num s).val =
        ⟨VX_ERROR_NOT_SUPPORTED, 0⟩ ∧
      (stitchCreateNode.bodyName h graph kernelName params num s).calls =
        [Call.stitchCreateNodeName graph kernelName params num,
          Call.vxGetContext graph (h.getContext graph s).1,
          Call.vxGetKernelByName (h.getContext graph s).1 kernelName 0,
          Call.vxAddLogEntry graph VX_ERROR_INVALID_PARAMETERS
            (LogText.retrieveFailedName kernelName)] := by
  unfold lookupName at hk
  simp [stitchCreateNode.bodyName, vxGetContext, vxGetKernelByName, vxAddLogEntry, hk]

theorem bodyName_nocreate (graph : vx_graph) (kernelName : String)
    (params : List vx_reference) (num : vx_uint32) (s : σ)
    (hk : (lookupName h graph kernelName s).1 ≠ 0)
    (hn : (created h graph (lookupName h graph kernelName s)).1 = 0) :
    (stitchCreateNode.bodyName h graph kernelName params num s).val =
        ⟨VX_ERROR_NO_MEMORY, 0⟩ ∧
      (stitchCreateNode.bodyName h graph kernelName params num s).calls =
        [Call.stitchCreateNodeName graph kernelName params num,
          Call.vxGetContext graph (h.getContext graph s).1,
          Call.vxGetKernelByName (h.getContext graph s).1 kernelName
            (lookupName h graph kernelName s).1,
          Call.vxCreateGenericNode graph (lookupName h graph kernelName s).1 0,
          Call.vxAddLogEntry graph VX_ERROR_INVALID_PARAMETERS
            (LogText.createFailedName kernelName),
          Call.vxReleaseKernel (lookupName h graph kernelName s).1] := by
  unfold created at hn
  unfold lookupName at hk hn ⊢
  simp [stitchCreateNode.bodyName, vxGetContext, vxGetKernelByName, vxAddLogEntry,
    vxCreateGenericNode, vxReleaseKernel, hk, hn]

theorem bodyName_loop (graph : vx_graph) (kernelName : String)
    (params : List vx_reference) (num : vx_uint32) (s : σ)
    (hk : (lookupName h graph kernelName s).1 ≠ 0)
    (hn : (created h graph (lookupName h graph kernelName s)).1 ≠ 0) :
    (stitchCreateNode.bodyName h graph kernelName params num s).val =
        (stitchCreateNode.loopName h graph kernelName params num 0
          ⟨VX_SUCCESS, (created h graph (lookupName h graph kernelName s)).1⟩
          (created h graph (lookupName h graph kernelName s)).2).val ∧
      (stitchCreateNode.bodyName h graph kernelName params num s).calls =
        [Call.stitchCreateNodeName graph kernelName params num,
          Call.vxGetContext graph (h.getContext graph s).1,
          Call.vxGetKernelByName (h.getContext graph s).1 kernelName
            (lookupName h graph kernelName s).1,
          Call.vxCreateGenericNode graph (lookupName h graph kernelName s).1
            (created h graph (lookupName h graph kernelName s)).1] ++
        (stitchCreateNode.loopName h graph kernelName params num 0
          ⟨VX_SUCCESS, (created h graph (lookupName h graph kernelName s)).1⟩
          (created h graph (lookupName h graph kernelName s)).2).calls ++
        [Call.vxReleaseKernel (lookupName h graph kernelName s).1] := by
  unfold created at hn ⊢
  unfold lookupName at hk hn ⊢
  simp [stitchCreateNode.bodyName, vxGetContext, vxGetKernelByName,
    vxCreateGenericNode, vxReleaseKernel, hk, hn]


/-- The four ways the body of the enum overload can run, each with the locals
at `return node` and the exact record of calls: unknown kernel; node not
created; every binding answered `VX_SUCCESS`; a binding answered otherwise. -/
theorem bodyEnum_cases (graph : vx_graph) (kernelEnum : vx_enum) (params : List vx_reference)
    (num : vx_uint32) (s : σ) :
    ((lookupEnum h graph kernelEnum s).1 = 0 ∧
      (stitchCreateNode.bodyEnum h graph kernelEnum params num s).val =
        ⟨VX_ERROR_NOT_SUPPORTED, 0⟩ ∧
      (stitchCreateNode.bodyEnum h graph kernelEnum params num s).calls =
        [Call.stitchCreateNodeEnum graph kernelEnum params num,
          Call.vxGetContext graph (h.getContext graph s).1,
          Call.vxGetKernelByEnum (h.getContext graph s).1 kernelEnum 0,
          Call.vxAddLogEntry graph VX_ERROR_INVALID_PARAMETERS
            (LogText.retrieveFailedEnum kernelEnum)]) ∨
    ((lookupEnum h graph kernelEnum s).1 ≠ 0 ∧
      (created h graph (lookupEnum h graph kernelEnum s)).1 = 0 ∧
      (stitchCreateNode.bodyEnum h graph kernelEnum params num s).val =
        ⟨VX_ERROR_NO_MEMORY, 0⟩ ∧
      (stitchCreateNode.bodyEnum h graph kernelEnum params num s).calls =
        [Call.stitchCreateNodeEnum graph kernelEnum params num,
          Call.vxGetContext graph (h.getContext graph s).1,
          Call.vxGetKernelByEnum (h.getContext graph s).1 kernelEnum
            (lookupEnum h graph kernelEnum s).1,
          Call.vxCreateGenericNode graph (lookupEnum h graph kernelEnum s).1 0,
          Call.vxAddLogEntry graph VX_ERROR_INVALID_PARAMETERS
            (LogText.createFailedEnum kernelEnum),
          Call.vxReleaseKernel (lookupEnum h graph kernelEnum s).1]) ∨
    ((lookupEnum h graph kernelEnum s).1 ≠ 0 ∧
      (created h graph (lookupEnum h graph kernelEnum s)).1 ≠ 0 ∧
      (stitchCreateNode.bodyEnum h graph kernelEnum params num s).val =
        ⟨VX_SUCCESS, (created h graph (lookupEnum h graph kernelEnum s)).1⟩ ∧
      (stitchCreateNode.bodyEnum h graph kernelEnum params num s).calls =
        [Call.stitchCreateNodeEnum graph kernelEnum params num,
          Call.vxGetContext graph (h.getContext graph s).1,
          Call.vxGetKernelByEnum (h.getContext graph s).1 kernelEnum
            (lookupEnum h graph kernelEnum s).1,
          Call.vxCreateGenericNode graph (lookupEnum h graph kernelEnum s).1
            (created h graph (lookupEnum h graph kernelEnum s)).1] ++
        (toBind params 0 num).map
          (boundAt (created h graph (lookupEnum h graph kernelEnum s)).1 params VX_SUCCESS) ++
        [Call.vxReleaseKernel (lookupEnum h graph kernelEnum s).1]) ∨
    ((lookupEnum h graph kernelEnum s).1 ≠ 0 ∧
      (created h graph (lookupEnum h graph kernelEnum s)).1 ≠ 0 ∧
      ∃ pre q rest st name, toBind params 0 num = pre ++ q :: rest ∧ st ≠ VX_SUCCESS ∧
        (stitchCreateNode.bodyEnum h graph kernelEnum params num s).val = ⟨st, 0⟩ ∧
        (stitchCreateNode.bodyEnum h graph kernelEnum params num s).calls =
          [Call.stitchCreateNodeEnum graph kernelEnum params num,
            Call.vxGetContext graph (h.getContext graph s).1,
            Call.vxGetKernelByEnum (h.getContext graph s).1 kernelEnum
              (lookupEnum h graph kernelEnum s).1,
            Call.vxCreateGenericNode graph (lookupEnum h graph kernelEnum s).1
              (created h graph (lookupEnum h graph kernelEnum s)).1] ++
          (pre.map
            (boundAt (created h graph (lookupEnum h graph kernelEnum s)).1 params VX_SUCCESS) ++
            [boundAt (created h graph (lookupEnum h graph kernelEnum s)).1 params st q,
              Call.vxQueryKernel (lookupEnum h graph kernelEnum s).1 name,
              Call.vxAddLogEntry graph st
                (LogText.setParameterFailed name q (paramAt params q) st),
              Call.vxReleaseNode (created h graph (lookupEnum h graph kernelEnum s)).1]) ++
          [Call.vxReleaseKernel (lookupEnum h graph kernelEnum s).1]) := by
  by_cases hk : (lookupEnum h graph kernelEnum s).1 = 0
  · left
    have := bodyEnum_unknown h graph kernelEnum params num s hk
    exact ⟨hk, this.1, this.2⟩
  · right
    by_cases hn : (created h graph (lookupEnum h graph kernelEnum s)).1 = 0
    · left
      have := bodyEnum_nocreate h graph kernelEnum params num s hk hn
      exact ⟨hk, hn, this.1, this.2⟩
    · right
      obtain ⟨hv, hc⟩ := bodyEnum_loop h graph kernelEnum params num s hk hn
      rcases loopEnum_spec h graph (lookupEnum h graph kernelEnum s).1 params num 0
          (created h graph (lookupEnum h graph kernelEnum s)).1
          (created h graph (lookupEnum h graph kernelEnum s)).2 with
        ⟨lv, lc⟩ | ⟨pre, q, rest, st, name, hb, hne, lv, lc⟩
      · left
        exact ⟨hk, hn, hv.trans lv, by rw [hc, lc]⟩
      · right
        exact ⟨hk, hn, pre, q, rest, st, name, hb, hne, hv.trans lv, by rw [hc, lc]⟩

/-- The four ways the body of the name overload can run, each with the locals
at `return node` and the exact record of calls: unknown kernel; node not
created; every binding answered `VX_SUCCESS`; a binding answered otherwise. -/
theorem bodyName_cases (graph : vx_graph) (kernelName : String) (params : List vx_reference)
    (num : vx_uint32) (s : σ) :
    ((lookupName h graph kernelName s).1 = 0 ∧
      (stitchCreateNode.bodyName h graph kernelName params num s).val =
        ⟨VX_ERROR_NOT_SUPPORTED, 0⟩ ∧
      (stitchCreateNode.bodyName h graph kernelName params num s).calls =
        [Call.stitchCreateNodeName graph kernelName params num,
          Call.vxGetContext graph (h.getContext graph s).1,
          Call.vxGetKernelByName (h.getContext graph s).1 kernelName 0,
          Call.vxAddLogEntry graph VX_ERROR_INVALID_PARAMETERS
            (LogText.retrieveFailedName kernelName)]) ∨
    ((lookupName h graph kernelName s).1 ≠ 0 ∧
      (created h graph (lookupName h graph kernelName s)).1 = 0 ∧
      (stitchCreateNode.bodyName h graph kernelName params num s).val =
        ⟨VX_ERROR_NO_MEMORY, 0⟩ ∧
      (stitchCreateNode.bodyName h graph kernelName params num s).calls =
        [Call.stitchCreateNodeName graph kernelName params num,
          Call.vxGetContext graph (h.getContext graph s).1,
          Call.vxGetKernelByName (h.getContext graph s).1 kernelName
            (lookupName h graph kernelName s).1,
          Call.vxCreateGenericNode graph (lookupName h graph kernelName s).1 0,
          Call.vxAddLogEntry graph VX_ERROR_INVALID_PARAMETERS
            (LogText.createFailedName kernelName),
          Call.vxReleaseKernel (lookupName h graph kernelName s).1]) ∨
    ((lookupName h graph kernelName s).1 ≠ 0 ∧
      (created h graph (lookupName h graph kernelName s)).1 ≠ 0 ∧
      (stitchCreateNode.bodyName h graph kernelName params num s).val =
        ⟨VX_SUCCESS, (created h graph (lookupName h graph kernelName s)).1⟩ ∧
      (stitchCreateNode.bodyName h graph kernelName params num s).calls =
        [Call.stitchCreateNodeName graph kernelName params num,
          Call.vxGetContext graph (h.getContext graph s).1,
          Call.vxGetKernelByName (h.getContext graph s).1 kernelName
            (lookupName h graph kernelName s).1,
          Call.vxCreateGenericNode graph (lookupName h graph kernelName s).1
            (created h graph (lookupName h graph kernelName s)).1] ++
        (toBind params 0 num).map
          (boundAt (created h graph (lookupName h graph kernelName s)).1 params VX_SUCCESS) ++
        [Call.vxReleaseKernel (lookupName h graph kernelName s).1]) ∨
    ((lookupName h graph kernelName s).1 ≠ 0 ∧
      (created h graph (lookupName h graph kernelName s)).1 ≠ 0 ∧
      ∃ pre q rest st, toBind params 0 num = pre ++ q :: rest ∧ st ≠ VX_SUCCESS ∧
        (stitchCreateNode.bodyName h graph kernelName params num s).val = ⟨st, 0⟩ ∧
        (stitchCreateNode.bodyName h graph kernelName params num s).calls =
          [Call.stitchCreateNodeName graph kernelName params num,
            Call.vxGetContext graph (h.getContext graph s).1,
            Call.vxGetKernelByName (h.getContext graph s).1 kernelName
              (lookupName h graph kernelName s).1,
            Call.vxCreateGenericNode graph (lookupName h graph kernelName s).1
              (created h graph (lookupName h graph kernelName s)).1] ++
          (pre.map
            (boundAt (created h graph (lookupName h graph kernelName s)).1 params VX_SUCCESS) ++
            [boundAt (created h graph (lookupName h graph kernelName s)).1 params st q,
              Call.vxAddLogEntry graph st
                (LogText.setParameterFailed kernelName q (paramAt params q) st),
              Call.vxReleaseNode (created h graph (lookupName h graph kernelName s)).1]) ++
          [Call.vxReleaseKernel (lookupName h graph kernelName s).1]) := by
  by_cases hk : (lookupName h graph kernelName s).1 = 0
  · left
    have := bodyName_unknown h graph kernelName params num s hk
    exact ⟨hk, this.1, this.2⟩
  · right
    by_cases hn : (created h graph (lookupName h graph kernelName s)).1 = 0
    · left
      have := bodyName_nocreate h graph kernelName params num s hk hn
      exact ⟨hk, hn, this.1, this.2⟩
    · right
      obtain ⟨hv, hc⟩ := bodyName_loop h graph kernelName params num s hk hn
      rcases loopName_spec h graph kernelName params num 0
          (created h graph (lookupName h graph kernelName s)).1
          (created h graph (lookupName h graph kernelName s)).2 with
        ⟨lv, lc⟩ | ⟨pre, q, rest, st, hb, hne, lv, lc⟩
      · left
        exact ⟨hk, hn, hv.trans lv, by rw [hc, lc]⟩
      · right
        exact ⟨hk, hn, pre, q, rest, st, hb, hne, hv.trans lv, by rw [hc, lc]⟩

/-- The loop of the enum overload keeps the node exactly when every binding
succeeds. -/
theorem loopEnum_node_iff (graph : vx_graph) (kernel : vx_kernel) (params : List vx_reference)
    (n p : Nat) (node : vx_node) (s : σ) (hnode : node ≠ 0) :
    (stitchCreateNode.loopEnum h graph kernel params n p ⟨VX_SUCCESS, node⟩ s).val.node ≠ 0 ↔
      allBindingsSucceed h node params n p s = true := by
  induction n generalizing p s with
  | zero => exact ⟨fun _ => rfl, fun _ => hnode⟩
  | succ n ih =>
    by_cases hp : paramAt params p = 0
    · rw [loopEnum_null h graph kernel params n p _ s hp, allBindingsSucceed]
      simpa [hp] using ih (p + 1) s
    · by_cases hst : (h.setParameterByIndex node p (paramAt params p) s).1 = VX_SUCCESS
      · rw [loopEnum_ok h graph kernel params n p ⟨VX_SUCCESS, node⟩ s hp hst,
          allBindingsSucceed]
        simpa [hp, hst] using ih (p + 1) (h.setParameterByIndex node p (paramAt params p) s).2
      · rw [(loopEnum_fail h graph kernel params n p ⟨VX_SUCCESS, node⟩ s hp hst).1,
          allBindingsSucceed]
        simp [hp, hst]

/-- The loop of the name overload keeps the node exactly when every binding
succeeds. -/
theorem loopName_node_iff (graph : vx_graph) (kernelName : String)
    (params : List vx_reference) (n p : Nat) (node : vx_node) (s : σ) (hnode : node ≠ 0) :
    (stitchCreateNode.loopName h graph kernelName params n p ⟨VX_SUCCESS, node⟩ s).val.node ≠ 0 ↔
      allBindingsSucceed h node params n p s = true := by
  induction n generalizing p s with
  | zero => exact ⟨fun _ => rfl, fun _ => hnode⟩
  | succ n ih =>
    by_cases hp : paramAt params p = 0
    · rw [loopName_null h graph kernelName params n p _ s hp, allBindingsSucceed]
      simpa [hp] using ih (p + 1) s
    · by_cases hst : (h.setParameterByIndex node p (paramAt params p) s).1 = VX_SUCCESS
      · rw [loopName_ok h graph kernelName params n p ⟨VX_SUCCESS, node⟩ s hp hst,
          allBindingsSucceed]
        simpa [hp, hst] using ih (p + 1) (h.setParameterByIndex node p (paramAt params p) s).2
      · rw [(loopName_fail h graph kernelName params n p ⟨VX_SUCCESS, node⟩ s hp hst).1,
          allBindingsSucceed]
        simp [hp, hst]

/-- The loop of the enum overload against the host's own answers: when no
binding fails it leaves `VX_SUCCESS` and the node; when the first failing
binding, of index `q`, is answered `st`, it leaves `st` and the null node, and
that binding is on record. -/
theorem loopEnum_first_failure (graph : vx_graph) (kernel : vx_kernel)
    (params : List vx_reference) (n p : Nat) (node : vx_node) (s : σ) :
    (firstBindingFailure h node params n p s = none ∧
      (stitchCreateNode.loopEnum h graph kernel params n p ⟨VX_SUCCESS, node⟩ s).val =
        ⟨VX_SUCCESS, node⟩) ∨
    (∃ q st, firstBindingFailure h node params n p s = some (q, st) ∧ st ≠ VX_SUCCESS ∧
      (stitchCreateNode.loopEnum h graph kernel params n p ⟨VX_SUCCESS, node⟩ s).val =
        ⟨st, 0⟩ ∧
      boundAt node params st q ∈
        (stitchCreateNode.loopEnum h graph kernel params n p ⟨VX_SUCCESS, node⟩ s).calls) := by
  induction n generalizing p s with
  | zero => exact Or.inl ⟨rfl, rfl⟩
  | succ n ih =>
    by_cases hp : paramAt params p = 0
    · rw [loopEnum_null h graph kernel params n p _ s hp, firstBindingFailure]
      simpa [hp] using ih (p + 1) s
    · by_cases hst : (h.setParameterByIndex node p (paramAt params p) s).1 = VX_SUCCESS
      · rw [loopEnum_ok h graph kernel params n p ⟨VX_SUCCESS, node⟩ s hp hst,
          firstBindingFailure]
        simp only [hp, hst, ne_eq, not_false_eq_true, not_true_eq_false, if_true, if_false]
        rcases ih (p + 1) (h.setParameterByIndex node p (paramAt params p) s).2 with
          ⟨hf, hv⟩ | ⟨q, st, hf, hne, hv, hm⟩
        · exact Or.inl ⟨hf, hv⟩
        · exact Or.inr ⟨q, st, hf, hne, hv, List.mem_cons_of_mem _ hm⟩
      · obtain ⟨lv, lc⟩ := loopEnum_fail h graph kernel params n p ⟨VX_SUCCESS, node⟩ s hp hst
        rw [lv, lc, firstBindingFailure]
        simp only [hp, hst, ne_eq, not_false_eq_true, if_true]
        exact Or.inr ⟨p, _, rfl, hst, rfl, List.mem_cons_self _ _⟩

/-- The loop of the name overload against the host's own answers: when no
binding fails it leaves `VX_SUCCESS` and the node; when the first failing
binding, of index `q`, is answered `st`, it leaves `st` and the null node, and
that binding is on record. -/
theorem loopName_first_failure (graph : vx_graph) (kernelName : String)
    (params : List vx_reference) (n p : Nat) (node : vx_node) (s : σ) :
    (firstBindingFailure h node params n p s = none ∧
      (stitchCreateNode.loopName h graph kernelName params n p ⟨VX_SUCCESS, node⟩ s).val =
        ⟨VX_SUCCESS, node⟩) ∨
    (∃ q st, firstBindingFailure h node params n p s = some (q, st) ∧ st ≠ VX_SUCCESS ∧
      (stitchCreateNode.loopName h graph kernelName params n p ⟨VX_SUCCESS, node⟩ s).val =
        ⟨st, 0⟩ ∧
      boundAt node params st q ∈
        (stitchCreateNode.loopName h graph kernelName params n p ⟨VX_SUCCESS, node⟩ s).calls) := by
  induction n generalizing p s with
  | zero => exact Or.inl ⟨rfl, rfl⟩
  | succ n ih =>
    by_cases hp : paramAt params p = 0
    · rw [loopName_null h graph kernelName params n p _ s hp, firstBindingFailure]
      simpa [hp] using ih (p + 1) s
    · by_cases hst : (h.setParameterByIndex node p (paramAt params p) s).1 = VX_SUCCESS
      · rw [loopName_ok h graph kernelName params n p ⟨VX_SUCCESS, node⟩ s hp hst,
          firstBindingFailure]
        simp only [hp, hst, ne_eq, not_false_eq_true, not_true_eq_false, if_true, if_false]
        rcases ih (p + 1) (h.setParameterByIndex node p (paramAt params p) s).2 with
          ⟨hf, hv⟩ | ⟨q, st, hf, hne, hv, hm⟩
        · exact Or.inl ⟨hf, hv⟩
        · exact Or.inr ⟨q, st, hf, hne, hv, List.mem_cons_of_mem _ hm⟩
      · obtain ⟨lv, lc⟩ := loopName_fail h graph kernelName params n p ⟨VX_SUCCESS, node⟩ s hp hst
        rw [lv, lc, firstBindingFailure]
        simp only [hp, hst, ne_eq, not_false_eq_true, if_true]
        exact Or.inr ⟨p, _, rfl, hst, rfl, List.mem_cons_self _ _⟩

/-- No binding fails exactly when every binding succeeds. -/
theorem firstBindingFailure_none_iff (params : List vx_reference) (n p : Nat) (node : vx_node)
    (s : σ) :
    firstBindingFailure h node params n p s = none ↔
      allBindingsSucceed h node params n p s = true := by
  induction n generalizing p s with
  | zero => exact ⟨fun _ => rfl, fun _ => rfl⟩
  | succ n ih =>
    rw [firstBindingFailure, allBindingsSucceed]
    by_cases hp : paramAt params p = 0
    · simpa [hp] using ih (p + 1) s
    · by_cases hst : (h.setParameterByIndex node p (paramAt params p) s).1 = VX_SUCCESS
      · simpa [hp, hst] using ih (p + 1) (h.setParameterByIndex node p (paramAt params p) s).2
      · simp [hp, hst]

/-- The enum overload returns a node exactly when the lookup answers a kernel,
a node is created and every binding succeeds. -/
theorem bodyEnum_node_iff (graph : vx_graph) (kernelEnum : vx_enum)
    (params : List vx_reference) (num : vx_uint32) (s : σ) :
    (stitchCreateNode.bodyEnum h graph kernelEnum params num s).val.node ≠ 0 ↔
      (lookupEnum h graph kernelEnum s).1 ≠ 0 ∧
      (created h graph (lookupEnum h graph kernelEnum s)).1 ≠ 0 ∧
      allBindingsSucceed h (created h graph (lookupEnum h graph kernelEnum s)).1 params num 0
        (created h graph (lookupEnum h graph kernelEnum s)).2 = true := by
  by_cases hk : (lookupEnum h graph kernelEnum s).1 = 0
  · simp [(bodyEnum_unknown h graph kernelEnum params num s hk).1, hk]
  · by_cases hn : (created h graph (lookupEnum h graph kernelEnum s)).1 = 0
    · simp [(bodyEnum_nocreate h graph kernelEnum params num s hk hn).1, hn]
    · rw [(bodyEnum_loop h graph kernelEnum params num s hk hn).1,
        loopEnum_node_iff h graph _ params num 0 _ _ hn]
      simp [hk, hn]

/-- The name overload returns a node exactly when the lookup answers a kernel,
a node is created and every binding succeeds. -/
theorem bodyName_node_iff (graph : vx_graph) (kernelName : String)
    (params : List vx_reference) (num : vx_uint32) (s : σ) :
    (stitchCreateNode.bodyName h graph kernelName params num s).val.node ≠ 0 ↔
      (lookupName h graph kernelName s).1 ≠ 0 ∧
      (created h graph (lookupName h graph kernelName s)).1 ≠ 0 ∧
      allBindingsSucceed h (created h graph (lookupName h graph kernelName s)).1 params num 0
        (created h graph (lookupName h graph kernelName s)).2 = true := by
  by_cases hk : (lookupName h graph kernelName s).1 = 0
  · simp [(bodyName_unknown h graph kernelName params num s hk).1, hk]
  · by_cases hn : (created h graph (lookupName h graph kernelName s)).1 = 0
    · simp [(bodyName_nocreate h graph kernelName params num s hk hn).1, hn]
    · rw [(bodyName_loop h graph kernelName params num s hk hn).1,
        loopName_node_iff h graph _ params num 0 _ _ hn]
      simp [hk, hn]

end LoopFacts

section RecordFacts

variable {σ : Type} (h : Host σ)

theorem stitchCreateNode_val (graph : vx_graph) (kernelEnum : vx_enum)
    (params : List vx_reference) (num : vx_uint32) (s : σ) :
    (stitchCreateNode h graph kernelEnum params num s).val =
      (stitchCreateNode.bodyEnum h graph kernelEnum params num s).val.node := rfl

theorem stitchCreateNode_calls (graph : vx_graph) (kernelEnum : vx_enum)
    (params : List vx_reference) (num : vx_uint32) (s : σ) :
    (stitchCreateNode h graph kernelEnum params num s).calls =
      (stitchCreateNode.bodyEnum h graph kernelEnum params num s).calls := by
  simp [stitchCreateNode]

theorem stitchCreateNodeByName_val (graph : vx_graph) (kernelName : String)
    (params : List vx_reference) (num : vx_uint32) (s : σ) :
    (stitchCreateNodeByName h graph kernelName params num s).val =
      (stitchCreateNode.bodyName h graph kernelName params num s).val.node := rfl

theorem stitchCreateNodeByName_calls (graph : vx_graph) (kernelName : String)
    (params : List vx_reference) (num : vx_uint32) (s : σ) :
    (stitchCreateNodeByName h graph kernelName params num s).calls =
      (stitchCreateNode.bodyName h graph kernelName params num s).calls := by
  simp [stitchCreateNodeByName]

theorem bindings_boundAt (node : vx_node) (params : List vx_reference) (st : vx_status)
    (l : List Nat) :
    bindings (l.map (boundAt node params st)) =
      l.map (fun q => (node, q, paramAt params q, st)) := by
  induction l with
  | nil => rfl
  | cons a l ih =>
    simp only [bindings] at ih
    simp [bindings, boundAt, Call.asBinding, ih]

theorem bindings_append (t u : List Call) : bindings (t ++ u) = bindings t ++ bindings u := by
  simp [bindings]

theorem bindings_nil : bindings [] = [] := rfl

theorem bindings_cons (c : Call) (t : List Call) :
    bindings (c :: t) = c.asBinding.toList ++ bindings t := by
  cases hc : c.asBinding <;> simp [bindings, List.filterMap_cons, hc]

theorem bindings_mem_of_call (t : List Call) (c : Call)
    (b : vx_node × vx_uint32 × vx_reference × vx_status) (hc : c ∈ t)
    (hb : c.asBinding = some b) : b ∈ bindings t := by
  unfold bindings
  exact List.mem_filterMap.mpr ⟨c, hc, hb⟩

/-- The enum overload against the host's own answers: the four ways it can
run, told apart by the answer of the lookup, the answer of
`vxCreateGenericNode` and the first binding that fails, each with the locals at
`return node`. -/
theorem bodyEnum_by_answers (graph : vx_graph) (kernelEnum : vx_enum)
    (params : List vx_reference) (num : vx_uint32) (s : σ) :
    ((lookupEnum h graph kernelEnum s).1 = 0 ∧
      (stitchCreateNode.bodyEnum h graph kernelEnum params num s).val =
        ⟨VX_ERROR_NOT_SUPPORTED, 0⟩) ∨
    ((lookupEnum h graph kernelEnum s).1 ≠ 0 ∧
      (created h graph (lookupEnum h graph kernelEnum s)).1 = 0 ∧
      (stitchCreateNode.bodyEnum h graph kernelEnum params num s).val =
        ⟨VX_ERROR_NO_MEMORY, 0⟩) ∨
    ((lookupEnum h graph kernelEnum s).1 ≠ 0 ∧
      (created h graph (lookupEnum h graph kernelEnum s)).1 ≠ 0 ∧
      firstBindingFailure h (created h graph (lookupEnum h graph kernelEnum s)).1 params num 0
        (created h graph (lookupEnum h graph kernelEnum s)).2 = none ∧
      (stitchCreateNode.bodyEnum h graph kernelEnum params num s).val =
        ⟨VX_SUCCESS, (created h graph (lookupEnum h graph kernelEnum s)).1⟩) ∨
    ((lookupEnum h graph kernelEnum s).1 ≠ 0 ∧
      (created h graph (lookupEnum h graph kernelEnum s)).1 ≠ 0 ∧
      ∃ q st,
        firstBindingFailure h (created h graph (lookupEnum h graph kernelEnum s)).1 params num 0
          (created h graph (lookupEnum h graph kernelEnum s)).2 = some (q, st) ∧
        st ≠ VX_SUCCESS ∧
        ((created h graph (lookupEnum h graph kernelEnum s)).1, q, paramAt params q, st) ∈
          bindings (stitchCreateNode.bodyEnum h graph kernelEnum params num s).calls ∧
        (stitchCreateNode.bodyEnum h graph kernelEnum params num s).val = ⟨st, 0⟩) := by
  by_cases hk : (lookupEnum h graph kernelEnum s).1 = 0
  · exact Or.inl ⟨hk, (bodyEnum_unknown h graph kernelEnum params num s hk).1⟩
  · by_cases hn : (created h graph (lookupEnum h graph kernelEnum s)).1 = 0
    · exact Or.inr (Or.inl ⟨hk, hn, (bodyEnum_nocreate h graph kernelEnum params num s hk hn).1⟩)
    · obtain ⟨bv, bc⟩ := bodyEnum_loop h graph kernelEnum params num s hk hn
      rcases loopEnum_first_failure h graph (lookupEnum h graph kernelEnum s).1 params num 0
          (created h graph (lookupEnum h graph kernelEnum s)).1
          (created h graph (lookupEnum h graph kernelEnum s)).2 with
        ⟨hf, hv⟩ | ⟨q, st, hf, hne, hv, hm⟩
      · exact Or.inr (Or.inr (Or.inl ⟨hk, hn, hf, bv.trans hv⟩))
      · refine Or.inr (Or.inr (Or.inr ⟨hk, hn, q, st, hf, hne, ?_, bv.trans hv⟩))
        rw [bc, bindings_append, bindings_append]
        refine List.mem_append_left _ (List.mem_append_right _ ?_)
        exact bindings_mem_of_call _ _ _ hm rfl

/-- The name overload against the host's own answers: the four ways it can
run, told apart by the answer of the lookup, the answer of
`vxCreateGenericNode` and the first binding that fails, each with the locals at
`return node`. -/
theorem bodyName_by_answers (graph : vx_graph) (kernelName : String)
    (params : List vx_reference) (num : vx_uint32) (s : σ) :
    ((lookupName h graph kernelName s).1 = 0 ∧
      (stitchCreateNode.bodyName h graph kernelName params num s).val =
        ⟨VX_ERROR_NOT_SUPPORTED, 0⟩) ∨
    ((lookupName h graph kernelName s).1 ≠ 0 ∧
      (created h graph (lookupName h graph kernelName s)).1 = 0 ∧
      (stitchCreateNode.bodyName h graph kernelName params num s).val =
        ⟨VX_ERROR_NO_MEMORY, 0⟩) ∨
    ((lookupName h graph kernelName s).1 ≠ 0 ∧
      (created h graph (lookupName h graph kernelName s)).1 ≠ 0 ∧
      firstBindingFailure h (created h graph (lookupName h graph kernelName s)).1 params num 0
        (created h graph (lookupName h graph kernelName s)).2 = none ∧
      (stitchCreateNode.bodyName h graph kernelName params num s).val =
        ⟨VX_SUCCESS, (created h graph (lookupName h graph kernelName s)).1⟩) ∨
    ((lookupName h graph kernelName s).1 ≠ 0 ∧
      (created h graph (lookupName h graph kernelName s)).1 ≠ 0 ∧
      ∃ q st,
        firstBindingFailure h (created h graph (lookupName h graph kernelName s)).1 params num 0
          (created h graph (lookupName h graph kernelName s)).2 = some (q, st) ∧
        st ≠ VX_SUCCESS ∧
        ((created h graph (lookupName h graph kernelName s)).1, q, paramAt params q, st) ∈
          bindings (stitchCreateNode.bodyName h graph kernelName params num s).calls ∧
        (stitchCreateNode.bodyName h graph kernelName params num s).val = ⟨st, 0⟩) := by
  by_cases hk : (lookupName h graph kernelName s).1 = 0
  · exact Or.inl ⟨hk, (bodyName_unknown h graph kernelName params num s hk).1⟩
  · by_cases hn : (created h graph (lookupName h graph kernelName s)).1 = 0
    · exact Or.inr (Or.inl ⟨hk, hn, (bodyName_nocreate h graph kernelName params num s hk hn).1⟩)
    · obtain ⟨bv, bc⟩ := bodyName_loop h graph kernelName params num s hk hn
      rcases loopName_first_failure h graph kernelName params num 0
          (created h graph (lookupName h graph kernelName s)).1
          (created h graph (lookupName h graph kernelName s)).2 with
        ⟨hf, hv⟩ | ⟨q, st, hf, hne, hv, hm⟩
      · exact Or.inr (Or.inr (Or.inl ⟨hk, hn, hf, bv.trans hv⟩))
      · refine Or.inr (Or.inr (Or.inr ⟨hk, hn, q, st, hf, hne, ?_, bv.trans hv⟩))
        rw [bc, bindings_append, bindings_append]
        refine List.mem_append_left _ (List.mem_append_right _ ?_)
        exact bindings_mem_of_call _ _ _ hm rfl

/-- The indices to bind are exactly the `q < num` with `params[q]` not null. -/
theorem mem_toBind (params : List vx_reference) (num q : Nat) :
    q ∈ toBind params 0 num ↔ q < num ∧ paramAt params q ≠ 0 := by
  simp [toBind, List.mem_range']

/-- The indices to bind are listed in strictly increasing order. -/
theorem toBind_increasing (params : List vx_reference) (p n : Nat) :
    (toBind params p n).Pairwise (fun a b => a < b) := by
  unfold toBind
  apply List.Pairwise.filter
  exact List.pairwise_lt_range' p n

/-- A list of successful bindings followed by one failed binding is not a list
of successful bindings. -/
theorem failed_binding_ne (node : vx_node) (params : List vx_reference) (pre rest : List Nat)
    (q : Nat) (st : vx_status) (hst : st ≠ VX_SUCCESS) :
    pre.map (fun q => (node, q, paramAt params q, VX_SUCCESS)) ++ [(node, q, paramAt params q, st)]
      ≠ (pre ++ q :: rest).map (fun q => (node, q, paramAt params q, VX_SUCCESS)) := by
  intro heq
  rw [List.map_append, List.map_cons] at heq
  have h2 := List.append_cancel_left heq
  simp only [List.cons.injEq, Prod.mk.injEq] at h2
  exact hst h2.1.2.2.2

end RecordFacts

section Overloads

variable {σ : Type} (h : Host σ)

theorem withoutQueries_cons (c : Call) (t : List Call) :
    withoutQueries (c :: t) = (if c.isQuery then [] else [c]) ++ withoutQueries t := by
  cases hc : c.isQuery <;> simp [withoutQueries, List.filter_cons, hc]

theorem withoutQueries_nil : withoutQueries [] = [] := rfl

theorem withoutQueries_append (t u : List Call) :
    withoutQueries (t ++ u) = withoutQueries t ++ withoutQueries u := by
  simp [withoutQueries]

theorem queries_cons (c : Call) (t : List Call) :
    queries (c :: t) = (if c.isQuery then [c] else []) ++ queries t := by
  cases hc : c.isQuery <;> simp [queries, List.filter_cons, hc]

theorem queries_nil : queries [] = [] := rfl

theorem queries_append (t u : List Call) : queries (t ++ u) = queries t ++ queries u := by
  simp [queries]

theorem upToLookupAndText_cons (c : Call) (t : List Call) :
    upToLookupAndText (c :: t) = c.upToLookupAndText.toList ++ upToLookupAndText t := by
  cases hc : c.upToLookupAndText <;> simp [upToLookupAndText, List.filterMap_cons, hc]

theorem upToLookupAndText_nil : upToLookupAndText [] = [] := rfl

theorem upToLookupAndText_append (t u : List Call) :
    upToLookupAndText (t ++ u) = upToLookupAndText t ++ upToLookupAndText u := by
  simp [upToLookupAndText]

theorem constructionCalls_cons (c : Call) (t : List Call) :
    constructionCalls (c :: t) = (if c.isConstruction then [c] else []) ++ constructionCalls t := by
  cases hc : c.isConstruction <;> simp [constructionCalls, List.filter_cons, hc]

theorem constructionCalls_nil : constructionCalls [] = [] := rfl

theorem constructionCalls_append (t u : List Call) :
    constructionCalls (t ++ u) = constructionCalls t ++ constructionCalls u := by
  simp [constructionCalls]

/-- The loops of the two overloads, started alike, end with the same locals and
make the same calls, but for the text of the log entry and for the
`vxQueryKernel` call that only the enum overload makes. -/
theorem loops_alike (graph : vx_graph) (kernel : vx_kernel) (kernelName : String)
    (params : List vx_reference) (n p : Nat) (node : vx_node) (s : σ) :
    (stitchCreateNode.loopEnum h graph kernel params n p ⟨VX_SUCCESS, node⟩ s).val =
        (stitchCreateNode.loopName h graph kernelName params n p ⟨VX_SUCCESS, node⟩ s).val ∧
      constructionCalls
          (stitchCreateNode.loopEnum h graph kernel params n p ⟨VX_SUCCESS, node⟩ s).calls =
        constructionCalls
          (stitchCreateNode.loopName h graph kernelName params n p ⟨VX_SUCCESS, node⟩ s).calls ∧
      upToLookupAndText
          (withoutQueries
            (stitchCreateNode.loopEnum h graph kernel params n p ⟨VX_SUCCESS, node⟩ s).calls) =
        upToLookupAndText
          (stitchCreateNode.loopName h graph kernelName params n p ⟨VX_SUCCESS, node⟩ s).calls ∧
      queries (stitchCreateNode.loopName h graph kernelName params n p ⟨VX_SUCCESS, node⟩ s).calls
          = [] ∧
      (queries
          (stitchCreateNode.loopEnum h graph kernel params n p ⟨VX_SUCCESS, node⟩ s).calls).length
              ≤ 1 := by
  induction n generalizing p s with
  | zero => exact ⟨rfl, rfl, rfl, rfl, Nat.zero_le 1⟩
  | succ n ih =>
    by_cases hp : paramAt params p = 0
    · rw [loopEnum_null h graph kernel params n p _ s hp,
        loopName_null h graph kernelName params n p _ s hp]
      exact ih (p + 1) s
    · by_cases hst : (h.setParameterByIndex node p (paramAt params p) s).1 = VX_SUCCESS
      · rw [loopEnum_ok h graph kernel params n p ⟨VX_SUCCESS, node⟩ s hp hst,
          loopName_ok h graph kernelName params n p ⟨VX_SUCCESS, node⟩ s hp hst]
        obtain ⟨h1, h2, h3, h4, h5⟩ :=
          ih (p + 1) (h.setParameterByIndex node p (paramAt params p) s).2
        refine ⟨h1, ?_, ?_, ?_, ?_⟩
        · simp [constructionCalls_cons, boundAt, Call.isConstruction, h2]
        · simp [withoutQueries_cons, upToLookupAndText_cons, upToLookupAndText_append, boundAt,
            Call.isQuery, Call.upToLookupAndText, h3]
        · simpa [queries_cons, boundAt, Call.isQuery] using h4
        · simpa [queries_cons, boundAt, Call.isQuery] using h5
      · obtain ⟨ev, ec⟩ := loopEnum_fail h graph kernel params n p ⟨VX_SUCCESS, node⟩ s hp hst
        obtain ⟨nv, nc⟩ := loopName_fail h graph kernelName params n p ⟨VX_SUCCESS, node⟩ s hp hst
        rw [ev, ec, nv, nc]
        refine ⟨rfl, ?_, ?_, ?_, ?_⟩
        · simp [constructionCalls_cons, constructionCalls_nil, boundAt, Call.isConstruction]
        · simp [withoutQueries_cons, withoutQueries_nil, upToLookupAndText_cons,
            upToLookupAndText_nil, boundAt, Call.isQuery, Call.upToLookupAndText]
        · simp [queries_cons, queries_nil, boundAt, Call.isQuery]
        · simp [queries_cons, queries_nil, boundAt, Call.isQuery]

end Overloads

section PublishFacts

variable {σ : Type} (h : Host σ) (pub : PublishFn → vx_context → σ → vx_status × σ)

theorem publishCalls_nil : publishCalls [] = [] := rfl

theorem publishCalls_cons (c : Call) (t : List Call) :
    publishCalls (c :: t) = c.asPublish.toList ++ publishCalls t := by
  cases hc : c.asPublish <;> simp [publishCalls, List.filterMap_cons, hc]

theorem publishCalls_append (t u : List Call) :
    publishCalls (t ++ u) = publishCalls t ++ publishCalls u := by
  simp [publishCalls]

theorem registeredFormats_nil : registeredFormats [] = [] := rfl

theorem registeredFormats_cons (c : Call) (t : List Call) :
    registeredFormats (c :: t) = c.asFormat.toList ++ registeredFormats t := by
  cases hc : c.asFormat <;> simp [registeredFormats, List.filterMap_cons, hc]

theorem registeredFormats_append (t u : List Call) :
    registeredFormats (t ++ u) = registeredFormats t ++ registeredFormats u := by
  simp [registeredFormats]

theorem checkedChain_cons_ok (context : vx_context) (f : PublishFn) (fs : List PublishFn) (s : σ)
    (hf : (pub f context s).1 = VX_SUCCESS) :
    (checkedChain pub context (f :: fs) s).val =
        (checkedChain pub context fs (pub f context s).2).val ∧
      (checkedChain pub context (f :: fs) s).calls =
        Call.publish f context VX_SUCCESS ::
          (checkedChain pub context fs (pub f context s).2).calls := by
  simp [checkedChain, ERROR_CHECK_STATUS, callPublish, hf]

theorem checkedChain_cons_fail (context : vx_context) (f : PublishFn) (fs : List PublishFn)
    (s : σ) (hf : (pub f context s).1 ≠ VX_SUCCESS) :
    (checkedChain pub context (f :: fs) s).val = (pub f context s).1 ∧
      (checkedChain pub context (f :: fs) s).calls =
        [Call.publish f context (pub f context s).1] := by
  simp [checkedChain, ERROR_CHECK_STATUS, callPublish, hf]

/-- A chain of checked publish calls either makes all its calls, each answered
`VX_SUCCESS`, and gives `VX_SUCCESS`; or it stops at the first call answered
otherwise and gives the status of that call. -/
theorem checkedChain_spec (context : vx_context) (fs : List PublishFn) (s : σ) :
    ((checkedChain pub context fs s).val = VX_SUCCESS ∧
      (checkedChain pub context fs s).calls =
        fs.map (fun f => Call.publish f context VX_SUCCESS)) ∨
    (∃ pre f rest, fs = pre ++ f :: rest ∧ (checkedChain pub context fs s).val ≠ VX_SUCCESS ∧
      (checkedChain pub context fs s).calls =
        pre.map (fun f => Call.publish f context VX_SUCCESS) ++
          [Call.publish f context (checkedChain pub context fs s).val]) := by
  induction fs generalizing s with
  | nil => exact Or.inl ⟨rfl, rfl⟩
  | cons f fs ih =>
    by_cases hf : (pub f context s).1 = VX_SUCCESS
    · obtain ⟨hv, hc⟩ := checkedChain_cons_ok pub context f fs s hf
      rw [hv, hc]
      rcases ih (pub f context s).2 with ⟨iv, ic⟩ | ⟨pre, g, rest, hfs, iv, ic⟩
      · exact Or.inl ⟨iv, by simp [ic]⟩
      · exact Or.inr ⟨f :: pre, g, rest, by simp [hfs], iv, by simp [ic]⟩
    · obtain ⟨hv, hc⟩ := checkedChain_cons_fail pub context f fs s hf
      rw [hv, hc]
      exact Or.inr ⟨[], f, fs, rfl, hf, rfl⟩

theorem publishAnswers_append (context : vx_context) (fs gs : List PublishFn) (s : σ) :
    publishAnswers pub context (fs ++ gs) s =
      publishAnswers pub context fs s ++
        publishAnswers pub context gs (publishState pub context fs s) := by
  induction fs generalizing s with
  | nil => rfl
  | cons f fs ih => simp [publishAnswers, publishState, ih]

/-- A chain of checked publish calls against the answers of the publish
functions.  Either every function of the chain, called in the state the one
before left, answers `VX_SUCCESS`: the chain gives `VX_SUCCESS`, all calls are
made and the host is in the state the last one left.  Or there is a first
function `f` whose answer, in the state left by those before it, is not
`VX_SUCCESS`: the chain gives that answer, the host is in the state `f` left,
and no call after `f` is made. -/
theorem checkedChain_by_answers (context : vx_context) (fs : List PublishFn) (s : σ) :
    ((checkedChain pub context fs s).val = VX_SUCCESS ∧
      publishAnswers pub context fs s = List.replicate fs.length VX_SUCCESS ∧
      (checkedChain pub context fs s).host = publishState pub context fs s ∧
      (checkedChain pub context fs s).calls =
        fs.map (fun f => Call.publish f context VX_SUCCESS)) ∨
    (∃ pre f rest, fs = pre ++ f :: rest ∧
      publishAnswers pub context pre s = List.replicate pre.length VX_SUCCESS ∧
      (pub f context (publishState pub context pre s)).1 ≠ VX_SUCCESS ∧
      (checkedChain pub context fs s).val = (pub f context (publishState pub context pre s)).1 ∧
      (checkedChain pub context fs s).host = (pub f context (publishState pub context pre s)).2 ∧
      (checkedChain pub context fs s).calls =
        pre.map (fun g => Call.publish g context VX_SUCCESS) ++
          [Call.publish f context (pub f context (publishState pub context pre s)).1]) := by
  induction fs generalizing s with
  | nil => exact Or.inl ⟨rfl, rfl, rfl, rfl⟩
  | cons f fs ih =>
    by_cases hf : (pub f context s).1 = VX_SUCCESS
    · have hrun : checkedChain pub context (f :: fs) s =
          ⟨(checkedChain pub context fs (pub f context s).2).val,
            Call.publish f context VX_SUCCESS ::
              (checkedChain pub context fs (pub f context s).2).calls,
            (checkedChain pub context fs (pub f context s).2).host⟩ := by
        simp [checkedChain, ERROR_CHECK_STATUS, callPublish, hf]
      rw [hrun]
      rcases ih (pub f context s).2 with ⟨iv, ia, ih2, ic⟩ | ⟨pre, g, rest, hfs, ia, hg, iv, ih2, ic⟩
      · exact Or.inl ⟨iv, by simp [publishAnswers, hf, ia, List.replicate_succ],
          by simp [publishState, ih2], by simp [ic]⟩
      · exact Or.inr ⟨f :: pre, g, rest, by simp [hfs],
          by simp [publishAnswers, hf, ia, List.replicate_succ],
          by simpa [publishState] using hg, by simpa [publishState] using iv,
          by simpa [publishState] using ih2, by simpa [publishState] using ic⟩
    · have hrun : checkedChain pub context (f :: fs) s =
          ⟨(pub f context s).1, [Call.publish f context (pub f context s).1],
            (pub f context s).2⟩ := by
        simp [checkedChain, ERROR_CHECK_STATUS, callPublish, hf]
      rw [hrun]
      exact Or.inr ⟨[], f, fs, rfl, rfl, hf, rfl, rfl, rfl⟩

/-- The state in which `vxPublishKernels` starts its chain of checked publish
calls, and the state it leaves. -/
theorem vxPublishKernels_chain (context : vx_context) (s : σ) :
    (vxPublishKernels h pub context s).val =
        (checkedChain pub context publishOrder (afterFormats h context s)).val ∧
      publishCalls (vxPublishKernels h pub context s).calls =
        publishCalls (checkedChain pub context publishOrder (afterFormats h context s)).calls ∧
      (vxPublishKernels h pub context s).host =
        (checkedChain pub context publishOrder (afterFormats h context s)).host := by
  refine ⟨rfl, ?_, rfl⟩
  have hc : (vxPublishKernels h pub context s).calls =
      [Call.vxSetContextImageFormatDescription context vx_df_image.VX_DF_IMAGE_Y210_AMD
          ⟨3, 1, 32, vx_color_space_e.VX_COLOR_SPACE_DEFAULT,
            vx_channel_range_e.VX_CHANNEL_RANGE_FULL⟩,
        Call.vxSetContextImageFormatDescription context vx_df_image.VX_DF_IMAGE_Y212_AMD
          ⟨3, 1, 32, vx_color_space_e.VX_COLOR_SPACE_DEFAULT,
            vx_channel_range_e.VX_CHANNEL_RANGE_FULL⟩,
        Call.vxSetContextImageFormatDescription context vx_df_image.VX_DF_IMAGE_Y216_AMD
          ⟨3, 1, 32, vx_color_space_e.VX_COLOR_SPACE_DEFAULT,
            vx_channel_range_e.VX_CHANNEL_RANGE_FULL⟩,
        Call.vxSetContextImageFormatDescription context vx_df_image.VX_DF_IMAGE_RGB4_AMD
          ⟨3, 1, 48, vx_color_space_e.VX_COLOR_SPACE_DEFAULT,
            vx_channel_range_e.VX_CHANNEL_RANGE_FULL⟩] ++
      (checkedChain pub context publishOrder (afterFormats h context s)).calls := rfl
  rw [hc, publishCalls_append]
  simp [publishCalls_cons, publishCalls_nil, Call.asPublish]

/-- `vxPublishKernels` registers the four image formats and then runs the chain
of the 19 checked publish calls in source order. -/
theorem vxPublishKernels_run (context : vx_context) (s : σ) :
    ∃ s1, (vxPublishKernels h pub context s).val =
        (checkedChain pub context publishOrder s1).val ∧
      (vxPublishKernels h pub context s).calls =
        [Call.vxSetContextImageFormatDescription context vx_df_image.VX_DF_IMAGE_Y210_AMD
            ⟨3, 1, 32, vx_color_space_e.VX_COLOR_SPACE_DEFAULT,
              vx_channel_range_e.VX_CHANNEL_RANGE_FULL⟩,
          Call.vxSetContextImageFormatDescription context vx_df_image.VX_DF_IMAGE_Y212_AMD
            ⟨3, 1, 32, vx_color_space_e.VX_COLOR_SPACE_DEFAULT,
              vx_channel_range_e.VX_CHANNEL_RANGE_FULL⟩,
          Call.vxSetContextImageFormatDescription context vx_df_image.VX_DF_IMAGE_Y216_AMD
            ⟨3, 1, 32, vx_color_space_e.VX_COLOR_SPACE_DEFAULT,
              vx_channel_range_e.VX_CHANNEL_RANGE_FULL⟩,
          Call.vxSetContextImageFormatDescription context vx_df_image.VX_DF_IMAGE_RGB4_AMD
            ⟨3, 1, 48, vx_color_space_e.VX_COLOR_SPACE_DEFAULT,
              vx_channel_range_e.VX_CHANNEL_RANGE_FULL⟩] ++
        (checkedChain pub context publishOrder s1).calls :=
  ⟨_, rfl, rfl⟩

theorem publishCalls_published (context : vx_context) (st : vx_status) (fs : List PublishFn) :
    publishCalls (fs.map (fun f => Call.publish f context st)) = fs.map (fun f => (f, st)) := by
  induction fs with
  | nil => rfl
  | cons f fs ih => simp [publishCalls_cons, Call.asPublish, ih]

theorem registeredFormats_published (context : vx_context) (st : vx_status)
    (fs : List PublishFn) :
    registeredFormats (fs.map (fun f => Call.publish f context st)) = [] := by
  induction fs with
  | nil => rfl
  | cons f fs ih => simp [registeredFormats_cons, Call.asFormat, ih]

end PublishFacts

section ConstructorFacts

variable {σ : Type} (h : Host σ)

theorem nodeRequests_nil : nodeRequests [] = [] := rfl

theorem nodeRequests_cons (c : Call) (t : List Call) :
    nodeRequests (c :: t) = c.asNodeRequest.toList ++ nodeRequests t := by
  cases hc : c.asNodeRequest <;> simp [nodeRequests, List.filterMap_cons, hc]

theorem nodeRequests_append (t u : List Call) :
    nodeRequests (t ++ u) = nodeRequests t ++ nodeRequests u := by
  simp [nodeRequests]

theorem createdScalars_nil : createdScalars [] = [] := rfl

theorem createdScalars_cons (c : Call) (t : List Call) :
    createdScalars (c :: t) = c.asCreatedScalar.toList ++ createdScalars t := by
  cases hc : c.asCreatedScalar <;> simp [createdScalars, List.filterMap_cons, hc]

theorem createdScalars_append (t u : List Call) :
    createdScalars (t ++ u) = createdScalars t ++ createdScalars u := by
  simp [createdScalars]

theorem nodeRequests_boundAt (node : vx_node) (params : List vx_reference) (st : vx_status)
    (l : List Nat) : nodeRequests (l.map (boundAt node params st)) = [] := by
  induction l with
  | nil => rfl
  | cons a l ih => simp [nodeRequests_cons, boundAt, Call.asNodeRequest, ih]

theorem createdScalars_boundAt (node : vx_node) (params : List vx_reference) (st : vx_status)
    (l : List Nat) : createdScalars (l.map (boundAt node params st)) = [] := by
  induction l with
  | nil => rfl
  | cons a l ih => simp [createdScalars_cons, boundAt, Call.asCreatedScalar, ih]

/-- The record of `stitchCreateNode` holds one entry into the function, with the
arguments it was called with. -/
theorem nodeRequests_stitchCreateNode (graph : vx_graph) (kernelEnum : vx_enum)
    (params : List vx_reference) (num : vx_uint32) (s : σ) :
    nodeRequests (stitchCreateNode h graph kernelEnum params num s).calls =
      [(graph, kernelEnum, params, num)] := by
  rw [stitchCreateNode_calls]
  rcases bodyEnum_cases h graph kernelEnum params num s with
    ⟨_, _, hc⟩ | ⟨_, _, _, hc⟩ | ⟨_, _, _, hc⟩ | ⟨_, _, pre, q, rest, st, name, _, _, _, hc⟩ <;>
  simp [hc, nodeRequests_cons, nodeRequests_nil, nodeRequests_append, nodeRequests_boundAt,
    Call.asNodeRequest, boundAt]

/-- The enum overload of `stitchCreateNode` creates no scalar. -/
theorem createdScalars_stitchCreateNode (graph : vx_graph) (kernelEnum : vx_enum)
    (params : List vx_reference) (num : vx_uint32) (s : σ) :
    createdScalars (stitchCreateNode h graph kernelEnum params num s).calls = [] := by
  rw [stitchCreateNode_calls]
  rcases bodyEnum_cases h graph kernelEnum params num s with
    ⟨_, _, hc⟩ | ⟨_, _, _, hc⟩ | ⟨_, _, _, hc⟩ | ⟨_, _, pre, q, rest, st, name, _, _, _, hc⟩ <;>
  simp [hc, createdScalars_cons, createdScalars_nil, createdScalars_append,
    createdScalars_boundAt, Call.asCreatedScalar, boundAt]

theorem createdScalars_raw (graph : vx_graph) (kernelEnum : vx_enum)
    (params : List vx_reference) (num : vx_uint32) (s : σ) :
    List.filterMap Call.asCreatedScalar
      (stitchCreateNode h graph kernelEnum params num s).calls = [] :=
  createdScalars_stitchCreateNode h graph kernelEnum params num s

/-- When the enum overload returns a node, the bindings made are those of all
the indices to bind, in order, each answered `VX_SUCCESS`, on the node returned. -/
theorem bindings_of_node (graph : vx_graph) (kernelEnum : vx_enum)
    (params : List vx_reference) (num : vx_uint32) (s : σ)
    (hval : (stitchCreateNode h graph kernelEnum params num s).val ≠ 0) :
    bindings (stitchCreateNode h graph kernelEnum params num s).calls =
      (toBind params 0 num).map (fun p =>
        ((stitchCreateNode h graph kernelEnum params num s).val, p, paramAt params p,
          VX_SUCCESS)) := by
  rw [stitchCreateNode_val] at hval ⊢
  rw [stitchCreateNode_calls]
  rcases bodyEnum_cases h graph kernelEnum params num s with
    ⟨_, hv, _⟩ | ⟨_, _, hv, _⟩ | ⟨_, _, hv, hc⟩ | ⟨_, _, pre, q, rest, st, name, _, _, hv, _⟩
  · simp [hv] at hval
  · simp [hv] at hval
  · simp [hv, hc, bindings_append, bindings_boundAt, bindings_cons, bindings_nil,
      Call.asBinding]
  · simp [hv] at hval

end ConstructorFacts

section ReleaseFacts

variable {σ : Type} (h : Host σ)

theorem logged_nil : logged [] = [] := rfl

theorem logged_cons (c : Call) (t : List Call) :
    logged (c :: t) = c.asLogged.toList ++ logged t := by
  cases hc : c.asLogged <;> simp [logged, List.filterMap_cons, hc]

theorem logged_append (t u : List Call) : logged (t ++ u) = logged t ++ logged u := by
  simp [logged]

theorem logged_boundAt (node : vx_node) (params : List vx_reference) (st : vx_status)
    (l : List Nat) : logged (l.map (boundAt node params st)) = [] := by
  induction l with
  | nil => rfl
  | cons a l ih => simp [logged_cons, boundAt, Call.asLogged, ih]

theorem releasedKernels_nil : releasedKernels [] = [] := rfl

theorem releasedKernels_cons (c : Call) (t : List Call) :
    releasedKernels (c :: t) = c.asReleasedKernel.toList ++ releasedKernels t := by
  cases hc : c.asReleasedKernel <;> simp [releasedKernels, List.filterMap_cons, hc]

theorem releasedKernels_append (t u : List Call) :
    releasedKernels (t ++ u) = releasedKernels t ++ releasedKernels u := by
  simp [releasedKernels]

theorem releasedKernels_boundAt (node : vx_node) (params : List vx_reference) (st : vx_status)
    (l : List Nat) : releasedKernels (l.map (boundAt node params st)) = [] := by
  induction l with
  | nil => rfl
  | cons a l ih => simp [releasedKernels_cons, boundAt, Call.asReleasedKernel, ih]

theorem releasedNodes_nil : releasedNodes [] = [] := rfl

theorem releasedNodes_cons (c : Call) (t : List Call) :
    releasedNodes (c :: t) = c.asReleasedNode.toList ++ releasedNodes t := by
  cases hc : c.asReleasedNode <;> simp [releasedNodes, List.filterMap_cons, hc]

theorem releasedNodes_append (t u : List Call) :
    releasedNodes (t ++ u) = releasedNodes t ++ releasedNodes u := by
  simp [releasedNodes]

theorem releasedNodes_boundAt (node : vx_node) (params : List vx_reference) (st : vx_status)
    (l : List Nat) : releasedNodes (l.map (boundAt node params st)) = [] := by
  induction l with
  | nil => rfl
  | cons a l ih => simp [releasedNodes_cons, boundAt, Call.asReleasedNode, ih]

theorem createdNodes_nil : createdNodes [] = [] := rfl

theorem createdNodes_cons (c : Call) (t : List Call) :
    createdNodes (c :: t) = c.asCreatedNode.toList ++ createdNodes t := by
  cases hc : c.asCreatedNode <;> simp [createdNodes, List.filterMap_cons, hc]

theorem createdNodes_append (t u : List Call) :
    createdNodes (t ++ u) = createdNodes t ++ createdNodes u := by
  simp [createdNodes]

theorem createdNodes_boundAt (node : vx_node) (params : List vx_reference) (st : vx_status)
    (l : List Nat) : createdNodes (l.map (boundAt node params st)) = [] := by
  induction l with
  | nil => rfl
  | cons a l ih => simp [createdNodes_cons, boundAt, Call.asCreatedNode, ih]

theorem bindingFailed_append (t u : List Call) :
    bindingFailed (t ++ u) = (bindingFailed t || bindingFailed u) := by
  simp [bindingFailed, bindings_append]

theorem bindingFailed_nil : bindingFailed [] = false := rfl

theorem bindingFailed_cons (c : Call) (t : List Call) :
    bindingFailed (c :: t) =
      (c.asBinding.toList.any (fun b => decide (b.2.2.2 ≠ VX_SUCCESS)) || bindingFailed t) := by
  simp [bindingFailed, bindings_cons]

theorem bindingFailed_bound (node : vx_node) (params : List vx_reference) (l : List Nat) :
    bindingFailed (l.map (boundAt node params VX_SUCCESS)) = false := by
  simp [bindingFailed, bindings_boundAt]

theorem releasedScalars_nil : releasedScalars [] = [] := rfl

theorem releasedScalars_cons (c : Call) (t : List Call) :
    releasedScalars (c :: t) = c.asReleasedScalar.toList ++ releasedScalars t := by
  cases hc : c.asReleasedScalar <;> simp [releasedScalars, List.filterMap_cons, hc]

theorem releasedScalars_append (t u : List Call) :
    releasedScalars (t ++ u) = releasedScalars t ++ releasedScalars u := by
  simp [releasedScalars]

theorem releasedScalars_boundAt (node : vx_node) (params : List vx_reference) (st : vx_status)
    (l : List Nat) : releasedScalars (l.map (boundAt node params st)) = [] := by
  induction l with
  | nil => rfl
  | cons a l ih => simp [releasedScalars_cons, boundAt, Call.asReleasedScalar, ih]

/-- The enum overload of `stitchCreateNode` releases no scalar. -/
theorem releasedScalars_stitchCreateNode (graph : vx_graph) (kernelEnum : vx_enum)
    (params : List vx_reference) (num : vx_uint32) (s : σ) :
    releasedScalars (stitchCreateNode h graph kernelEnum params num s).calls = [] := by
  rw [stitchCreateNode_calls]
  rcases bodyEnum_cases h graph kernelEnum params num s with
    ⟨_, _, hc⟩ | ⟨_, _, _, hc⟩ | ⟨_, _, _, hc⟩ | ⟨_, _, pre, q, rest, st, name, _, _, _, hc⟩ <;>
  simp [hc, releasedScalars_cons, releasedScalars_nil, releasedScalars_append,
    releasedScalars_boundAt, Call.asReleasedScalar, boundAt]

theorem createdScalars_releases (l : List vx_scalar) :
    createdScalars (l.map Call.vxReleaseScalar) = [] := by
  induction l with
  | nil => rfl
  | cons a l ih => simp [createdScalars_cons, Call.asCreatedScalar, ih]

theorem releasedScalars_releases (l : List vx_scalar) :
    releasedScalars (l.map Call.vxReleaseScalar) = l := by
  induction l with
  | nil => rfl
  | cons a l ih => simp [releasedScalars_cons, Call.asReleasedScalar, ih]

end ReleaseFacts

section EnvironmentFacts

theorem sizePred_eq (n : Nat) (h1 : 1 ≤ n) (h3 : n ≤ SIZE_MAX) : sizePred n = n - 1 := by
  unfold sizePred SIZE_MAX at *
  omega

/-- The buffer after `strncpy` and the store of the terminator. -/
theorem terminated_eq (value v : List Nat) (n : Nat) (h1 : 1 ≤ n) :
    (v.take n ++ List.replicate (n - v.length) 0 ++ value.drop n).set (n - 1) 0 =
      v.take (min v.length (n - 1)) ++ List.replicate (n - min v.length (n - 1)) 0 ++
        value.drop n := by
  by_cases hlen : n ≤ v.length
  · have hm : min v.length (n - 1) = n - 1 := by omega
    have hn : n = (n - 1) + 1 := by omega
    have hlt : n - 1 < v.length := by omega
    rw [hm]
    have e1 : n - v.length = 0 := by omega
    have e2 : n - (n - 1) = 1 := by omega
    rw [e1, e2]
    have e3 : v.take n = v.take (n - 1) ++ [v[n - 1]] := by
      conv_lhs => rw [hn]
      rw [List.take_succ, List.getElem?_eq_getElem hlt]
      rfl
    rw [e3]
    simp only [List.replicate_zero, List.append_nil, List.append_assoc, List.replicate_one,
      List.singleton_append]
    rw [List.set_append_right _ _ (by simp [List.length_take])]
    simp [List.length_take, Nat.min_eq_left (Nat.le_of_lt hlt)]
  · have hm : min v.length (n - 1) = v.length := by omega
    rw [hm, List.take_of_length_le (by omega), List.take_of_length_le (le_refl _)]
    obtain ⟨k, hk⟩ : ∃ k, n - v.length = k + 1 := ⟨n - v.length - 1, by omega⟩
    rw [List.append_assoc, List.set_append_right _ _ (by omega),
      List.set_append_left _ _ (by simp; omega)]
    congr 2
    apply List.ext_getElem
    · simp
    · intro i h1 h2
      simp [List.getElem_set]

/-- The string held by a buffer that starts with characters other than NUL
followed by a NUL. -/
theorem cstring_terminated (pre rest : List Nat) (k : Nat) (hpre : ∀ c ∈ pre, c ≠ 0) :
    cstring (pre ++ List.replicate (k + 1) 0 ++ rest) = pre := by
  unfold cstring
  rw [List.append_assoc, List.takeWhile_append_of_pos (by simpa using hpre)]
  simp [List.replicate_succ]

end EnvironmentFacts

/-! ## The claims -/

section Claims

variable {σ : Type} (h : Host σ)

/-- C1, as amended. `stitchCreateNode`, in either overload, returns its local
`node`, a node or null, and no status.  By the host's own answers: when the
lookup answers no kernel it returns null, with `VX_ERROR_NOT_SUPPORTED` in the
local `status`; when `vxCreateGenericNode` answers no node it returns null,
with `VX_ERROR_NO_MEMORY`; when no binding fails it returns the node created,
with `VX_SUCCESS`; when a binding fails it returns null, with the status of the
first binding that failed.  The four cases exclude each other, so null is
returned in each of the three failures and the node in no other case. -/
theorem stitchCreateNode_returns_node_or_null (graph : vx_graph) (kernelEnum : vx_enum)
    (kernelName : String) (params : List vx_reference) (num : vx_uint32) (s : σ) :
    ((stitchCreateNode h graph kernelEnum params num s).val =
        (stitchCreateNode.bodyEnum h graph kernelEnum params num s).val.node ∧
      (((lookupEnum h graph kernelEnum s).1 = 0 ∧
          (stitchCreateNode h graph kernelEnum params num s).val = 0 ∧
          (stitchCreateNode.bodyEnum h graph kernelEnum params num s).val =
            ⟨VX_ERROR_NOT_SUPPORTED, 0⟩) ∨
        ((lookupEnum h graph kernelEnum s).1 ≠ 0 ∧
          (created h graph (lookupEnum h graph kernelEnum s)).1 = 0 ∧
          (stitchCreateNode h graph kernelEnum params num s).val = 0 ∧
          (stitchCreateNode.bodyEnum h graph kernelEnum params num s).val =
            ⟨VX_ERROR_NO_MEMORY, 0⟩) ∨
        ((lookupEnum h graph kernelEnum s).1 ≠ 0 ∧
          (created h graph (lookupEnum h graph kernelEnum s)).1 ≠ 0 ∧
          firstBindingFailure h (created h graph (lookupEnum h graph kernelEnum s)).1 params
            num 0 (created h graph (lookupEnum h graph kernelEnum s)).2 = none ∧
          (stitchCreateNode h graph kernelEnum params num s).val =
            (created h graph (lookupEnum h graph kernelEnum s)).1 ∧
          (stitchCreateNode.bodyEnum h graph kernelEnum params num s).val =
            ⟨VX_SUCCESS, (created h graph (lookupEnum h graph kernelEnum s)).1⟩) ∨
        ((lookupEnum h graph kernelEnum s).1 ≠ 0 ∧
          (created h graph (lookupEnum h graph kernelEnum s)).1 ≠ 0 ∧
          ∃ p st,
            firstBindingFailure h (created h graph (lookupEnum h graph kernelEnum s)).1 params
              num 0 (created h graph (lookupEnum h graph kernelEnum s)).2 = some (p, st) ∧
            st ≠ VX_SUCCESS ∧
            ((created h graph (lookupEnum h graph kernelEnum s)).1, p, paramAt params p, st) ∈
              bindings (stitchCreateNode.bodyEnum h graph kernelEnum params num s).calls ∧
            (stitchCreateNode h graph kernelEnum params num s).val = 0 ∧
            (stitchCreateNode.bodyEnum h graph kernelEnum params num s).val = ⟨st, 0⟩))) ∧
    ((stitchCreateNodeByName h graph kernelName params num s).val =
        (stitchCreateNode.bodyName h graph kernelName params num s).val.node ∧
      (((lookupName h graph kernelName s).1 = 0 ∧
          (stitchCreateNodeByName h graph kernelName params num s).val = 0 ∧
          (stitchCreateNode.bodyName h graph kernelName params num s).val =
            ⟨VX_ERROR_NOT_SUPPORTED, 0⟩) ∨
        ((lookupName h graph kernelName s).1 ≠ 0 ∧
          (created h graph (lookupName h graph kernelName s)).1 = 0 ∧
          (stitchCreateNodeByName h graph kernelName params num s).val = 0 ∧
          (stitchCreateNode.bodyName h graph kernelName params num s).val =
            ⟨VX_ERROR_NO_MEMORY, 0⟩) ∨
        ((lookupName h graph kernelName s).1 ≠ 0 ∧
          (created h graph (lookupName h graph kernelName s)).1 ≠ 0 ∧
          firstBindingFailure h (created h graph (lookupName h graph kernelName s)).1 params
            num 0 (created h graph (lookupName h graph kernelName s)).2 = none ∧
          (stitchCreateNodeByName h graph kernelName params num s).val =
            (created h graph (lookupName h graph kernelName s)).1 ∧
          (stitchCreateNode.bodyName h graph kernelName params num s).val =
            ⟨VX_SUCCESS, (created h graph (lookupName h graph kernelName s)).1⟩) ∨
        ((lookupName h graph kernelName s).1 ≠ 0 ∧
          (created h graph (lookupName h graph kernelName s)).1 ≠ 0 ∧
          ∃ p st,
            firstBindingFailure h (created h graph (lookupName h graph kernelName s)).1 params
              num 0 (created h graph (lookupName h graph kernelName s)).2 = some (p, st) ∧
            st ≠ VX_SUCCESS ∧
            ((created h graph (lookupName h graph kernelName s)).1, p, paramAt params p, st) ∈
              bindings (stitchCreateNode.bodyName h graph kernelName params num s).calls ∧
            (stitchCreateNodeByName h graph kernelName params num s).val = 0 ∧
            (stitchCreateNode.bodyName h graph kernelName params num s).val = ⟨st, 0⟩))) := by
  have he : (stitchCreateNode h graph kernelEnum params num s).val =
      (stitchCreateNode.bodyEnum h graph kernelEnum params num s).val.node := rfl
  have hn : (stitchCreateNodeByName h graph kernelName params num s).val =
      (stitchCreateNode.bodyName h graph kernelName params num s).val.node := rfl
  refine ⟨⟨he, ?_⟩, ⟨hn, ?_⟩⟩
  · rcases bodyEnum_by_answers h graph kernelEnum params num s with
      ⟨hk, hv⟩ | ⟨hk, hc, hv⟩ | ⟨hk, hc, hf, hv⟩ | ⟨hk, hc, q, st, hf, hne, hm, hv⟩
    · exact Or.inl ⟨hk, by rw [he, hv], hv⟩
    · exact Or.inr (Or.inl ⟨hk, hc, by rw [he, hv], hv⟩)
    · exact Or.inr (Or.inr (Or.inl ⟨hk, hc, hf, by rw [he, hv], hv⟩))
    · exact Or.inr (Or.inr (Or.inr ⟨hk, hc, q, st, hf, hne, hm, by rw [he, hv], hv⟩))
  · rcases bodyName_by_answers h graph kernelName params num s with
      ⟨hk, hv⟩ | ⟨hk, hc, hv⟩ | ⟨hk, hc, hf, hv⟩ | ⟨hk, hc, q, st, hf, hne, hm, hv⟩
    · exact Or.inl ⟨hk, by rw [hn, hv], hv⟩
    · exact Or.inr (Or.inl ⟨hk, hc, by rw [hn, hv], hv⟩)
    · exact Or.inr (Or.inr (Or.inl ⟨hk, hc, hf, by rw [hn, hv], hv⟩))
    · exact Or.inr (Or.inr (Or.inr ⟨hk, hc, q, st, hf, hne, hm, by rw [hn, hv], hv⟩))

/-- C1, counterexample.  `stitchCreateNode(graph 2, enum 5, [11, 12], 2)` is run
against three hosts: one that knows no kernel (unknown stage), one that finds
the kernel and creates no node, and one that finds the kernel, creates node `9`
and answers `VX_ERROR_INVALID_PARAMETERS` to the binding of index `1`.  The
value returned is null in all three runs: it is no status, and it is the same
for the three causes, although the function had assigned
`VX_ERROR_NOT_SUPPORTED`, `VX_ERROR_NO_MEMORY` and
`VX_ERROR_INVALID_PARAMETERS` to its local `status`. -/
theorem stitchCreateNode_causes_not_told_apart :
    (lookupEnum (tableHost unknownTable) 2 5 ()).1 = 0 ∧
    (lookupEnum (tableHost noNodeTable) 2 5 ()).1 ≠ 0 ∧
    (created (tableHost noNodeTable) 2 (lookupEnum (tableHost noNodeTable) 2 5 ())).1 = 0 ∧
    (lookupEnum (tableHost badBindingTable) 2 5 ()).1 ≠ 0 ∧
    (created (tableHost badBindingTable) 2 (lookupEnum (tableHost badBindingTable) 2 5 ())).1
      = 9 ∧
    firstBindingFailure (tableHost badBindingTable) 9 [11, 12] 2 0 () =
      some (1, VX_ERROR_INVALID_PARAMETERS) ∧
    (stitchCreateNode (tableHost unknownTable) 2 5 [11, 12] 2 ()).val = 0 ∧
    (stitchCreateNode (tableHost noNodeTable) 2 5 [11, 12] 2 ()).val = 0 ∧
    (stitchCreateNode (tableHost badBindingTable) 2 5 [11, 12] 2 ()).val = 0 ∧
    (stitchCreateNode.bodyEnum (tableHost unknownTable) 2 5 [11, 12] 2 ()).val.status =
      VX_ERROR_NOT_SUPPORTED ∧
    (stitchCreateNode.bodyEnum (tableHost noNodeTable) 2 5 [11, 12] 2 ()).val.status =
      VX_ERROR_NO_MEMORY ∧
    (stitchCreateNode.bodyEnum (tableHost badBindingTable) 2 5 [11, 12] 2 ()).val.status =
      VX_ERROR_INVALID_PARAMETERS := by
  decide

/-- C2. `vxPublishKernels` surfaces a failed stage registration, whatever the 19
publish functions answer.  `publishOrder` is the 19 publish calls in source
order (`color_convert_publish` first, `seamfind_set_weights_publish` last, no
call twice); the first of them is called in the host state left by the four
format registrations and each later one in the state the one before left.
`vxPublishKernels` returns `VX_SUCCESS` if and only if all 19 answer
`VX_SUCCESS`.  In that case all 19 calls are made.  Otherwise there is a first
function `f` whose answer is not `VX_SUCCESS`, those before it having answered
`VX_SUCCESS`: the value returned is the answer of `f`, the calls made are those
before `f` and then `f`, none after it, and the host is left in the state in
which `f` left it. -/
theorem vxPublishKernels_surfaces_first_failure
    (pub : PublishFn → vx_context → σ → vx_status × σ) (context : vx_context) (s : σ) :
    publishOrder.length = 19 ∧ publishOrder.Nodup ∧
    publishOrder.head? = some PublishFn.color_convert_publish ∧
    publishOrder.getLast? = some PublishFn.seamfind_set_weights_publish ∧
    ((vxPublishKernels h pub context s).val = VX_SUCCESS ↔
      publishAnswers pub context publishOrder (afterFormats h context s) =
        List.replicate 19 VX_SUCCESS) ∧
    (((vxPublishKernels h pub context s).val = VX_SUCCESS ∧
        publishAnswers pub context publishOrder (afterFormats h context s) =
          List.replicate 19 VX_SUCCESS ∧
        (vxPublishKernels h pub context s).host =
          publishState pub context publishOrder (afterFormats h context s) ∧
        publishCalls (vxPublishKernels h pub context s).calls =
          publishOrder.map (fun f => (f, VX_SUCCESS))) ∨
      ∃ pre f rest, publishOrder = pre ++ f :: rest ∧
        publishAnswers pub context pre (afterFormats h context s) =
          List.replicate pre.length VX_SUCCESS ∧
        (pub f context (publishState pub context pre (afterFormats h context s))).1 ≠
          VX_SUCCESS ∧
        (vxPublishKernels h pub context s).val =
          (pub f context (publishState pub context pre (afterFormats h context s))).1 ∧
        (vxPublishKernels h pub context s).host =
          (pub f context (publishState pub context pre (afterFormats h context s))).2 ∧
        publishCalls (vxPublishKernels h pub context s).calls =
          pre.map (fun g => (g, VX_SUCCESS)) ++
            [(f, (pub f context (publishState pub context pre (afterFormats h context s))).1)]) ∧
    ((vxPublishKernels h pub context s).val = VX_SUCCESS ↔
      publishCalls (vxPublishKernels h pub context s).calls =
        publishOrder.map (fun f => (f, VX_SUCCESS))) ∧
    ((vxPublishKernels h pub context s).val = VX_SUCCESS ∨
      ∃ pre f rest, publishOrder = pre ++ f :: rest ∧
        (vxPublishKernels h pub context s).val ≠ VX_SUCCESS ∧
        publishCalls (vxPublishKernels h pub context s).calls =
          pre.map (fun g => (g, VX_SUCCESS)) ++ [(f, (vxPublishKernels h pub context s).val)]) := by
  refine ⟨rfl, by decide, rfl, rfl, ?_⟩
  obtain ⟨hv, hc, hh⟩ := vxPublishKernels_chain h pub context s
  rw [hv, hc, hh]
  generalize afterFormats h context s = s1
  have hlen : publishOrder.length = 19 := rfl
  rcases checkedChain_by_answers pub context publishOrder s1 with
    ⟨cv, ca, ch, cc⟩ | ⟨pre, f, rest, hfs, ca, hf, cv, ch, cc⟩
  · have hpc : publishCalls (checkedChain pub context publishOrder s1).calls =
        publishOrder.map (fun f => (f, VX_SUCCESS)) := by
      rw [cc, publishCalls_published]
    rw [hlen] at ca
    exact ⟨⟨fun _ => ca, fun _ => cv⟩, Or.inl ⟨cv, ca, ch, hpc⟩, ⟨fun _ => hpc, fun _ => cv⟩,
      Or.inl cv⟩
  · have hpc : publishCalls (checkedChain pub context publishOrder s1).calls =
        pre.map (fun g => (g, VX_SUCCESS)) ++
          [(f, (pub f context (publishState pub context pre s1)).1)] := by
      rw [cc, publishCalls_append, publishCalls_published]
      simp [publishCalls_cons, publishCalls_nil, Call.asPublish]
    have hne : (checkedChain pub context publishOrder s1).val ≠ VX_SUCCESS := by
      rw [cv]; exact hf
    refine ⟨⟨fun hs => absurd hs hne, fun hall => ?_⟩,
      Or.inr ⟨pre, f, rest, hfs, ca, hf, cv, ch, hpc⟩,
      ⟨fun hs => absurd hs hne, fun hall => ?_⟩,
      Or.inr ⟨pre, f, rest, hfs, hne, by rw [hpc, cv]⟩⟩
    · exfalso
      have hmem : (pub f context (publishState pub context pre s1)).1 ∈
          publishAnswers pub context publishOrder s1 := by
        rw [hfs, publishAnswers_append]
        simp [publishAnswers]
      rw [hall] at hmem
      exact hf (List.eq_of_mem_replicate hmem)
    · exfalso
      rw [hpc] at hall
      generalize (pub f context (publishState pub context pre s1)).1 = v at hall hf
      rw [hfs, List.map_append, List.map_cons] at hall
      have h2 := List.append_cancel_left hall
      simp only [List.cons.injEq, Prod.mk.injEq] at h2
      exact hf h2.1.2

/-- C3. `stitchCreateNode`, in either overload, returns a non-null node if and
only if the kernel lookup answers a kernel, `vxCreateGenericNode` answers a node,
and `vxSetParameterByIndex` answers `VX_SUCCESS` for every index `p < num` with
`params[p]` not null (`allBindingsSucceed`); equivalently, the
`vxSetParameterByIndex` calls on record are those of every such index, each
answered `VX_SUCCESS`.  The node returned is then the node created, and in every
other case the value returned is null (0). -/
theorem stitchCreateNode_nonnull_iff (graph : vx_graph) (kernelEnum : vx_enum)
    (kernelName : String) (params : List vx_reference) (num : vx_uint32) (s : σ) :
    (((stitchCreateNode h graph kernelEnum params num s).val ≠ 0 ↔
        (lookupEnum h graph kernelEnum s).1 ≠ 0 ∧
        (created h graph (lookupEnum h graph kernelEnum s)).1 ≠ 0 ∧
        allBindingsSucceed h (created h graph (lookupEnum h graph kernelEnum s)).1 params num 0
          (created h graph (lookupEnum h graph kernelEnum s)).2 = true) ∧
      ((stitchCreateNode h graph kernelEnum params num s).val ≠ 0 ↔
        (lookupEnum h graph kernelEnum s).1 ≠ 0 ∧
        (created h graph (lookupEnum h graph kernelEnum s)).1 ≠ 0 ∧
        bindings (stitchCreateNode h graph kernelEnum params num s).calls =
          (toBind params 0 num).map (fun p =>
            ((created h graph (lookupEnum h graph kernelEnum s)).1, p, paramAt params p,
              VX_SUCCESS))) ∧
      ((stitchCreateNode h graph kernelEnum params num s).val = 0 ∨
        (stitchCreateNode h graph kernelEnum params num s).val =
          (created h graph (lookupEnum h graph kernelEnum s)).1)) ∧
    (((stitchCreateNodeByName h graph kernelName params num s).val ≠ 0 ↔
        (lookupName h graph kernelName s).1 ≠ 0 ∧
        (created h graph (lookupName h graph kernelName s)).1 ≠ 0 ∧
        allBindingsSucceed h (created h graph (lookupName h graph kernelName s)).1 params num 0
          (created h graph (lookupName h graph kernelName s)).2 = true) ∧
      ((stitchCreateNodeByName h graph kernelName params num s).val ≠ 0 ↔
        (lookupName h graph kernelName s).1 ≠ 0 ∧
        (created h graph (lookupName h graph kernelName s)).1 ≠ 0 ∧
        bindings (stitchCreateNodeByName h graph kernelName params num s).calls =
          (toBind params 0 num).map (fun p =>
            ((created h graph (lookupName h graph kernelName s)).1, p, paramAt params p,
              VX_SUCCESS))) ∧
      ((stitchCreateNodeByName h graph kernelName params num s).val = 0 ∨
        (stitchCreateNodeByName h graph kernelName params num s).val =
          (created h graph (lookupName h graph kernelName s)).1)) := by
  constructor
  · refine ⟨bodyEnum_node_iff h graph kernelEnum params num s, ?_⟩
    rw [stitchCreateNode_val, stitchCreateNode_calls]
    rcases bodyEnum_cases h graph kernelEnum params num s with
      ⟨hk, hv, _⟩ | ⟨hk, hn, hv, _⟩ | ⟨hk, hn, hv, hc⟩ |
      ⟨hk, hn, pre, q, rest, st, name, hb, hne, hv, hc⟩
    · simp [hv, hk]
    · simp [hv, hn]
    · simp [hv, hc, hk, hn, bindings_append, bindings_boundAt, bindings_cons, bindings_nil,
        Call.asBinding]
    · refine ⟨?_, Or.inl (by rw [hv])⟩
      rw [hv, hc, hb]
      simp only [ne_eq, not_true_eq_false, false_iff, not_and]
      intro _ _
      have := failed_binding_ne (created h graph (lookupEnum h graph kernelEnum s)).1 params
        pre rest q st hne
      simpa [bindings_append, bindings_boundAt, bindings_cons, bindings_nil, Call.asBinding,
        boundAt] using this
  · refine ⟨bodyName_node_iff h graph kernelName params num s, ?_⟩
    rw [stitchCreateNodeByName_val, stitchCreateNodeByName_calls]
    rcases bodyName_cases h graph kernelName params num s with
      ⟨hk, hv, _⟩ | ⟨hk, hn, hv, _⟩ | ⟨hk, hn, hv, hc⟩ |
      ⟨hk, hn, pre, q, rest, st, hb, hne, hv, hc⟩
    · simp [hv, hk]
    · simp [hv, hn]
    · simp [hv, hc, hk, hn, bindings_append, bindings_boundAt, bindings_cons, bindings_nil,
        Call.asBinding]
    · refine ⟨?_, Or.inl (by rw [hv])⟩
      rw [hv, hc, hb]
      simp only [ne_eq, not_true_eq_false, false_iff, not_and]
      intro _ _
      have := failed_binding_ne (created h graph (lookupName h graph kernelName s)).1 params
        pre rest q st hne
      simpa [bindings_append, bindings_boundAt, bindings_cons, bindings_nil, Call.asBinding,
        boundAt] using this

/-- C4. Binding in `stitchCreateNode` preserves position, in either overload.
The indices to bind, `toBind params 0 num`, are the `p < num` with `params[p]`
not null, in strictly increasing order.  When a node is returned, the
`vxSetParameterByIndex` calls made are exactly one call per index to bind, in
that order, each binding `params[p]` at index `p` of the node returned.  When a
binding fails at index `p`, the calls made are those of the indices to bind
before `p`, then the failed one, and no more.  Otherwise no binding is made. -/
theorem stitchCreateNode_binds_in_position (graph : vx_graph) (kernelEnum : vx_enum)
    (kernelName : String) (params : List vx_reference) (num : vx_uint32) (s : σ) :
    (toBind params 0 num).Pairwise (fun a b => a < b) ∧
    (∀ p, p ∈ toBind params 0 num ↔ p < num ∧ paramAt params p ≠ 0) ∧
    (((stitchCreateNode h graph kernelEnum params num s).val ≠ 0 ∧
        bindings (stitchCreateNode h graph kernelEnum params num s).calls =
          (toBind params 0 num).map (fun p =>
            ((stitchCreateNode h graph kernelEnum params num s).val, p, paramAt params p,
              VX_SUCCESS))) ∨
      ((stitchCreateNode h graph kernelEnum params num s).val = 0 ∧
        ∃ pre p rest st, toBind params 0 num = pre ++ p :: rest ∧ st ≠ VX_SUCCESS ∧
          bindings (stitchCreateNode h graph kernelEnum params num s).calls =
            pre.map (fun q => ((created h graph (lookupEnum h graph kernelEnum s)).1, q,
              paramAt params q, VX_SUCCESS)) ++
            [((created h graph (lookupEnum h graph kernelEnum s)).1, p, paramAt params p, st)]) ∨
      ((stitchCreateNode h graph kernelEnum params num s).val = 0 ∧
        bindings (stitchCreateNode h graph kernelEnum params num s).calls = [])) ∧
    (((stitchCreateNodeByName h graph kernelName params num s).val ≠ 0 ∧
        bindings (stitchCreateNodeByName h graph kernelName params num s).calls =
          (toBind params 0 num).map (fun p =>
            ((stitchCreateNodeByName h graph kernelName params num s).val, p, paramAt params p,
              VX_SUCCESS))) ∨
      ((stitchCreateNodeByName h graph kernelName params num s).val = 0 ∧
        ∃ pre p rest st, toBind params 0 num = pre ++ p :: rest ∧ st ≠ VX_SUCCESS ∧
          bindings (stitchCreateNodeByName h graph kernelName params num s).calls =
            pre.map (fun q => ((created h graph (lookupName h graph kernelName s)).1, q,
              paramAt params q, VX_SUCCESS)) ++
            [((created h graph (lookupName h graph kernelName s)).1, p, paramAt params p, st)]) ∨
      ((stitchCreateNodeByName h graph kernelName params num s).val = 0 ∧
        bindings (stitchCreateNodeByName h graph kernelName params num s).calls = [])) := by
  refine ⟨toBind_increasing params 0 num, mem_toBind params num, ?_, ?_⟩
  · rw [stitchCreateNode_val, stitchCreateNode_calls]
    rcases bodyEnum_cases h graph kernelEnum params num s with
      ⟨hk, hv, hc⟩ | ⟨hk, hn, hv, hc⟩ | ⟨hk, hn, hv, hc⟩ |
      ⟨hk, hn, pre, q, rest, st, name, hb, hne, hv, hc⟩
    · right; right
      simp [hv, hc, bindings_cons, bindings_nil, Call.asBinding]
    · right; right
      simp [hv, hc, bindings_cons, bindings_nil, Call.asBinding]
    · left
      simp [hv, hc, hn, bindings_append, bindings_boundAt, bindings_cons, bindings_nil,
        Call.asBinding]
    · right; left
      refine ⟨by rw [hv], pre, q, rest, st, hb, hne, ?_⟩
      simp [hc, bindings_append, bindings_boundAt, bindings_cons, bindings_nil,
        Call.asBinding, boundAt]
  · rw [stitchCreateNodeByName_val, stitchCreateNodeByName_calls]
    rcases bodyName_cases h graph kernelName params num s with
      ⟨hk, hv, hc⟩ | ⟨hk, hn, hv, hc⟩ | ⟨hk, hn, hv, hc⟩ |
      ⟨hk, hn, pre, q, rest, st, hb, hne, hv, hc⟩
    · right; right
      simp [hv, hc, bindings_cons, bindings_nil, Call.asBinding]
    · right; right
      simp [hv, hc, bindings_cons, bindings_nil, Call.asBinding]
    · left
      simp [hv, hc, hn, bindings_append, bindings_boundAt, bindings_cons, bindings_nil,
        Call.asBinding]
    · right; left
      refine ⟨by rw [hv], pre, q, rest, st, hb, hne, ?_⟩
      simp [hc, bindings_append, bindings_boundAt, bindings_cons, bindings_nil,
        Call.asBinding, boundAt]

/-- C9, as amended. Whatever the host and the publish functions do,
`vxPublishKernels` registers four image formats, in this order: Y210, Y212 and
Y216 with the descriptor `{3 components, 1 plane, 32 bits per pixel}` and RGB4
with `{3 components, 1 plane, 48 bits per pixel}`; every descriptor registered
has 3 components. -/
theorem vxPublishKernels_registers_formats
    (pub : PublishFn → vx_context → σ → vx_status × σ) (context : vx_context) (s : σ) :
    registeredFormats (vxPublishKernels h pub context s).calls =
        [(vx_df_image.VX_DF_IMAGE_Y210_AMD,
            ⟨3, 1, 32, vx_color_space_e.VX_COLOR_SPACE_DEFAULT,
              vx_channel_range_e.VX_CHANNEL_RANGE_FULL⟩),
          (vx_df_image.VX_DF_IMAGE_Y212_AMD,
            ⟨3, 1, 32, vx_color_space_e.VX_COLOR_SPACE_DEFAULT,
              vx_channel_range_e.VX_CHANNEL_RANGE_FULL⟩),
          (vx_df_image.VX_DF_IMAGE_Y216_AMD,
            ⟨3, 1, 32, vx_color_space_e.VX_COLOR_SPACE_DEFAULT,
              vx_channel_range_e.VX_CHANNEL_RANGE_FULL⟩),
          (vx_df_image.VX_DF_IMAGE_RGB4_AMD,
            ⟨3, 1, 48, vx_color_space_e.VX_COLOR_SPACE_DEFAULT,
              vx_channel_range_e.VX_CHANNEL_RANGE_FULL⟩)] ∧
      (registeredFormats (vxPublishKernels h pub context s).calls).map
        (fun d => d.2.components) = [3, 3, 3, 3] := by
  obtain ⟨s1, _, hc⟩ := vxPublishKernels_run h pub context s
  have hchain : registeredFormats (checkedChain pub context publishOrder s1).calls = [] := by
    rcases checkedChain_spec pub context publishOrder s1 with
      ⟨_, cc⟩ | ⟨pre, f, rest, _, _, cc⟩
    · rw [cc, registeredFormats_published]
    · rw [cc, registeredFormats_append, registeredFormats_published]
      simp [registeredFormats_cons, registeredFormats_nil, Call.asFormat]
  rw [hc, registeredFormats_append, hchain]
  simp [registeredFormats_cons, registeredFormats_nil, Call.asFormat]

/-- C9, counterexample.  In a run of `vxPublishKernels` in which every publish
call succeeds, no registered format descriptor has 4 components. -/
theorem vxPublishKernels_no_four_component_format :
    ¬ ∃ d ∈ registeredFormats
        (vxPublishKernels registryHost (registering sampleEnum PublishFn.stage) 1 []).calls,
      d.2.components = 4 := by
  decide

/-- C10, as amended. When the lookup by enum and the lookup by name answer alike
(the same kernel or both null, leaving the host in the same state), the two
overloads of `stitchCreateNode` return the same value and make the same sequence
of `vxCreateGenericNode`, `vxSetParameterByIndex`, `vxReleaseNode` and
`vxReleaseKernel` calls.  Their records differ, besides the entry and the lookup,
only in the text of log entries and in the `vxQueryKernel` calls: the name
overload makes none, the enum overload makes at most one. -/
theorem stitchCreateNode_overloads_alike (graph : vx_graph) (kernelEnum : vx_enum)
    (kernelName : String) (params : List vx_reference) (num : vx_uint32) (s : σ)
    (hlookup : lookupEnum h graph kernelEnum s = lookupName h graph kernelName s) :
    (stitchCreateNode h graph kernelEnum params num s).val =
        (stitchCreateNodeByName h graph kernelName params num s).val ∧
      constructionCalls (stitchCreateNode h graph kernelEnum params num s).calls =
        constructionCalls (stitchCreateNodeByName h graph kernelName params num s).calls ∧
      upToLookupAndText
          (withoutQueries
            (stitchCreateNode h graph kernelEnum params num s).calls) =
        upToLookupAndText (stitchCreateNodeByName h graph kernelName params num s).calls ∧
      queries (stitchCreateNodeByName h graph kernelName params num s).calls = [] ∧
      (queries
          (stitchCreateNode h graph kernelEnum params num s).calls).length ≤ 1 := by
  rw [stitchCreateNode_val, stitchCreateNode_calls, stitchCreateNodeByName_val,
    stitchCreateNodeByName_calls]
  by_cases hk : (lookupEnum h graph kernelEnum s).1 = 0
  · have hk2 : (lookupName h graph kernelName s).1 = 0 := hlookup ▸ hk
    obtain ⟨ev, ec⟩ := bodyEnum_unknown h graph kernelEnum params num s hk
    obtain ⟨nv, nc⟩ := bodyName_unknown h graph kernelName params num s hk2
    rw [ev, ec, nv, nc]
    simp [constructionCalls_cons, constructionCalls_nil, withoutQueries_cons,
      withoutQueries_nil, queries_cons, queries_nil, upToLookupAndText_cons,
      upToLookupAndText_nil, Call.isConstruction, Call.isQuery, Call.upToLookupAndText]
  · have hk2 : (lookupName h graph kernelName s).1 ≠ 0 := hlookup ▸ hk
    by_cases hn : (created h graph (lookupEnum h graph kernelEnum s)).1 = 0
    · have hn2 : (created h graph (lookupName h graph kernelName s)).1 = 0 := hlookup ▸ hn
      obtain ⟨ev, ec⟩ := bodyEnum_nocreate h graph kernelEnum params num s hk hn
      obtain ⟨nv, nc⟩ := bodyName_nocreate h graph kernelName params num s hk2 hn2
      rw [ev, ec, nv, nc, hlookup]
      simp [constructionCalls_cons, constructionCalls_nil, withoutQueries_cons,
        withoutQueries_nil, queries_cons, queries_nil, upToLookupAndText_cons,
        upToLookupAndText_nil, Call.isConstruction, Call.isQuery, Call.upToLookupAndText]
    · have hn2 : (created h graph (lookupName h graph kernelName s)).1 ≠ 0 := hlookup ▸ hn
      obtain ⟨ev, ec⟩ := bodyEnum_loop h graph kernelEnum params num s hk hn
      obtain ⟨nv, nc⟩ := bodyName_loop h graph kernelName params num s hk2 hn2
      obtain ⟨l1, l2, l3, l4, l5⟩ := loops_alike h graph (lookupName h graph kernelName s).1
        kernelName params num 0 (created h graph (lookupName h graph kernelName s)).1
        (created h graph (lookupName h graph kernelName s)).2
      rw [ev, ec, nv, nc, hlookup]
      refine ⟨by rw [l1], ?_, ?_, ?_, ?_⟩
      · simp [constructionCalls_cons, constructionCalls_nil, constructionCalls_append,
          Call.isConstruction, l2]
      · simp [withoutQueries_cons, withoutQueries_nil, withoutQueries_append,
          upToLookupAndText_cons, upToLookupAndText_nil, upToLookupAndText_append,
          Call.isQuery, Call.upToLookupAndText, l3]
      · simp [queries_cons, queries_nil, queries_append, Call.isQuery, l4]
      · simpa [queries_cons, queries_nil, queries_append, Call.isQuery] using l5

/-- C10, witness: the overloads on the host of `badBindingTable`, whose lookups
by enum `5` and by name `"x"` both answer kernel `7`. -/
theorem stitchCreateNode_overloads_alike_witness :
    lookupEnum (tableHost badBindingTable) 2 5 () = lookupName (tableHost badBindingTable) 2 "x"
        () ∧
    ((stitchCreateNode (tableHost badBindingTable) 2 5 [11, 12, 13] 3 ()).val =
        (stitchCreateNodeByName (tableHost badBindingTable) 2 "x" [11, 12, 13] 3 ()).val ∧
      constructionCalls (stitchCreateNode (tableHost badBindingTable) 2 5 [11, 12, 13] 3 ()).calls =
        constructionCalls
          (stitchCreateNodeByName (tableHost badBindingTable) 2 "x" [11, 12, 13] 3 ()).calls ∧
      upToLookupAndText
          (withoutQueries
            (stitchCreateNode (tableHost badBindingTable) 2 5 [11, 12, 13] 3 ()).calls) =
        upToLookupAndText
          (stitchCreateNodeByName (tableHost badBindingTable) 2 "x" [11, 12, 13] 3 ()).calls ∧
      queries (stitchCreateNodeByName (tableHost badBindingTable) 2 "x" [11, 12, 13] 3 ()).calls =
          [] ∧
      (queries
          (stitchCreateNode (tableHost badBindingTable) 2 5 [11, 12, 13] 3 ()).calls).length ≤ 1) :=
  ⟨rfl, stitchCreateNode_overloads_alike (tableHost badBindingTable) 2 5 "x" [11, 12, 13] 3 () rfl⟩

/-- C10, counterexample.  On the host of `badBindingTable` the lookups by enum `5`
and by name `"x"` answer alike, the binding at index `1` fails, and the records
of the two overloads differ in more than the lookup and the text of the log
entry: the enum overload calls `vxQueryKernel` before it writes the log entry,
the name overload does not. -/
theorem stitchCreateNode_overloads_differ_in_query :
    lookupEnum (tableHost badBindingTable) 2 5 () = lookupName (tableHost badBindingTable) 2 "x"
        () ∧
    upToLookupAndText (stitchCreateNode (tableHost badBindingTable) 2 5 [11, 12, 13] 3 ()).calls ≠
      upToLookupAndText
        (stitchCreateNodeByName (tableHost badBindingTable) 2 "x" [11, 12, 13] 3 ()).calls ∧
    (stitchCreateNode (tableHost badBindingTable) 2 5 [11, 12, 13] 3 ()).calls =
      [Call.stitchCreateNodeEnum 2 5 [11, 12, 13] 3, Call.vxGetContext 2 1,
        Call.vxGetKernelByEnum 1 5 7, Call.vxCreateGenericNode 2 7 9,
        Call.vxSetParameterByIndex 9 0 11 VX_SUCCESS,
        Call.vxSetParameterByIndex 9 1 12 VX_ERROR_INVALID_PARAMETERS,
        Call.vxQueryKernel 7 "k",
        Call.vxAddLogEntry 2 VX_ERROR_INVALID_PARAMETERS
          (LogText.setParameterFailed "k" 1 12 VX_ERROR_INVALID_PARAMETERS),
        Call.vxReleaseNode 9, Call.vxReleaseKernel 7] ∧
    (stitchCreateNodeByName (tableHost badBindingTable) 2 "x" [11, 12, 13] 3 ()).calls =
      [Call.stitchCreateNodeName 2 "x" [11, 12, 13] 3, Call.vxGetContext 2 1,
        Call.vxGetKernelByName 1 "x" 7, Call.vxCreateGenericNode 2 7 9,
        Call.vxSetParameterByIndex 9 0 11 VX_SUCCESS,
        Call.vxSetParameterByIndex 9 1 12 VX_ERROR_INVALID_PARAMETERS,
        Call.vxAddLogEntry 2 VX_ERROR_INVALID_PARAMETERS
          (LogText.setParameterFailed "x" 1 12 VX_ERROR_INVALID_PARAMETERS),
        Call.vxReleaseNode 9, Call.vxReleaseKernel 7] := by
  decide

/-- C11, evaluated. What `stitchCreateNode` logs, in either overload, against
what it assigns to `status`.  Unknown kernel: `status` is
`VX_ERROR_NOT_SUPPORTED`, the one log entry carries `VX_ERROR_INVALID_PARAMETERS`.
Node not created: `status` is `VX_ERROR_NO_MEMORY`, the one log entry carries
`VX_ERROR_INVALID_PARAMETERS`.  Failed binding: `status` is the status answered
and the one log entry carries it.  No failure: no log entry.  The three codes
are different, so in the first two cases the status logged is not the status
assigned; so it is against the host of `unknownTable` and of `noNodeTable`. -/
theorem stitchCreateNode_logs_other_status (graph : vx_graph) (kernelEnum : vx_enum)
    (kernelName : String) (params : List vx_reference) (num : vx_uint32) (s : σ) :
    (VX_ERROR_INVALID_PARAMETERS ≠ VX_ERROR_NOT_SUPPORTED ∧
      VX_ERROR_INVALID_PARAMETERS ≠ VX_ERROR_NO_MEMORY) ∧
    (((lookupEnum h graph kernelEnum s).1 = 0 ∧
        (stitchCreateNode.bodyEnum h graph kernelEnum params num s).val.status =
          VX_ERROR_NOT_SUPPORTED ∧
        logged (stitchCreateNode h graph kernelEnum params num s).calls =
          [(graph, VX_ERROR_INVALID_PARAMETERS)]) ∨
      ((lookupEnum h graph kernelEnum s).1 ≠ 0 ∧
        (created h graph (lookupEnum h graph kernelEnum s)).1 = 0 ∧
        (stitchCreateNode.bodyEnum h graph kernelEnum params num s).val.status =
          VX_ERROR_NO_MEMORY ∧
        logged (stitchCreateNode h graph kernelEnum params num s).calls =
          [(graph, VX_ERROR_INVALID_PARAMETERS)]) ∨
      ((stitchCreateNode h graph kernelEnum params num s).val ≠ 0 ∧
        (stitchCreateNode.bodyEnum h graph kernelEnum params num s).val.status = VX_SUCCESS ∧
        bindingFailed (stitchCreateNode h graph kernelEnum params num s).calls = false ∧
        logged (stitchCreateNode h graph kernelEnum params num s).calls = []) ∨
      (bindingFailed (stitchCreateNode h graph kernelEnum params num s).calls = true ∧
        ∃ p st, st ≠ VX_SUCCESS ∧
          ((created h graph (lookupEnum h graph kernelEnum s)).1, p, paramAt params p, st) ∈
            bindings (stitchCreateNode h graph kernelEnum params num s).calls ∧
          (stitchCreateNode.bodyEnum h graph kernelEnum params num s).val.status = st ∧
          logged (stitchCreateNode h graph kernelEnum params num s).calls = [(graph, st)])) ∧
    (((lookupName h graph kernelName s).1 = 0 ∧
        (stitchCreateNode.bodyName h graph kernelName params num s).val.status =
          VX_ERROR_NOT_SUPPORTED ∧
        logged (stitchCreateNodeByName h graph kernelName params num s).calls =
          [(graph, VX_ERROR_INVALID_PARAMETERS)]) ∨
      ((lookupName h graph kernelName s).1 ≠ 0 ∧
        (created h graph (lookupName h graph kernelName s)).1 = 0 ∧
        (stitchCreateNode.bodyName h graph kernelName params num s).val.status =
          VX_ERROR_NO_MEMORY ∧
        logged (stitchCreateNodeByName h graph kernelName params num s).calls =
          [(graph, VX_ERROR_INVALID_PARAMETERS)]) ∨
      ((stitchCreateNodeByName h graph kernelName params num s).val ≠ 0 ∧
        (stitchCreateNode.bodyName h graph kernelName params num s).val.status = VX_SUCCESS ∧
        bindingFailed (stitchCreateNodeByName h graph kernelName params num s).calls = false ∧
        logged (stitchCreateNodeByName h graph kernelName params num s).calls = []) ∨
      (bindingFailed (stitchCreateNodeByName h graph kernelName params num s).calls = true ∧
        ∃ p st, st ≠ VX_SUCCESS ∧
          ((created h graph (lookupName h graph kernelName s)).1, p, paramAt params p, st) ∈
            bindings (stitchCreateNodeByName h graph kernelName params num s).calls ∧
          (stitchCreateNode.bodyName h graph kernelName params num s).val.status = st ∧
          logged (stitchCreateNodeByName h graph kernelName params num s).calls =
            [(graph, st)])) ∧
    ((stitchCreateNode.bodyEnum (tableHost unknownTable) 2 5 [11] 1 ()).val.status =
        VX_ERROR_NOT_SUPPORTED ∧
      logged (stitchCreateNode (tableHost unknownTable) 2 5 [11] 1 ()).calls =
        [(2, VX_ERROR_INVALID_PARAMETERS)] ∧
      (stitchCreateNode.bodyEnum (tableHost noNodeTable) 2 5 [11] 1 ()).val.status =
        VX_ERROR_NO_MEMORY ∧
      logged (stitchCreateNode (tableHost noNodeTable) 2 5 [11] 1 ()).calls =
        [(2, VX_ERROR_INVALID_PARAMETERS)]) := by
  refine ⟨by decide, ?_, ?_, by decide⟩
  · rw [stitchCreateNode_val, stitchCreateNode_calls]
    rcases bodyEnum_cases h graph kernelEnum params num s with
      ⟨hk, hv, hc⟩ | ⟨hk, hn, hv, hc⟩ | ⟨hk, hn, hv, hc⟩ |
      ⟨hk, hn, pre, q, rest, st, name, hb, hne, hv, hc⟩
    · exact Or.inl ⟨hk, by rw [hv], by
        simp [hc, logged_cons, logged_nil, Call.asLogged]⟩
    · exact Or.inr (Or.inl ⟨hk, hn, by rw [hv], by
        simp [hc, logged_cons, logged_nil, Call.asLogged]⟩)
    · refine Or.inr (Or.inr (Or.inl ⟨by rw [hv]; exact hn, by rw [hv], ?_, ?_⟩))
      · simp [hc, bindingFailed_append, bindingFailed_bound, bindingFailed_cons,
          bindingFailed_nil, Call.asBinding]
      · simp [hc, logged_cons, logged_nil, logged_append, logged_boundAt, Call.asLogged]
    · refine Or.inr (Or.inr (Or.inr ⟨?_, q, st, hne, ?_, by rw [hv], ?_⟩))
      · simp [hc, bindingFailed_append, bindingFailed_bound, bindingFailed_cons,
          bindingFailed_nil, Call.asBinding, boundAt, hne]
      · simp [hc, bindings_append, bindings_boundAt, bindings_cons, bindings_nil,
          Call.asBinding, boundAt]
      · simp [hc, logged_cons, logged_nil, logged_append, logged_boundAt, Call.asLogged,
          boundAt]
  · rw [stitchCreateNodeByName_val, stitchCreateNodeByName_calls]
    rcases bodyName_cases h graph kernelName params num s with
      ⟨hk, hv, hc⟩ | ⟨hk, hn, hv, hc⟩ | ⟨hk, hn, hv, hc⟩ |
      ⟨hk, hn, pre, q, rest, st, hb, hne, hv, hc⟩
    · exact Or.inl ⟨hk, by rw [hv], by
        simp [hc, logged_cons, logged_nil, Call.asLogged]⟩
    · exact Or.inr (Or.inl ⟨hk, hn, by rw [hv], by
        simp [hc, logged_cons, logged_nil, Call.asLogged]⟩)
    · refine Or.inr (Or.inr (Or.inl ⟨by rw [hv]; exact hn, by rw [hv], ?_, ?_⟩))
      · simp [hc, bindingFailed_append, bindingFailed_bound, bindingFailed_cons,
          bindingFailed_nil, Call.asBinding]
      · simp [hc, logged_cons, logged_nil, logged_append, logged_boundAt, Call.asLogged]
    · refine Or.inr (Or.inr (Or.inr ⟨?_, q, st, hne, ?_, by rw [hv], ?_⟩))
      · simp [hc, bindingFailed_append, bindingFailed_bound, bindingFailed_cons,
          bindingFailed_nil, Call.asBinding, boundAt, hne]
      · simp [hc, bindings_append, bindings_boundAt, bindings_cons, bindings_nil,
          Call.asBinding, boundAt]
      · simp [hc, logged_cons, logged_nil, logged_append, logged_boundAt, Call.asLogged,
          boundAt]

/-- C12. `stitchCreateNode`, in either overload, keeps the host references
balanced.  The kernel is released exactly once when the lookup answered a
kernel, and no kernel is released when it did not.  The node created is
released exactly once when a `vxSetParameterByIndex` call failed, and no node is
released otherwise.  When null is returned, the nodes released are the nodes
created (none, or the one node); when a node is returned, it is the one node
created and no node has been released. -/
theorem stitchCreateNode_references_balanced (graph : vx_graph) (kernelEnum : vx_enum)
    (kernelName : String) (params : List vx_reference) (num : vx_uint32) (s : σ) :
    (releasedKernels (stitchCreateNode h graph kernelEnum params num s).calls =
        (if (lookupEnum h graph kernelEnum s).1 = 0 then []
          else [(lookupEnum h graph kernelEnum s).1]) ∧
      ((bindingFailed (stitchCreateNode h graph kernelEnum params num s).calls = true ∧
          releasedNodes (stitchCreateNode h graph kernelEnum params num s).calls =
            [(created h graph (lookupEnum h graph kernelEnum s)).1]) ∨
        (bindingFailed (stitchCreateNode h graph kernelEnum params num s).calls = false ∧
          releasedNodes (stitchCreateNode h graph kernelEnum params num s).calls = [])) ∧
      (((stitchCreateNode h graph kernelEnum params num s).val = 0 ∧
          releasedNodes (stitchCreateNode h graph kernelEnum params num s).calls =
            createdNodes (stitchCreateNode h graph kernelEnum params num s).calls) ∨
        ((stitchCreateNode h graph kernelEnum params num s).val ≠ 0 ∧
          createdNodes (stitchCreateNode h graph kernelEnum params num s).calls =
            [(stitchCreateNode h graph kernelEnum params num s).val] ∧
          releasedNodes (stitchCreateNode h graph kernelEnum params num s).calls = []))) ∧
    (releasedKernels (stitchCreateNodeByName h graph kernelName params num s).calls =
        (if (lookupName h graph kernelName s).1 = 0 then []
          else [(lookupName h graph kernelName s).1]) ∧
      ((bindingFailed (stitchCreateNodeByName h graph kernelName params num s).calls = true ∧
          releasedNodes (stitchCreateNodeByName h graph kernelName params num s).calls =
            [(created h graph (lookupName h graph kernelName s)).1]) ∨
        (bindingFailed (stitchCreateNodeByName h graph kernelName params num s).calls = false ∧
          releasedNodes (stitchCreateNodeByName h graph kernelName params num s).calls = [])) ∧
      (((stitchCreateNodeByName h graph kernelName params num s).val = 0 ∧
          releasedNodes (stitchCreateNodeByName h graph kernelName params num s).calls =
            createdNodes (stitchCreateNodeByName h graph kernelName params num s).calls) ∨
        ((stitchCreateNodeByName h graph kernelName params num s).val ≠ 0 ∧
          createdNodes (stitchCreateNodeByName h graph kernelName params num s).calls =
            [(stitchCreateNodeByName h graph kernelName params num s).val] ∧
          releasedNodes (stitchCreateNodeByName h graph kernelName params num s).calls =
            []))) := by
  constructor
  · rw [stitchCreateNode_val, stitchCreateNode_calls]
    rcases bodyEnum_cases h graph kernelEnum params num s with
      ⟨hk, hv, hc⟩ | ⟨hk, hn, hv, hc⟩ | ⟨hk, hn, hv, hc⟩ |
      ⟨hk, hn, pre, q, rest, st, name, hb, hne, hv, hc⟩
    · simp [hk, hv, hc, releasedKernels_cons, releasedKernels_nil, releasedNodes_cons,
        releasedNodes_nil, createdNodes_cons, createdNodes_nil, bindingFailed_cons,
        bindingFailed_nil, Call.asReleasedKernel, Call.asReleasedNode, Call.asCreatedNode,
        Call.asBinding]
    · simp [hk, hn, hv, hc, releasedKernels_cons, releasedKernels_nil, releasedNodes_cons,
        releasedNodes_nil, createdNodes_cons, createdNodes_nil, bindingFailed_cons,
        bindingFailed_nil, Call.asReleasedKernel, Call.asReleasedNode, Call.asCreatedNode,
        Call.asBinding]
    · simp [hk, hn, hv, hc, releasedKernels_cons, releasedKernels_nil, releasedKernels_append,
        releasedKernels_boundAt, releasedNodes_cons, releasedNodes_nil, releasedNodes_append,
        releasedNodes_boundAt, createdNodes_cons, createdNodes_nil, createdNodes_append,
        createdNodes_boundAt, bindingFailed_cons, bindingFailed_nil, bindingFailed_append,
        bindingFailed_bound, Call.asReleasedKernel, Call.asReleasedNode, Call.asCreatedNode,
        Call.asBinding]
    · simp [hk, hn, hne, hv, hc, releasedKernels_cons, releasedKernels_nil,
        releasedKernels_append, releasedKernels_boundAt, releasedNodes_cons, releasedNodes_nil,
        releasedNodes_append, releasedNodes_boundAt, createdNodes_cons, createdNodes_nil,
        createdNodes_append, createdNodes_boundAt, bindingFailed_cons, bindingFailed_nil,
        bindingFailed_append, bindingFailed_bound, Call.asReleasedKernel, Call.asReleasedNode,
        Call.asCreatedNode, Call.asBinding, boundAt]
  · rw [stitchCreateNodeByName_val, stitchCreateNodeByName_calls]
    rcases bodyName_cases h graph kernelName params num s with
      ⟨hk, hv, hc⟩ | ⟨hk, hn, hv, hc⟩ | ⟨hk, hn, hv, hc⟩ |
      ⟨hk, hn, pre, q, rest, st, hb, hne, hv, hc⟩
    · simp [hk, hv, hc, releasedKernels_cons, releasedKernels_nil, releasedNodes_cons,
        releasedNodes_nil, createdNodes_cons, createdNodes_nil, bindingFailed_cons,
        bindingFailed_nil, Call.asReleasedKernel, Call.asReleasedNode, Call.asCreatedNode,
        Call.asBinding]
    · simp [hk, hn, hv, hc, releasedKernels_cons, releasedKernels_nil, releasedNodes_cons,
        releasedNodes_nil, createdNodes_cons, createdNodes_nil, bindingFailed_cons,
        bindingFailed_nil, Call.asReleasedKernel, Call.asReleasedNode, Call.asCreatedNode,
        Call.asBinding]
    · simp [hk, hn, hv, hc, releasedKernels_cons, releasedKernels_nil, releasedKernels_append,
        releasedKernels_boundAt, releasedNodes_cons, releasedNodes_nil, releasedNodes_append,
        releasedNodes_boundAt, createdNodes_cons, createdNodes_nil, createdNodes_append,
        createdNodes_boundAt, bindingFailed_cons, bindingFailed_nil, bindingFailed_append,
        bindingFailed_bound, Call.asReleasedKernel, Call.asReleasedNode, Call.asCreatedNode,
        Call.asBinding]
    · simp [hk, hn, hne, hv, hc, releasedKernels_cons, releasedKernels_nil,
        releasedKernels_append, releasedKernels_boundAt, releasedNodes_cons, releasedNodes_nil,
        releasedNodes_append, releasedNodes_boundAt, createdNodes_cons, createdNodes_nil,
        createdNodes_append, createdNodes_boundAt, bindingFailed_cons, bindingFailed_nil,
        bindingFailed_append, bindingFailed_bound, Call.asReleasedKernel, Call.asReleasedNode,
        Call.asCreatedNode, Call.asBinding, boundAt]

set_option maxHeartbeats 1600000 in
/-- C13, evaluated. Twelve of the thirteen constructors that wrap plain values in
scalars give their scalars back: after the run of `stitchCreateNode`, whatever it
returned, they release each scalar they created once, in order of creation,
they release nothing else, and they return what `stitchCreateNode` returned.
`stitchSeamFindModelNode` does not: for every host and every input it creates
the scalar `CAMERA` for `numCam` and releases no scalar at all. -/
theorem constructors_give_scalars_back_but_one (K : StitchKernel → vx_enum) (graph : vx_graph) :
    (∀ (num_buff_rows num_buff_cols cam_buffer_width cam_buffer_height dst_width : vx_uint32)
        (rig_param : vx_matrix) (camera_param : vx_array) (InitializeStitchConfig : vx_matrix)
        (valid_pixels warp_remap overlap_pixel : vx_array) (overlap_count : vx_matrix)
        (warp_image exp_comp_image weight_image camera_id_image group1_image group2_image :
        vx_image) (exp_comp_calc : vx_array) (mask_image : vx_image) (overlap_rect seamfind_valid
        seamfind_accum seamfind_weight seamfind_pref seamfind_info twoband_blend : vx_array) (s :
        σ),
      GivesScalarsBack h (stitchInitializeStitchConfigNode h K graph num_buff_rows num_buff_cols
          cam_buffer_width cam_buffer_height dst_width rig_param camera_param
          InitializeStitchConfig valid_pixels warp_remap overlap_pixel overlap_count warp_image
          exp_comp_image weight_image camera_id_image group1_image group2_image exp_comp_calc
          mask_image overlap_rect seamfind_valid seamfind_accum seamfind_weight seamfind_pref
          seamfind_info twoband_blend s)) ∧
    (∀ (method : vx_enum) (num_cam : vx_uint32) (ValidPixelEntry WarpRemapEntry : vx_array)
        (input output outputLuma : vx_image) (num_camera_columns : vx_uint32) (s : σ),
      GivesScalarsBack h (stitchWarpNode h K graph method num_cam ValidPixelEntry WarpRemapEntry
          input output outputLuma num_camera_columns s)) ∧
    (∀ (num_buff_rows num_buff_cols cam_buffer_width cam_buffer_height dst_width : vx_uint32)
        (rig_param : vx_matrix) (camera_param : vx_array) (table : vx_remap) (s : σ),
      GivesScalarsBack h (stitchInitializeStitchRemapNode h K graph num_buff_rows num_buff_cols
          cam_buffer_width cam_buffer_height dst_width rig_param camera_param table s)) ∧
    (∀ (numCameras : vx_uint32) (input : vx_image) (exp_data : vx_array) (mask : vx_image)
        (out_intensity : vx_matrix) (s : σ),
      GivesScalarsBack h (stitchExposureCompCalcErrorFnNode h K graph numCameras input exp_data
          mask out_intensity s)) ∧
    (∀ (alpha beta : vx_float32) (in_intensity in_count : vx_matrix) (out_gains : vx_array) (s :
        σ),
      GivesScalarsBack h (stitchExposureCompSolveForGainNode h K graph alpha beta in_intensity
          in_count out_gains s)) ∧
    (∀ (current_frame : vx_scalar) (output_width output_height : vx_uint32) (magnitude_img
        phase_img mask_img : vx_image) (valid_seam pref_seam info_seam accum_seam : vx_array) (s
        : σ),
      GivesScalarsBack h (stitchSeamFindCostAccumulateNode h K graph current_frame output_width
          output_height magnitude_img phase_img mask_img valid_seam pref_seam info_seam
          accum_seam s)) ∧
    (∀ (current_frame : vx_scalar) (NumCam output_width output_height : vx_uint32) (seam_weight
        seam_path seam_pref : vx_array) (weight_image : vx_image) (flags : vx_uint32) (s : σ),
      GivesScalarsBack h (stitchSeamFindSetWeightsNode h K graph current_frame NumCam
          output_width output_height seam_weight seam_path seam_pref weight_image flags s)) ∧
    (∀ (num_cameras blend_array_offs : vx_uint32) (input weight_img : vx_image) (valid_arr :
        vx_array) (output : vx_image) (s : σ),
      GivesScalarsBack h (stitchMultiBandMergeNode h K graph num_cameras blend_array_offs input
          weight_img valid_arr output s)) ∧
    (∀ (num_cameras blend_array_offs : vx_uint32) (valid_arr : vx_array) (input output :
        vx_image) (s : σ),
      GivesScalarsBack h (stitchMultiBandHalfScaleGaussianNode h K graph num_cameras
          blend_array_offs valid_arr input output s)) ∧
    (∀ (num_cameras blend_array_offs : vx_uint32) (input1 input2 : vx_image) (valid_arr :
        vx_array) (weight_img output : vx_image) (s : σ),
      GivesScalarsBack h (stitchMultiBandUpscaleGaussianSubtractNode h K graph num_cameras
          blend_array_offs input1 input2 valid_arr weight_img output s)) ∧
    (∀ (num_cameras blend_array_offs : vx_uint32) (input1 input2 : vx_image) (valid_arr :
        vx_array) (output : vx_image) (s : σ),
      GivesScalarsBack h (stitchMultiBandUpscaleGaussianAddNode h K graph num_cameras
          blend_array_offs input1 input2 valid_arr output s)) ∧
    (∀ (num_cameras blend_array_offs : vx_uint32) (input1 input2 : vx_image) (valid_arr :
        vx_array) (output : vx_image) (s : σ),
      GivesScalarsBack h (stitchMultiBandLaplacianReconstructNode h K graph num_cameras
          blend_array_offs input1 input2 valid_arr output s)) ∧
    (∀ (numCam : vx_uint32) (overlap_roi : vx_array) (overlap_matrix : vx_matrix) (cost_img
        mask_img weight_image new_weight_image : vx_image) (s : σ),
      ¬ GivesScalarsBack h (stitchSeamFindModelNode h K graph numCam overlap_roi overlap_matrix
          cost_img mask_img weight_image new_weight_image s) ∧
      createdScalars (stitchSeamFindModelNode h K graph numCam overlap_roi overlap_matrix
          cost_img mask_img weight_image new_weight_image s).calls =
        [(vx_type_e.VX_TYPE_UINT32, ScalarValue.uint32 numCam,
          (h.createScalar (h.getContext graph s).1 vx_type_e.VX_TYPE_UINT32
            (ScalarValue.uint32 numCam) (h.getContext graph s).2).1)] ∧
      releasedScalars (stitchSeamFindModelNode h K graph numCam overlap_roi overlap_matrix
          cost_img mask_img weight_image new_weight_image s).calls = []) := by
  refine ⟨?_, ?_, ?_, ?_, ?_, ?_, ?_, ?_, ?_, ?_, ?_, ?_, ?_⟩
  · intro num_buff_rows num_buff_cols cam_buffer_width cam_buffer_height dst_width rig_param
      camera_param InitializeStitchConfig valid_pixels warp_remap overlap_pixel overlap_count
      warp_image exp_comp_image weight_image camera_id_image group1_image group2_image
      exp_comp_calc mask_image overlap_rect seamfind_valid seamfind_accum seamfind_weight
      seamfind_pref seamfind_info twoband_blend s
    refine ⟨(stitchInitializeStitchConfigNode h K graph num_buff_rows num_buff_cols
        cam_buffer_width cam_buffer_height dst_width rig_param camera_param
        InitializeStitchConfig valid_pixels warp_remap overlap_pixel overlap_count warp_image
        exp_comp_image weight_image camera_id_image group1_image group2_image exp_comp_calc
        mask_image overlap_rect seamfind_valid seamfind_accum seamfind_weight seamfind_pref
        seamfind_info twoband_blend s).calls.take 6,
      _, _, _, _, _, ?_, ?_, rfl, ?_⟩ <;>
    simp [stitchInitializeStitchConfigNode, HostM.bind_run, HostM.pure_run, vxGetContext,
        vxCreateScalar,
      vxReleaseScalar, createdHandles, createdScalars_cons, createdScalars_nil,
      Call.asCreatedScalar, releasedScalars_cons, releasedScalars_nil,
      Call.asReleasedScalar, nodeRequests_cons, nodeRequests_nil, Call.asNodeRequest]
  · intro method num_cam ValidPixelEntry WarpRemapEntry input output outputLuma
      num_camera_columns s
    refine ⟨(stitchWarpNode h K graph method num_cam ValidPixelEntry WarpRemapEntry input output
        outputLuma num_camera_columns s).calls.take 6,
      _, _, _, _, _, ?_, ?_, rfl, ?_⟩ <;>
    simp [stitchWarpNode, HostM.bind_run, HostM.pure_run, vxGetContext, vxCreateScalar,
      vxReleaseScalar, createdHandles, createdScalars_cons, createdScalars_nil,
      Call.asCreatedScalar, releasedScalars_cons, releasedScalars_nil,
      Call.asReleasedScalar, nodeRequests_cons, nodeRequests_nil, Call.asNodeRequest]
  · intro num_buff_rows num_buff_cols cam_buffer_width cam_buffer_height dst_width rig_param
      camera_param table s
    refine ⟨(stitchInitializeStitchRemapNode h K graph num_buff_rows num_buff_cols
        cam_buffer_width cam_buffer_height dst_width rig_param camera_param table s).calls.take 6,
      _, _, _, _, _, ?_, ?_, rfl, ?_⟩ <;>
    simp [stitchInitializeStitchRemapNode, HostM.bind_run, HostM.pure_run, vxGetContext,
        vxCreateScalar,
      vxReleaseScalar, createdHandles, createdScalars_cons, createdScalars_nil,
      Call.asCreatedScalar, releasedScalars_cons, releasedScalars_nil,
      Call.asReleasedScalar, nodeRequests_cons, nodeRequests_nil, Call.asNodeRequest]
  · intro numCameras input exp_data mask out_intensity s
    refine ⟨(stitchExposureCompCalcErrorFnNode h K graph numCameras input exp_data mask
        out_intensity s).calls.take 2,
      _, _, _, _, _, ?_, ?_, rfl, ?_⟩ <;>
    simp [stitchExposureCompCalcErrorFnNode, HostM.bind_run, HostM.pure_run, vxGetContext,
        vxCreateScalar,
      vxReleaseScalar, createdHandles, createdScalars_cons, createdScalars_nil,
      Call.asCreatedScalar, releasedScalars_cons, releasedScalars_nil,
      Call.asReleasedScalar, nodeRequests_cons, nodeRequests_nil, Call.asNodeRequest]
  · intro alpha beta in_intensity in_count out_gains s
    refine ⟨(stitchExposureCompSolveForGainNode h K graph alpha beta in_intensity in_count
        out_gains s).calls.take 4,
      _, _, _, _, _, ?_, ?_, rfl, ?_⟩ <;>
    simp [stitchExposureCompSolveForGainNode, HostM.bind_run, HostM.pure_run, vxGetContext,
        vxCreateScalar,
      vxReleaseScalar, createdHandles, createdScalars_cons, createdScalars_nil,
      Call.asCreatedScalar, releasedScalars_cons, releasedScalars_nil,
      Call.asReleasedScalar, nodeRequests_cons, nodeRequests_nil, Call.asNodeRequest]
  · intro current_frame output_width output_height magnitude_img phase_img mask_img valid_seam
      pref_seam info_seam accum_seam s
    refine ⟨(stitchSeamFindCostAccumulateNode h K graph current_frame output_width output_height
        magnitude_img phase_img mask_img valid_seam pref_seam info_seam accum_seam s).calls.take
        4,
      _, _, _, _, _, ?_, ?_, rfl, ?_⟩ <;>
    simp [stitchSeamFindCostAccumulateNode, HostM.bind_run, HostM.pure_run, vxGetContext,
        vxCreateScalar,
      vxReleaseScalar, createdHandles, createdScalars_cons, createdScalars_nil,
      Call.asCreatedScalar, releasedScalars_cons, releasedScalars_nil,
      Call.asReleasedScalar, nodeRequests_cons, nodeRequests_nil, Call.asNodeRequest]
  · intro current_frame NumCam output_width output_height seam_weight seam_path seam_pref
      weight_image flags s
    refine ⟨(stitchSeamFindSetWeightsNode h K graph current_frame NumCam output_width
        output_height seam_weight seam_path seam_pref weight_image flags s).calls.take 8,
      _, _, _, _, _, ?_, ?_, rfl, ?_⟩ <;>
    simp [stitchSeamFindSetWeightsNode, HostM.bind_run, HostM.pure_run, vxGetContext,
        vxCreateScalar,
      vxReleaseScalar, createdHandles, createdScalars_cons, createdScalars_nil,
      Call.asCreatedScalar, releasedScalars_cons, releasedScalars_nil,
      Call.asReleasedScalar, nodeRequests_cons, nodeRequests_nil, Call.asNodeRequest]
  · intro num_cameras blend_array_offs input weight_img valid_arr output s
    refine ⟨(stitchMultiBandMergeNode h K graph num_cameras blend_array_offs input weight_img
        valid_arr output s).calls.take 4,
      _, _, _, _, _, ?_, ?_, rfl, ?_⟩ <;>
    simp [stitchMultiBandMergeNode, HostM.bind_run, HostM.pure_run, vxGetContext, vxCreateScalar,
      vxReleaseScalar, createdHandles, createdScalars_cons, createdScalars_nil,
      Call.asCreatedScalar, releasedScalars_cons, releasedScalars_nil,
      Call.asReleasedScalar, nodeRequests_cons, nodeRequests_nil, Call.asNodeRequest]
  · intro num_cameras blend_array_offs valid_arr input output s
    refine ⟨(stitchMultiBandHalfScaleGaussianNode h K graph num_cameras blend_array_offs
        valid_arr input output s).calls.take 4,
      _, _, _, _, _, ?_, ?_, rfl, ?_⟩ <;>
    simp [stitchMultiBandHalfScaleGaussianNode, HostM.bind_run, HostM.pure_run, vxGetContext,
        vxCreateScalar,
      vxReleaseScalar, createdHandles, createdScalars_cons, createdScalars_nil,
      Call.asCreatedScalar, releasedScalars_cons, releasedScalars_nil,
      Call.asReleasedScalar, nodeRequests_cons, nodeRequests_nil, Call.asNodeRequest]
  · intro num_cameras blend_array_offs input1 input2 valid_arr weight_img output s
    refine ⟨(stitchMultiBandUpscaleGaussianSubtractNode h K graph num_cameras blend_array_offs
        input1 input2 valid_arr weight_img output s).calls.take 4,
      _, _, _, _, _, ?_, ?_, rfl, ?_⟩ <;>
    simp [stitchMultiBandUpscaleGaussianSubtractNode, HostM.bind_run, HostM.pure_run,
        vxGetContext, vxCreateScalar,
      vxReleaseScalar, createdHandles, createdScalars_cons, createdScalars_nil,
      Call.asCreatedScalar, releasedScalars_cons, releasedScalars_nil,
      Call.asReleasedScalar, nodeRequests_cons, nodeRequests_nil, Call.asNodeRequest]
  · intro num_cameras blend_array_offs input1 input2 valid_arr output s
    refine ⟨(stitchMultiBandUpscaleGaussianAddNode h K graph num_cameras blend_array_offs input1
        input2 valid_arr output s).calls.take 4,
      _, _, _, _, _, ?_, ?_, rfl, ?_⟩ <;>
    simp [stitchMultiBandUpscaleGaussianAddNode, HostM.bind_run, HostM.pure_run, vxGetContext,
        vxCreateScalar,
      vxReleaseScalar, createdHandles, createdScalars_cons, createdScalars_nil,
      Call.asCreatedScalar, releasedScalars_cons, releasedScalars_nil,
      Call.asReleasedScalar, nodeRequests_cons, nodeRequests_nil, Call.asNodeRequest]
  · intro num_cameras blend_array_offs input1 input2 valid_arr output s
    refine ⟨(stitchMultiBandLaplacianReconstructNode h K graph num_cameras blend_array_offs
        input1 input2 valid_arr output s).calls.take 4,
      _, _, _, _, _, ?_, ?_, rfl, ?_⟩ <;>
    simp [stitchMultiBandLaplacianReconstructNode, HostM.bind_run, HostM.pure_run, vxGetContext,
        vxCreateScalar,
      vxReleaseScalar, createdHandles, createdScalars_cons, createdScalars_nil,
      Call.asCreatedScalar, releasedScalars_cons, releasedScalars_nil,
      Call.asReleasedScalar, nodeRequests_cons, nodeRequests_nil, Call.asNodeRequest]
  · intro numCam overlap_roi overlap_matrix cost_img mask_img weight_image new_weight_image s
    have hcreated : createdScalars (stitchSeamFindModelNode h K graph numCam overlap_roi
        overlap_matrix cost_img mask_img weight_image new_weight_image s).calls =
        [(vx_type_e.VX_TYPE_UINT32, ScalarValue.uint32 numCam,
          (h.createScalar (h.getContext graph s).1 vx_type_e.VX_TYPE_UINT32
            (ScalarValue.uint32 numCam) (h.getContext graph s).2).1)] := by
      simp [stitchSeamFindModelNode, HostM.bind_run, HostM.pure_run, vxGetContext,
        vxCreateScalar, createdScalars_cons, createdScalars_nil, createdScalars_append,
        createdScalars_stitchCreateNode, Call.asCreatedScalar]
    have hreleased : releasedScalars (stitchSeamFindModelNode h K graph numCam overlap_roi
        overlap_matrix cost_img mask_img weight_image new_weight_image s).calls = [] := by
      simp [stitchSeamFindModelNode, HostM.bind_run, HostM.pure_run, vxGetContext,
        vxCreateScalar, releasedScalars_cons, releasedScalars_nil, releasedScalars_append,
        releasedScalars_stitchCreateNode, Call.asReleasedScalar]
    refine ⟨?_, hcreated, hreleased⟩
    rintro ⟨pre, g, e, ps, n, s1, hrel, _, _, hcalls⟩
    have h1 := hcreated
    rw [hcalls, createdScalars_append, createdScalars_append, createdScalars_stitchCreateNode,
      createdScalars_releases, List.append_nil, List.append_nil] at h1
    have h2 := hreleased
    rw [hcalls, releasedScalars_append, releasedScalars_append,
      releasedScalars_stitchCreateNode, releasedScalars_releases, hrel, List.append_nil,
      List.nil_append, createdHandles, h1] at h2
    simp at h2

/-- C14. `StitchGetEnvironmentVariable` (branch without `_WIN32`), for a buffer of
at least `valueSize` characters, `valueSize ≥ 1`, and a variable whose value
holds no NUL: the call has a result; it returns true if and only if the
variable is defined.  When the variable is not defined the buffer is
unchanged.  When it is defined with value `v`, the buffer holds the first
`min(len(v), valueSize - 1)` characters of `v`, then NULs up to `valueSize`,
then its old content: the string it holds is that prefix of `v`, there is a NUL
right after it, and the string is `v` itself when `len(v) < valueSize`. -/
theorem StitchGetEnvironmentVariable_spec (getenv : String → Option (List Nat))
    (name : String) (value : List Nat) (valueSize : Nat)
    (hsize : 1 ≤ valueSize) (hbuf : valueSize ≤ value.length) (hmax : valueSize ≤ SIZE_MAX)
    (hstr : ∀ v, getenv name = some v → ∀ c ∈ v, c ≠ 0) :
    ∃ ret value1, StitchGetEnvironmentVariable getenv name value valueSize =
        some (ret, value1) ∧
      (ret = true ↔ (getenv name).isSome = true) ∧
      value1.length = value.length ∧
      ((getenv name = none ∧ ret = false ∧ value1 = value) ∨
        (∃ v, getenv name = some v ∧ ret = true ∧
          value1 = v.take (min v.length (valueSize - 1)) ++
            List.replicate (valueSize - min v.length (valueSize - 1)) 0 ++
            value.drop valueSize ∧
          cstring value1 = v.take (min v.length (valueSize - 1)) ∧
          value1[min v.length (valueSize - 1)]? = some 0 ∧
          (valueSize ≤ v.length ∨ cstring value1 = v))) := by
  cases hv : getenv name with
  | none =>
    exact ⟨false, value, by simp [StitchGetEnvironmentVariable, hv], by simp, rfl,
      Or.inl ⟨rfl, rfl, rfl⟩⟩
  | some v =>
    have hnz := hstr v hv
    have hlen1 : (v.take valueSize ++ List.replicate (valueSize - v.length) 0 ++
        value.drop valueSize).length = value.length := by
      simp only [List.length_append, List.length_take, List.length_replicate, List.length_drop]
      omega
    have hrun : StitchGetEnvironmentVariable getenv name value valueSize =
        some (true, v.take (min v.length (valueSize - 1)) ++
          List.replicate (valueSize - min v.length (valueSize - 1)) 0 ++
          value.drop valueSize) := by
      simp only [StitchGetEnvironmentVariable, hv, strncpy, storeChar, if_pos hbuf,
        sizePred_eq valueSize hsize hmax]
      rw [if_pos (by rw [hlen1]; omega), terminated_eq value v valueSize hsize]
    obtain ⟨k, hk⟩ : ∃ k, valueSize - min v.length (valueSize - 1) = k + 1 :=
      ⟨valueSize - min v.length (valueSize - 1) - 1, by omega⟩
    have hpre : ∀ c ∈ v.take (min v.length (valueSize - 1)), c ≠ 0 :=
      fun c hc => hnz c (List.mem_of_mem_take hc)
    have hcs : cstring (v.take (min v.length (valueSize - 1)) ++
        List.replicate (valueSize - min v.length (valueSize - 1)) 0 ++
        value.drop valueSize) = v.take (min v.length (valueSize - 1)) := by
      rw [hk]
      exact cstring_terminated _ _ k hpre
    refine ⟨true, _, hrun, by simp, ?_, Or.inr ⟨v, rfl, rfl, rfl, hcs, ?_, ?_⟩⟩
    · simp only [List.length_append, List.length_take, List.length_replicate,
        List.length_drop]
      omega
    · rw [hk, List.append_assoc, List.getElem?_append_right (by simp [List.length_take])]
      simp [List.length_take, List.replicate_succ]
    · by_cases hle : valueSize ≤ v.length
      · exact Or.inl hle
      · right
        rw [hcs]
        exact List.take_of_length_le (by omega)

/-- C14, witness: in `sampleEnv`, `HOME` is `/r`; read into a buffer of four
characters with `valueSize` 2, the call returns true and leaves `/` and a NUL in
front of the old content. -/
theorem StitchGetEnvironmentVariable_spec_witness :
    StitchGetEnvironmentVariable sampleEnv "HOME" [1, 1, 1, 1] 2 = some (true, [47, 0, 1, 1]) ∧
    ∃ ret value1, StitchGetEnvironmentVariable sampleEnv "HOME" [1, 1, 1, 1] 2 =
        some (ret, value1) ∧
      (ret = true ↔ (sampleEnv "HOME").isSome = true) ∧
      value1.length = [1, 1, 1, 1].length ∧
      ((sampleEnv "HOME" = none ∧ ret = false ∧ value1 = [1, 1, 1, 1]) ∨
        (∃ v, sampleEnv "HOME" = some v ∧ ret = true ∧
          value1 = v.take (min v.length (2 - 1)) ++
            List.replicate (2 - min v.length (2 - 1)) 0 ++ [1, 1, 1, 1].drop 2 ∧
          cstring value1 = v.take (min v.length (2 - 1)) ∧
          value1[min v.length (2 - 1)]? = some 0 ∧
          (2 ≤ v.length ∨ cstring value1 = v))) :=
  ⟨by decide,
    StitchGetEnvironmentVariable_spec sampleEnv "HOME" [1, 1, 1, 1] 2 (by decide) (by decide)
      (by decide) (by
        intro v hv c hc
        have : v = [47, 114] := by
          have h2 : sampleEnv "HOME" = some [47, 114] := by decide
          rw [h2] at hv
          exact (Option.some.inj hv).symm
        subst this
        revert c
        decide)⟩

end Claims

end Loomsl
